import Mathlib

/-!
# libsixel: dither context (src/dither.c) and conversion driver (converters/img2sixel.c)

A shallow embedding of the dither context of `src/dither.c` and of the functions
`convert_to_sixel` and `main` of `converters/img2sixel.c`, with the properties
proved about them.

Conventions of the embedding.

* C `int` values are integers (`Int`) in the range `INT_MIN .. INT_MAX`; a product
  that leaves the range is reduced modulo 2^32 (`wrap_int`), and `/` of C is
  `Int.tdiv` (truncation toward zero), undefined for a zero divisor (`int_div`).
* Undefined behaviour (a division by zero, a copy past the end of an object, a write to
  a `const` object) is `none`, or the flag `trap` in the record of `convert_to_sixel`.
* A pointer that is either `NULL` or valid is an `Option`.
* The header `sixel.h` and the collaborators of `quant.c` / `scale.c` are not part of
  the sources: the enumerators are a parameter (`SixelHeader`), the
  collaborators are function parameters.
* `malloc` / `calloc` outcomes are explicit Boolean parameters.
* Acquisitions and releases of the buffers of `convert_to_sixel` are a log of events.
* The returns of `getopt_long` and the libc functions `main` calls are parameters.
-/

namespace Sixel

/-! ## Constants of `sixel.h` -/

/-- The enumerators of `sixel.h` that `dither.c` and `img2sixel.c` use.  The header is not
among the sources, so the numeric values are a parameter; all that is assumed is
what C guarantees for enumerators declared without explicit values: within one
enumeration they are pairwise distinct. -/
structure SixelHeader where
  LARGE_AUTO : Int
  LARGE_NORM : Int
  LARGE_LUM : Int
  REP_AUTO : Int
  REP_CENTER_BOX : Int
  REP_AVERAGE_COLORS : Int
  REP_AVERAGE_PIXELS : Int
  DIFFUSE_AUTO : Int
  DIFFUSE_NONE : Int
  DIFFUSE_ATKINSON : Int
  DIFFUSE_FS : Int
  DIFFUSE_JAJUNI : Int
  DIFFUSE_STUCKI : Int
  DIFFUSE_BURKES : Int
  QUALITY_AUTO : Int
  QUALITY_HIGH : Int
  QUALITY_LOW : Int
  QUALITY_FULL : Int
  BUILTIN_MONO_DARK : Int
  BUILTIN_MONO_LIGHT : Int
  BUILTIN_XTERM16 : Int
  BUILTIN_XTERM256 : Int
  largest_nodup : [LARGE_AUTO, LARGE_NORM, LARGE_LUM].Nodup
  rep_nodup : [REP_AUTO, REP_CENTER_BOX, REP_AVERAGE_COLORS, REP_AVERAGE_PIXELS].Nodup
  diffuse_nodup : [DIFFUSE_AUTO, DIFFUSE_NONE, DIFFUSE_ATKINSON, DIFFUSE_FS,
    DIFFUSE_JAJUNI, DIFFUSE_STUCKI, DIFFUSE_BURKES].Nodup
  quality_nodup : [QUALITY_AUTO, QUALITY_HIGH, QUALITY_LOW, QUALITY_FULL].Nodup
  builtin_nodup : [BUILTIN_MONO_DARK, BUILTIN_MONO_LIGHT, BUILTIN_XTERM16,
    BUILTIN_XTERM256].Nodup

/-- One header satisfying `SixelHeader`: every enumeration numbered from 0 in the order
of the fields above.  Used for the concrete instances below. -/
def sixel_h : SixelHeader where
  LARGE_AUTO := 0
  LARGE_NORM := 1
  LARGE_LUM := 2
  REP_AUTO := 0
  REP_CENTER_BOX := 1
  REP_AVERAGE_COLORS := 2
  REP_AVERAGE_PIXELS := 3
  DIFFUSE_AUTO := 0
  DIFFUSE_NONE := 1
  DIFFUSE_ATKINSON := 2
  DIFFUSE_FS := 3
  DIFFUSE_JAJUNI := 4
  DIFFUSE_STUCKI := 5
  DIFFUSE_BURKES := 6
  QUALITY_AUTO := 0
  QUALITY_HIGH := 1
  QUALITY_LOW := 2
  QUALITY_FULL := 3
  BUILTIN_MONO_DARK := 0
  BUILTIN_MONO_LIGHT := 1
  BUILTIN_XTERM16 := 2
  BUILTIN_XTERM256 := 3
  largest_nodup := by decide
  rep_nodup := by decide
  diffuse_nodup := by decide
  quality_nodup := by decide
  builtin_nodup := by decide

/-- Modelled from the spec: the macro `SIXEL_PALETTE_MAX` of `sixel.h` (header not among
the sources); the spec gives the maximum supported palette size as 256, the value
`sixel_dither_create` itself stores for the sentinel and for an over-large request. -/
def SIXEL_PALETTE_MAX : Int := 256

/-! ## Arithmetic of the C type `int` -/

/-- Macro `INT_MAX` of `<limits.h>` for the 32-bit `int` of the platforms the program is
built for. -/
def INT_MAX : Int := 2147483647

/-- Macro `INT_MIN` of `<limits.h>` for a 32-bit `int`. -/
def INT_MIN : Int := -2147483648

/-- The `int` a sum or product is stored as: the two's-complement value of its low 32
bits.  (Signed overflow is undefined in C; the compiled code keeps the low 32 bits.) -/
def wrap_int (x : Int) : Int :=
  (x + 2147483648) % 4294967296 - 2147483648

/-- C `a / b` on `int`: truncation toward zero; `none` where the division is undefined
(a zero divisor, or `INT_MIN / -1`, whose quotient is not an `int`), which traps. -/
def int_div (a b : Int) : Option Int :=
  if b = 0 ∨ (a = INT_MIN ∧ b = -1) then none else some (Int.tdiv a b)

/-! ## Static palette tables of `dither.c` -/

/-- The table `pal_mono_dark` of `dither.c`. -/
def pal_mono_dark : List Nat := [0x00, 0x00, 0x00, 0xff, 0xff, 0xff]

/-- The table `pal_mono_light` of `dither.c`. -/
def pal_mono_light : List Nat := [0xff, 0xff, 0xff, 0x00, 0x00, 0x00]

/-- The table `pal_xterm256` of `dither.c` (256 RGB triples). -/
def pal_xterm256 : List Nat := [
   0x00, 0x00, 0x00, 0x80, 0x00, 0x00, 0x00, 0x80, 0x00, 0x80, 0x80, 0x00,
   0x00, 0x00, 0x80, 0x80, 0x00, 0x80, 0x00, 0x80, 0x80, 0xc0, 0xc0, 0xc0,
   0x80, 0x80, 0x80, 0xff, 0x00, 0x00, 0x00, 0xff, 0x00, 0xff, 0xff, 0x00,
   0x00, 0x00, 0xff, 0xff, 0x00, 0xff, 0x00, 0xff, 0xff, 0xff, 0xff, 0xff,
   0x00, 0x00, 0x00, 0x00, 0x00, 0x5f, 0x00, 0x00, 0x87, 0x00, 0x00, 0xaf,
   0x00, 0x00, 0xd7, 0x00, 0x00, 0xff, 0x00, 0x5f, 0x00, 0x00, 0x5f, 0x5f,
   0x00, 0x5f, 0x87, 0x00, 0x5f, 0xaf, 0x00, 0x5f, 0xd7, 0x00, 0x5f, 0xff,
   0x00, 0x87, 0x00, 0x00, 0x87, 0x5f, 0x00, 0x87, 0x87, 0x00, 0x87, 0xaf,
   0x00, 0x87, 0xd7, 0x00, 0x87, 0xff, 0x00, 0xaf, 0x00, 0x00, 0xaf, 0x5f,
   0x00, 0xaf, 0x87, 0x00, 0xaf, 0xaf, 0x00, 0xaf, 0xd7, 0x00, 0xaf, 0xff,
   0x00, 0xd7, 0x00, 0x00, 0xd7, 0x5f, 0x00, 0xd7, 0x87, 0x00, 0xd7, 0xaf,
   0x00, 0xd7, 0xd7, 0x00, 0xd7, 0xff, 0x00, 0xff, 0x00, 0x00, 0xff, 0x5f,
   0x00, 0xff, 0x87, 0x00, 0xff, 0xaf, 0x00, 0xff, 0xd7, 0x00, 0xff, 0xff,
   0x5f, 0x00, 0x00, 0x5f, 0x00, 0x5f, 0x5f, 0x00, 0x87, 0x5f, 0x00, 0xaf,
   0x5f, 0x00, 0xd7, 0x5f, 0x00, 0xff, 0x5f, 0x5f, 0x00, 0x5f, 0x5f, 0x5f,
   0x5f, 0x5f, 0x87, 0x5f, 0x5f, 0xaf, 0x5f, 0x5f, 0xd7, 0x5f, 0x5f, 0xff,
   0x5f, 0x87, 0x00, 0x5f, 0x87, 0x5f, 0x5f, 0x87, 0x87, 0x5f, 0x87, 0xaf,
   0x5f, 0x87, 0xd7, 0x5f, 0x87, 0xff, 0x5f, 0xaf, 0x00, 0x5f, 0xaf, 0x5f,
   0x5f, 0xaf, 0x87, 0x5f, 0xaf, 0xaf, 0x5f, 0xaf, 0xd7, 0x5f, 0xaf, 0xff,
   0x5f, 0xd7, 0x00, 0x5f, 0xd7, 0x5f, 0x5f, 0xd7, 0x87, 0x5f, 0xd7, 0xaf,
   0x5f, 0xd7, 0xd7, 0x5f, 0xd7, 0xff, 0x5f, 0xff, 0x00, 0x5f, 0xff, 0x5f,
   0x5f, 0xff, 0x87, 0x5f, 0xff, 0xaf, 0x5f, 0xff, 0xd7, 0x5f, 0xff, 0xff,
   0x87, 0x00, 0x00, 0x87, 0x00, 0x5f, 0x87, 0x00, 0x87, 0x87, 0x00, 0xaf,
   0x87, 0x00, 0xd7, 0x87, 0x00, 0xff, 0x87, 0x5f, 0x00, 0x87, 0x5f, 0x5f,
   0x87, 0x5f, 0x87, 0x87, 0x5f, 0xaf, 0x87, 0x5f, 0xd7, 0x87, 0x5f, 0xff,
   0x87, 0x87, 0x00, 0x87, 0x87, 0x5f, 0x87, 0x87, 0x87, 0x87, 0x87, 0xaf,
   0x87, 0x87, 0xd7, 0x87, 0x87, 0xff, 0x87, 0xaf, 0x00, 0x87, 0xaf, 0x5f,
   0x87, 0xaf, 0x87, 0x87, 0xaf, 0xaf, 0x87, 0xaf, 0xd7, 0x87, 0xaf, 0xff,
   0x87, 0xd7, 0x00, 0x87, 0xd7, 0x5f, 0x87, 0xd7, 0x87, 0x87, 0xd7, 0xaf,
   0x87, 0xd7, 0xd7, 0x87, 0xd7, 0xff, 0x87, 0xff, 0x00, 0x87, 0xff, 0x5f,
   0x87, 0xff, 0x87, 0x87, 0xff, 0xaf, 0x87, 0xff, 0xd7, 0x87, 0xff, 0xff,
   0xaf, 0x00, 0x00, 0xaf, 0x00, 0x5f, 0xaf, 0x00, 0x87, 0xaf, 0x00, 0xaf,
   0xaf, 0x00, 0xd7, 0xaf, 0x00, 0xff, 0xaf, 0x5f, 0x00, 0xaf, 0x5f, 0x5f,
   0xaf, 0x5f, 0x87, 0xaf, 0x5f, 0xaf, 0xaf, 0x5f, 0xd7, 0xaf, 0x5f, 0xff,
   0xaf, 0x87, 0x00, 0xaf, 0x87, 0x5f, 0xaf, 0x87, 0x87, 0xaf, 0x87, 0xaf,
   0xaf, 0x87, 0xd7, 0xaf, 0x87, 0xff, 0xaf, 0xaf, 0x00, 0xaf, 0xaf, 0x5f,
   0xaf, 0xaf, 0x87, 0xaf, 0xaf, 0xaf, 0xaf, 0xaf, 0xd7, 0xaf, 0xaf, 0xff,
   0xaf, 0xd7, 0x00, 0xaf, 0xd7, 0x5f, 0xaf, 0xd7, 0x87, 0xaf, 0xd7, 0xaf,
   0xaf, 0xd7, 0xd7, 0xaf, 0xd7, 0xff, 0xaf, 0xff, 0x00, 0xaf, 0xff, 0x5f,
   0xaf, 0xff, 0x87, 0xaf, 0xff, 0xaf, 0xaf, 0xff, 0xd7, 0xaf, 0xff, 0xff,
   0xd7, 0x00, 0x00, 0xd7, 0x00, 0x5f, 0xd7, 0x00, 0x87, 0xd7, 0x00, 0xaf,
   0xd7, 0x00, 0xd7, 0xd7, 0x00, 0xff, 0xd7, 0x5f, 0x00, 0xd7, 0x5f, 0x5f,
   0xd7, 0x5f, 0x87, 0xd7, 0x5f, 0xaf, 0xd7, 0x5f, 0xd7, 0xd7, 0x5f, 0xff,
   0xd7, 0x87, 0x00, 0xd7, 0x87, 0x5f, 0xd7, 0x87, 0x87, 0xd7, 0x87, 0xaf,
   0xd7, 0x87, 0xd7, 0xd7, 0x87, 0xff, 0xd7, 0xaf, 0x00, 0xd7, 0xaf, 0x5f,
   0xd7, 0xaf, 0x87, 0xd7, 0xaf, 0xaf, 0xd7, 0xaf, 0xd7, 0xd7, 0xaf, 0xff,
   0xd7, 0xd7, 0x00, 0xd7, 0xd7, 0x5f, 0xd7, 0xd7, 0x87, 0xd7, 0xd7, 0xaf,
   0xd7, 0xd7, 0xd7, 0xd7, 0xd7, 0xff, 0xd7, 0xff, 0x00, 0xd7, 0xff, 0x5f,
   0xd7, 0xff, 0x87, 0xd7, 0xff, 0xaf, 0xd7, 0xff, 0xd7, 0xd7, 0xff, 0xff,
   0xff, 0x00, 0x00, 0xff, 0x00, 0x5f, 0xff, 0x00, 0x87, 0xff, 0x00, 0xaf,
   0xff, 0x00, 0xd7, 0xff, 0x00, 0xff, 0xff, 0x5f, 0x00, 0xff, 0x5f, 0x5f,
   0xff, 0x5f, 0x87, 0xff, 0x5f, 0xaf, 0xff, 0x5f, 0xd7, 0xff, 0x5f, 0xff,
   0xff, 0x87, 0x00, 0xff, 0x87, 0x5f, 0xff, 0x87, 0x87, 0xff, 0x87, 0xaf,
   0xff, 0x87, 0xd7, 0xff, 0x87, 0xff, 0xff, 0xaf, 0x00, 0xff, 0xaf, 0x5f,
   0xff, 0xaf, 0x87, 0xff, 0xaf, 0xaf, 0xff, 0xaf, 0xd7, 0xff, 0xaf, 0xff,
   0xff, 0xd7, 0x00, 0xff, 0xd7, 0x5f, 0xff, 0xd7, 0x87, 0xff, 0xd7, 0xaf,
   0xff, 0xd7, 0xd7, 0xff, 0xd7, 0xff, 0xff, 0xff, 0x00, 0xff, 0xff, 0x5f,
   0xff, 0xff, 0x87, 0xff, 0xff, 0xaf, 0xff, 0xff, 0xd7, 0xff, 0xff, 0xff,
   0x08, 0x08, 0x08, 0x12, 0x12, 0x12, 0x1c, 0x1c, 0x1c, 0x26, 0x26, 0x26,
   0x30, 0x30, 0x30, 0x3a, 0x3a, 0x3a, 0x44, 0x44, 0x44, 0x4e, 0x4e, 0x4e,
   0x58, 0x58, 0x58, 0x62, 0x62, 0x62, 0x6c, 0x6c, 0x6c, 0x76, 0x76, 0x76,
   0x80, 0x80, 0x80, 0x8a, 0x8a, 0x8a, 0x94, 0x94, 0x94, 0x9e, 0x9e, 0x9e,
   0xa8, 0xa8, 0xa8, 0xb2, 0xb2, 0xb2, 0xbc, 0xbc, 0xbc, 0xc6, 0xc6, 0xc6,
   0xd0, 0xd0, 0xd0, 0xda, 0xda, 0xda, 0xe4, 0xe4, 0xe4, 0xee, 0xee, 0xee
  ]

/-- Contents of the three static tables, the memory `dither->palette` of a context bound
to a builtin points at.  The arrays are declared `static const`: no operation changes
them, and a write through a pointer to them is undefined behaviour (the store faults
and the table keeps its contents). -/
structure Tables where
  pal_mono_dark : List Nat
  pal_mono_light : List Nat
  pal_xterm256 : List Nat
deriving DecidableEq

/-- The static tables as initialised at program start. -/
def Tables.initial : Tables :=
  { pal_mono_dark := Sixel.pal_mono_dark
    pal_mono_light := Sixel.pal_mono_light
    pal_xterm256 := Sixel.pal_xterm256 }

/-! ## The dither context -/

/-- Values of the field `palette` of a context: the palette area allocated right behind
the header (`(unsigned char*)(dither + 1)`) or one of the static tables. -/
inductive PalettePtr where
  | own
  | pal_mono_dark
  | pal_mono_light
  | pal_xterm256
deriving DecidableEq

/-- The struct `sixel_dither_t`, with the fields `dither.c` reads and writes.  `data` is
the palette area behind the header (`datasize` bytes, `none` for a byte that has
not been written since `malloc`); `cachetable` is `NULL` or the table contents. -/
structure sixel_dither_t where
  ref : Int
  palette : PalettePtr
  cachetable : Option (List Nat)
  reqcolors : Int
  ncolors : Int
  origcolors : Int
  keycolor : Int
  optimized : Int
  complexion : Int
  bodyonly : Int
  method_for_largest : Int
  method_for_rep : Int
  method_for_diffuse : Int
  quality_mode : Int
  data : List (Option Nat)
deriving DecidableEq

/-- Function `sixel_dither_create`.  `malloc_ok` tells whether `malloc(wholesize)`
returns a block. -/
def sixel_dither_create (K : SixelHeader) (malloc_ok : Bool) (ncolors : Int) :
    Option sixel_dither_t :=
  let nq : Int × Int :=
    if ncolors = -1 then
      (256, K.QUALITY_FULL)
    else
      ((if ncolors > SIXEL_PALETTE_MAX then 256
        else if ncolors < 2 then 2
        else ncolors), K.QUALITY_LOW)
  let ncolors := nq.1
  let quality_mode := nq.2
  let datasize := ncolors * 3
  if !malloc_ok then
    none
  else
    some
      { ref := 1
        palette := PalettePtr.own
        cachetable := none
        reqcolors := ncolors
        ncolors := ncolors
        origcolors := -1
        keycolor := -1
        optimized := 0
        complexion := 1
        bodyonly := 0
        method_for_largest := K.LARGE_NORM
        method_for_rep := K.REP_CENTER_BOX
        method_for_diffuse := K.DIFFUSE_FS
        quality_mode := quality_mode
        data := List.replicate datasize.toNat none }

/-- Function `sixel_dither_get`. -/
def sixel_dither_get (K : SixelHeader) (malloc_ok : Bool) (builtin_dither : Int) :
    Option sixel_dither_t :=
  let sel : Option (Int × PalettePtr × Int) :=
    if builtin_dither = K.BUILTIN_MONO_DARK then
      some (2, PalettePtr.pal_mono_dark, 0)
    else if builtin_dither = K.BUILTIN_MONO_LIGHT then
      some (2, PalettePtr.pal_mono_light, 0)
    else if builtin_dither = K.BUILTIN_XTERM16 then
      some (16, PalettePtr.pal_xterm256, -1)
    else if builtin_dither = K.BUILTIN_XTERM256 then
      some (256, PalettePtr.pal_xterm256, -1)
    else
      none
  match sel with
  | none => none
  | some (ncolors, palette, keycolor) =>
    match sixel_dither_create K malloc_ok ncolors with
    | some dither => some { dither with palette := palette, keycolor := keycolor, optimized := 1 }
    | none => none

/-- The bytes `dither->palette` points at. -/
def palette_bytes (t : Tables) (dither : sixel_dither_t) : List (Option Nat) :=
  match dither.palette with
  | PalettePtr.own => dither.data
  | PalettePtr.pal_mono_dark => t.pal_mono_dark.map some
  | PalettePtr.pal_mono_light => t.pal_mono_light.map some
  | PalettePtr.pal_xterm256 => t.pal_xterm256.map some

/-- Function `sixel_dither_set_method_for_largest`. -/
def sixel_dither_set_method_for_largest (K : SixelHeader) (dither : sixel_dither_t)
    (method_for_largest : Int) : sixel_dither_t :=
  let method_for_largest :=
    if method_for_largest = K.LARGE_AUTO then K.LARGE_NORM else method_for_largest
  { dither with method_for_largest := method_for_largest }

/-- Function `sixel_dither_set_method_for_rep`. -/
def sixel_dither_set_method_for_rep (K : SixelHeader) (dither : sixel_dither_t)
    (method_for_rep : Int) : sixel_dither_t :=
  let method_for_rep :=
    if method_for_rep = K.REP_AUTO then K.REP_CENTER_BOX else method_for_rep
  { dither with method_for_rep := method_for_rep }

/-- Function `sixel_dither_set_quality_mode`. -/
def sixel_dither_set_quality_mode (K : SixelHeader) (dither : sixel_dither_t)
    (quality_mode : Int) : sixel_dither_t :=
  let quality_mode :=
    if quality_mode = K.QUALITY_AUTO then
      (if dither.ncolors ≤ 8 then K.QUALITY_HIGH else K.QUALITY_LOW)
    else quality_mode
  { dither with quality_mode := quality_mode }

/-- Function `sixel_dither_set_diffusion_type`. -/
def sixel_dither_set_diffusion_type (K : SixelHeader) (dither : sixel_dither_t)
    (method_for_diffuse : Int) : sixel_dither_t :=
  let method_for_diffuse :=
    if method_for_diffuse = K.DIFFUSE_AUTO then
      (if dither.ncolors > 16 then K.DIFFUSE_FS else K.DIFFUSE_ATKINSON)
    else method_for_diffuse
  { dither with method_for_diffuse := method_for_diffuse }

/-! ## Palette computation -/

/-- What a call of the collaborator `LSQ_MakePalette` (`quant.c`, not among the sources)
leaves behind: the returned pointer (`NULL` or the palette bytes) and the values of
the two output parameters `*ncolors` and `*origcolors` after the call. -/
structure MakePaletteResult where
  buf : Option (List Nat)
  ncolors : Int
  origcolors : Int
deriving DecidableEq

/-- The collaborator `LSQ_MakePalette`, an arbitrary function of its arguments in the
order of the C call: `data, width, height, depth, reqcolors, *ncolors, *origcolors`
(the values the two output parameters hold before the call), `method_for_largest,
method_for_rep, quality_mode`. -/
abbrev MakePalette :=
  List Nat → Int → Int → Int → Int → Int → Int → Int → Int → Int → MakePaletteResult

/-- C `memcpy(dst, src, n)` on byte sequences, for the `int` value `n` the caller passes:
the first `n` bytes of `src` replace the first `n` bytes of `dst`.  The result is `none`
(undefined behaviour) when the copy runs past the end of `src` or of `dst`; a negative
`n`, converted to `size_t`, exceeds every object. -/
def memcpy {α : Type} (dst src : List α) (n : Int) : Option (List α) :=
  if 0 ≤ n ∧ n ≤ src.length ∧ n ≤ dst.length then
    some (src.take n.toNat ++ dst.drop n.toNat)
  else none

/-- The write `memcpy(dither->palette, buf, n)`.  For a context with its own palette area
the bytes land there.  For a context bound to a builtin the destination is a
`static const` table: a copy of at least one byte is a write to a `const` object,
undefined behaviour (`none`; the store faults and the table is unchanged). -/
def memcpy_palette (t : Tables) (dither : sixel_dither_t) (buf : List Nat) (n : Int) :
    Option (Tables × sixel_dither_t) :=
  match dither.palette with
  | PalettePtr.own =>
    match memcpy dither.data (buf.map some) n with
    | some data => some (t, { dither with data := data })
    | none => none
  | _ => if n = 0 then some (t, dither) else none

/-- Function `sixel_dither_initialize`: returns the `int` result, the static tables and
the context after the call; `none` when the `memcpy` is undefined behaviour. -/
def sixel_dither_initialize (K : SixelHeader) (LSQ_MakePalette : MakePalette)
    (t : Tables) (dither : sixel_dither_t) (data : List Nat)
    (width height depth : Int)
    (method_for_largest method_for_rep quality_mode : Int) :
    Option (Int × Tables × sixel_dither_t) :=
  let dither := sixel_dither_set_method_for_largest K dither method_for_largest
  let dither := sixel_dither_set_method_for_rep K dither method_for_rep
  let dither := sixel_dither_set_quality_mode K dither quality_mode
  let r := LSQ_MakePalette data width height depth
    dither.reqcolors dither.ncolors dither.origcolors
    dither.method_for_largest dither.method_for_rep dither.quality_mode
  let dither := { dither with ncolors := r.ncolors, origcolors := r.origcolors }
  match r.buf with
  | none => some (-1, t, dither)
  | some buf =>
    match memcpy_palette t dither buf (wrap_int (dither.ncolors * depth)) with
    | none => none
    | some td =>
      let t := td.1
      let dither := td.2
      let dither := { dither with optimized := 1 }
      let dither :=
        if dither.origcolors ≤ dither.ncolors then
          { dither with method_for_diffuse := K.DIFFUSE_NONE }
        else dither
      some (0, t, dither)

/-! ## Palette application -/

/-- What a call of the collaborator `LSQ_ApplyPalette` (`quant.c`, not among the sources)
leaves behind: its `int` result, the bytes it wrote to `dest`, and the contents of
the cache table after the call (read only when a table was passed). -/
structure ApplyPaletteResult where
  ret : Int
  dest : List Nat
  cachetable : List Nat
deriving DecidableEq

/-- The collaborator `LSQ_ApplyPalette`, an arbitrary function of its arguments in the
order of the C call: `pixels, width, height, depth, palette, ncolors,
method_for_diffuse, foptimize, complexion, cachetable`. -/
abbrev ApplyPalette :=
  List Nat → Int → Int → Int → List (Option Nat) → Int → Int → Int → Int →
    Option (List Nat) → ApplyPaletteResult

/-- Function `sixel_apply_palette`: returns the result pointer (`NULL` or the index
buffer) and the context after the call.  `malloc_ok` and `calloc_ok` tell whether
`malloc(bufsize)` and the allocation of the cache table (the `HAVE_CALLOC` branch)
succeed. -/
def sixel_apply_palette (LSQ_ApplyPalette : ApplyPalette) (malloc_ok calloc_ok : Bool)
    (t : Tables) (pixels : List Nat) (width height : Int) (dither : sixel_dither_t) :
    Option (List Nat) × sixel_dither_t :=
  if !malloc_ok then
    (none, dither)
  else
    let dither :=
      if dither.cachetable = none ∧ dither.optimized ≠ 0 then
        if dither.palette ≠ PalettePtr.pal_mono_dark ∧
            dither.palette ≠ PalettePtr.pal_mono_light then
          { dither with
              cachetable := if calloc_ok then some (List.replicate (1 <<< (3 * 5)) 0) else none }
        else dither
      else dither
    let r := LSQ_ApplyPalette pixels width height 3
      (palette_bytes t dither) dither.ncolors dither.method_for_diffuse
      dither.optimized dither.complexion dither.cachetable
    let dither := { dither with cachetable := dither.cachetable.map fun _ => r.cachetable }
    if r.ret ≠ 0 then
      (none, dither)
    else
      (some r.dest, dither)

/-! ## Reference counting -/

/-- A `sixel_dither_t *` argument: `NULL` or the address of the context block. -/
inductive DitherPtr where
  | null
  | addr
deriving DecidableEq

/-- The heap block of a context: live with its contents, freed, or `undefined` once a
freed block has been accessed or `NULL` dereferenced (undefined behaviour in C). -/
inductive Heap where
  | live (d : sixel_dither_t)
  | freed
  | undefined
deriving DecidableEq

/-- Function `sixel_dither_destroy`. -/
def sixel_dither_destroy (dither : DitherPtr) (h : Heap) : Heap :=
  match dither, h with
  | DitherPtr.null, h => h
  | DitherPtr.addr, Heap.live _ => Heap.freed
  | DitherPtr.addr, _ => Heap.undefined

/-- Function `sixel_dither_ref`.  The counter is a mathematical integer: its C type is
declared in `dither.h`, which is not among the sources. -/
def sixel_dither_ref (dither : DitherPtr) (h : Heap) : Heap :=
  match dither, h with
  | DitherPtr.addr, Heap.live d => Heap.live { d with ref := d.ref + 1 }
  | _, _ => Heap.undefined

/-- Function `sixel_dither_unref`. -/
def sixel_dither_unref (dither : DitherPtr) (h : Heap) : Heap :=
  match dither, h with
  | DitherPtr.null, h => h
  | DitherPtr.addr, Heap.live d =>
    let d := { d with ref := d.ref - 1 }
    if d.ref = 0 then sixel_dither_destroy DitherPtr.addr (Heap.live d) else Heap.live d
  | DitherPtr.addr, _ => Heap.undefined

/-- A retain or release call on the address of the context. -/
inductive RefOp where
  | ref
  | unref
deriving DecidableEq

/-- One call of `sixel_dither_ref` or `sixel_dither_unref` on the context. -/
def RefOp.step (h : Heap) (op : RefOp) : Heap :=
  match op with
  | RefOp.ref => sixel_dither_ref DitherPtr.addr h
  | RefOp.unref => sixel_dither_unref DitherPtr.addr h

/-- A sequence of retain and release calls, in order. -/
def run_refs (ops : List RefOp) (h : Heap) : Heap :=
  ops.foldl RefOp.step h

/-- No release has yet brought the counter, started at `c`, down to zero: in every prefix
of the call sequence the releases number fewer than `c` plus the retains. -/
def stays_live (c : Int) (ops : List RefOp) : Prop :=
  ∀ p, p <+: ops → (p.count RefOp.unref : Int) < c + p.count RefOp.ref

/-! ## Scaling step of `convert_to_sixel` -/

/-- Outcome of the lines under `/* scaling */` in `convert_to_sixel`: the final values of
`pixelwidth` and `pixelheight`, whether `LSS_scale` was called (with those as target
size), and the image size `sx`, `sy` afterwards. -/
structure ScaleStep where
  pixelwidth : Int
  pixelheight : Int
  scaled : Bool
  sx : Int
  sy : Int
deriving DecidableEq

/-- The lines under `/* scaling */` in `convert_to_sixel`, on `int` values: products are
stored as `int` (`wrap_int`), and the result is `none` when a division is undefined (the
decoded width or height is the zero divisor of an aspect derivation). -/
def scaling (sx sy pixelwidth pixelheight percentwidth percentheight : Int) :
    Option ScaleStep :=
  let pixelwidth :=
    if percentwidth > 0 then Int.tdiv (wrap_int (sx * percentwidth)) 100 else pixelwidth
  let pixelheight :=
    if percentheight > 0 then Int.tdiv (wrap_int (sy * percentheight)) 100 else pixelheight
  match (if pixelwidth > 0 ∧ pixelheight ≤ 0 then int_div (wrap_int (sy * pixelwidth)) sx
      else some pixelheight) with
  | none => none
  | some pixelheight =>
    match (if pixelheight > 0 ∧ pixelwidth ≤ 0 then int_div (wrap_int (sx * pixelheight)) sy
        else some pixelwidth) with
    | none => none
    | some pixelwidth =>
      if pixelwidth > 0 ∧ pixelheight > 0 then
        some { pixelwidth := pixelwidth, pixelheight := pixelheight, scaled := true,
               sx := pixelwidth, sy := pixelheight }
      else
        some { pixelwidth := pixelwidth, pixelheight := pixelheight, scaled := false,
               sx := sx, sy := sy }

/-- Target-size resolution in the words of the specification: percentage axes are
resolved first; then, if exactly one axis is positive, it drives the other through
the source aspect ratio (integer division); the resampler is invoked, and the image
size replaced, exactly when both resulting values are positive. -/
def target_size_spec (sx sy pixelwidth pixelheight percentwidth percentheight : Int) :
    ScaleStep :=
  let width := if percentwidth > 0 then sx * percentwidth / 100 else pixelwidth
  let height := if percentheight > 0 then sy * percentheight / 100 else pixelheight
  let size : Int × Int :=
    if width > 0 ∧ ¬ height > 0 then (width, sy * width / sx)
    else if height > 0 ∧ ¬ width > 0 then (sx * height / sy, height)
    else (width, height)
  let invoked : Bool := decide (size.1 > 0 ∧ size.2 > 0)
  { pixelwidth := size.1, pixelheight := size.2, scaled := invoked,
    sx := if invoked then size.1 else sx,
    sy := if invoked then size.2 else sy }

/-! ## Public operations of `dither.c` on a live context -/

/-- Function `sixel_dither_set_complexion_score`. -/
def sixel_dither_set_complexion_score (dither : sixel_dither_t) (score : Int) : sixel_dither_t :=
  { dither with complexion := score }

/-- Function `sixel_dither_set_body_only`. -/
def sixel_dither_set_body_only (dither : sixel_dither_t) (bodyonly : Int) : sixel_dither_t :=
  { dither with bodyonly := bodyonly }

/-- A call of one of the public functions of `dither.c` that take a context and can change
it or the static tables (the three `get` accessors only read), with its arguments;
`init` is a call of `sixel_dither_initialize`. -/
inductive DitherOp where
  | init (data : List Nat) (width height depth : Int)
      (method_for_largest method_for_rep quality_mode : Int)
  | set_diffusion_type (method_for_diffuse : Int)
  | set_complexion_score (score : Int)
  | set_body_only (bodyonly : Int)
  | apply_palette (malloc_ok calloc_ok : Bool) (pixels : List Nat) (width height : Int)
  | ref
  | unref

/-- One public call on a live context: the static tables and the context afterwards, or
`none` when the context is no longer live (the last reference was released) or the
call is undefined behaviour. -/
def DitherOp.step (K : SixelHeader) (LSQ_MakePalette : MakePalette)
    (LSQ_ApplyPalette : ApplyPalette) (s : Tables × sixel_dither_t) :
    DitherOp → Option (Tables × sixel_dither_t)
  | DitherOp.init data width height depth method_for_largest method_for_rep quality_mode =>
    match sixel_dither_initialize K LSQ_MakePalette s.1 s.2 data width height depth
      method_for_largest method_for_rep quality_mode with
    | some r => some r.2
    | none => none
  | DitherOp.set_diffusion_type method_for_diffuse =>
    some (s.1, sixel_dither_set_diffusion_type K s.2 method_for_diffuse)
  | DitherOp.set_complexion_score score =>
    some (s.1, sixel_dither_set_complexion_score s.2 score)
  | DitherOp.set_body_only bodyonly =>
    some (s.1, sixel_dither_set_body_only s.2 bodyonly)
  | DitherOp.apply_palette malloc_ok calloc_ok pixels width height =>
    some (s.1, (sixel_apply_palette LSQ_ApplyPalette malloc_ok calloc_ok s.1 pixels
      width height s.2).2)
  | DitherOp.ref =>
    match sixel_dither_ref DitherPtr.addr (Heap.live s.2) with
    | Heap.live d => some (s.1, d)
    | _ => none
  | DitherOp.unref =>
    match sixel_dither_unref DitherPtr.addr (Heap.live s.2) with
    | Heap.live d => some (s.1, d)
    | _ => none

/-- A sequence of public calls on a context, in order. -/
def run_dither_ops (K : SixelHeader) (LSQ_MakePalette : MakePalette)
    (LSQ_ApplyPalette : ApplyPalette) :
    List DitherOp → Tables × sixel_dither_t → Option (Tables × sixel_dither_t)
  | [], s => some s
  | op :: ops, s =>
    match op.step K LSQ_MakePalette LSQ_ApplyPalette s with
    | some s' => run_dither_ops K LSQ_MakePalette LSQ_ApplyPalette ops s'
    | none => none

/-- Contract of the palette builder assumed for the size invariants: the resolved count it
reports lies between 1 and the `reqcolors` it was given, or it fails and leaves
`*ncolors` as it found it. -/
def builder_in_range (LSQ_MakePalette : MakePalette) : Prop :=
  ∀ (data : List Nat) (width height depth reqcolors ncolors origcolors
      method_for_largest method_for_rep quality_mode : Int),
    (1 ≤ (LSQ_MakePalette data width height depth reqcolors ncolors origcolors
          method_for_largest method_for_rep quality_mode).ncolors ∧
      (LSQ_MakePalette data width height depth reqcolors ncolors origcolors
          method_for_largest method_for_rep quality_mode).ncolors ≤ reqcolors) ∨
    ((LSQ_MakePalette data width height depth reqcolors ncolors origcolors
          method_for_largest method_for_rep quality_mode).buf = none ∧
      (LSQ_MakePalette data width height depth reqcolors ncolors origcolors
          method_for_largest method_for_rep quality_mode).ncolors = ncolors)

/-- The arguments of one call of `sixel_apply_palette` on a context, with the outcomes of
its two allocations. -/
structure ApplyCall where
  malloc_ok : Bool
  calloc_ok : Bool
  pixels : List Nat
  width : Int
  height : Int

/-- A sequence of `sixel_apply_palette` calls on one context: the context afterwards. -/
def run_apply_calls (LSQ_ApplyPalette : ApplyPalette) (t : Tables) :
    List ApplyCall → sixel_dither_t → sixel_dither_t
  | [], d => d
  | c :: cs, d =>
    run_apply_calls LSQ_ApplyPalette t cs
      (sixel_apply_palette LSQ_ApplyPalette c.malloc_ok c.calloc_ok t c.pixels
        c.width c.height d).2

/-- Number of calls in a sequence of `sixel_apply_palette` calls that allocate the cache:
calls entered without a cache table and left with one. -/
def cache_allocations (LSQ_ApplyPalette : ApplyPalette) (t : Tables) :
    List ApplyCall → sixel_dither_t → Nat
  | [], _ => 0
  | c :: cs, d =>
    (if d.cachetable = none ∧
        (sixel_apply_palette LSQ_ApplyPalette c.malloc_ok c.calloc_ok t c.pixels
          c.width c.height d).2.cachetable ≠ none then 1 else 0) +
      cache_allocations LSQ_ApplyPalette t cs
        (sixel_apply_palette LSQ_ApplyPalette c.malloc_ok c.calloc_ok t c.pixels
          c.width c.height d).2

/-! ## The conversion `convert_to_sixel` of `img2sixel.c` -/

/-- Modelled from the spec: the macro `PALETTE_MAX` of `sixel.h` used by `img2sixel.c`
(header not among the sources); the maximum supported palette size, 256. -/
def PALETTE_MAX : Int := 256

/-- A `FILE *` as `open_binary_file` returns it: standard input or an opened file. -/
inductive FILE where
  | stdin
  | file (filename : String)
deriving DecidableEq

/-- The heap blocks and objects `convert_to_sixel` and `prepare_specified_palette` acquire:
the decoded source pixels, the scaled pixels, the decoded map-file pixels, the palette,
the index buffer, the intermediate image object and the output context. -/
inductive Block where
  | pixels
  | scaled_pixels
  | mappixels
  | palette
  | data
  | im
  | context
deriving DecidableEq

/-- Acquisition or release of a block, as logged by the model of the conversion. -/
inductive MemEvent where
  | acquire (b : Block)
  | release (b : Block)
deriving DecidableEq

/-- The intermediate image object handed to the encoder, after `LSImage_create`, the
`LSImage_setpalette` loop, the assignment of `keycolor` and `LSImage_setpixels`.
`palette` lists, for `i = 0 .. ncolors - 1`, the three bytes passed to
`LSImage_setpalette` (`none` for a byte read past the end of the palette buffer). -/
structure LSImage where
  sx : Int
  sy : Int
  depth : Int
  ncolors : Int
  palette : List (Option Nat × Option Nat × Option Nat)
  keycolor : Int
  pixels : List Nat
deriving DecidableEq

/-- The collaborators of `img2sixel.c` that are not among the sources, as arbitrary
functions of their arguments: `fopen` (whether the file opens), the decoder
`stbi_load_from_file` (pixels and size, or `NULL`), the resampler `LSS_scale`, the palette
builder `LSQ_MakePalette` (arguments as in `MakePalette`, the pixel buffer possibly
`NULL`), the engine `LSQ_ApplyPalette` in the eight-argument form `img2sixel.c` calls
(`pixels, sx, sy, depth, palette, ncolors, method_for_diffuse, foptimize`), and
`LSImage_create` (whether it returns an object).  `ncolors_indet` and
`origcolors_indet` are the indeterminate values the uninitialised locals `ncolors` and
`origcolors` hold before a builder call. -/
structure Collaborators where
  fopen : String → Bool
  stbi_load_from_file : FILE → Option (List Nat × Int × Int)
  LSS_scale : List Nat → Int → Int → Int → Int → Int → Int → Option (List Nat)
  LSQ_MakePalette : Option (List Nat) → Int → Int → Int → Int → Int → Int → Int → Int → Int →
    MakePaletteResult
  LSQ_ApplyPalette : Option (List Nat) → Int → Int → Int → List Nat → Int → Int → Int →
    Option (List Nat)
  LSImage_create : Int → Int → Int → Int → Bool
  ncolors_indet : Int
  origcolors_indet : Int

/-- Function `open_binary_file`. -/
def open_binary_file (fopen : String → Bool) (filename : Option String) : Option FILE :=
  match filename with
  | none => some FILE.stdin
  | some name =>
    if name = "-" then some FILE.stdin
    else if fopen name = true then some (FILE.file name)
    else none

/-- Function `prepare_monochrome_palette` (the `malloc(6)`, whose result the code uses
unchecked, taken to succeed). -/
def prepare_monochrome_palette : List Nat :=
  [0x00, 0x00, 0x00, 0xff, 0xff, 0xff]

/-- What `prepare_specified_palette` leaves behind: the returned palette (`NULL` or the
bytes), the value of `*pncolors` and the blocks it acquired. -/
structure SpecifiedPalette where
  palette : Option (List Nat)
  ncolors : Int
  events : List MemEvent
deriving DecidableEq

/-- Function `prepare_specified_palette`; `ncolors` is the value `*pncolors` holds before
the call. -/
def prepare_specified_palette (K : SixelHeader) (env : Collaborators) (mapfile : String)
    (reqcolors : Int) (ncolors : Int) : SpecifiedPalette :=
  match open_binary_file env.fopen (some mapfile) with
  | none => { palette := none, ncolors := ncolors, events := [] }
  | some f =>
    match env.stbi_load_from_file f with
    | none => { palette := none, ncolors := ncolors, events := [] }
    | some (mappixels, map_sx, map_sy) =>
      let r := env.LSQ_MakePalette (some mappixels) map_sx map_sy 3
        reqcolors ncolors env.origcolors_indet
        K.LARGE_NORM K.REP_CENTER_BOX K.QUALITY_LOW
      { palette := r.buf, ncolors := r.ncolors,
        events := [MemEvent.acquire Block.mappixels] ++
          (if r.buf.isSome then [MemEvent.acquire Block.palette] else []) }

/-- The local variables of `convert_to_sixel` that outlive a stage, with the log of the
run: the blocks acquired and released so far, the target size passed to `LSS_scale`,
the `ncolors` and `method_for_diffuse` passed to `LSQ_ApplyPalette`, and the image and
`has_8bit_control` flag passed to the encoder `LibSixel_LSImageToSixel`.  The flag `trap`
is set when the run stopped at an undefined division in the scaling lines: the
function then did not return, and the other fields hold the state at that point. -/
structure ConvertVars where
  pixels : Option (Block × List Nat)
  mappixels : Option (List Nat)
  palette : Option (List Nat)
  data : Option (List Nat)
  im : Option LSImage
  context : Option Int
  ncolors : Int
  origcolors : Int
  nret : Int
  events : List MemEvent
  scale_call : Option (Int × Int)
  apply_call : Option (Int × Int)
  encoded : Option (LSImage × Int)
  trap : Bool
deriving DecidableEq

/-- The code of `convert_to_sixel` after the label `end:`.  Modelled from the spec:
`LSImage_destroy` (not among the sources) releases the image object together with the
index buffer handed to it by `LSImage_setpixels`. -/
def convert_end (v : ConvertVars) : ConvertVars :=
  { v with
    events := v.events ++
      (if v.data.isSome then [MemEvent.release Block.data] else []) ++
      (match v.pixels with
        | some (b, _) => [MemEvent.release b]
        | none => []) ++
      (if v.mappixels.isSome then [MemEvent.release Block.mappixels] else []) ++
      (if v.palette.isSome then [MemEvent.release Block.palette] else []) ++
      (if v.im.isSome then [MemEvent.release Block.im, MemEvent.release Block.data] else []) ++
      (if v.context.isSome then [MemEvent.release Block.context] else []) }

/-- The block of `convert_to_sixel` that calls `LSS_scale` when the target size `s` is
positive in both axes, frees the source pixels and makes `pixels` point at the scaled
ones. -/
def convert_scale (env : Collaborators) (v : ConvertVars) (pixels : List Nat) (sx sy : Int)
    (s : ScaleStep) (method_for_resampling : Int) : ConvertVars :=
  if s.scaled = true then
    let scaled_pixels := env.LSS_scale pixels sx sy 3 s.pixelwidth s.pixelheight
      method_for_resampling
    { v with
      scale_call := some (s.pixelwidth, s.pixelheight)
      pixels := scaled_pixels.map fun p => (Block.scaled_pixels, p)
      events := v.events ++
        (if scaled_pixels.isSome then [MemEvent.acquire Block.scaled_pixels] else []) ++
        [MemEvent.release Block.pixels] }
  else v

/-- The block of `convert_to_sixel` under `/* prepare palette */`: the variables and the
value of `method_for_diffuse` afterwards.  `reqcolors` is the clamped budget, `sx`, `sy`
the size after scaling. -/
def convert_prepare_palette (K : SixelHeader) (env : Collaborators) (v : ConvertVars)
    (sx sy : Int) (reqcolors : Int) (mapfile : Option String) (monochrome : Int)
    (method_for_diffuse method_for_largest method_for_rep quality_mode : Int) :
    ConvertVars × Int :=
  if monochrome ≠ 0 then
    ({ v with palette := some prepare_monochrome_palette, ncolors := 2,
              events := v.events ++ [MemEvent.acquire Block.palette] },
      method_for_diffuse)
  else
    match mapfile with
    | some mapfile =>
      let p := prepare_specified_palette K env mapfile reqcolors v.ncolors
      ({ v with palette := p.palette, ncolors := p.ncolors,
                events := v.events ++ p.events },
        method_for_diffuse)
    | none =>
      let method_for_largest :=
        if method_for_largest = K.LARGE_AUTO then K.LARGE_NORM else method_for_largest
      let method_for_rep :=
        if method_for_rep = K.REP_AUTO then K.REP_CENTER_BOX else method_for_rep
      let quality_mode :=
        if quality_mode = K.QUALITY_AUTO then
          (if reqcolors ≤ 8 then K.QUALITY_HIGH else K.QUALITY_LOW)
        else quality_mode
      let r := env.LSQ_MakePalette (v.pixels.map fun p => p.2) sx sy 3
        reqcolors v.ncolors v.origcolors
        method_for_largest method_for_rep quality_mode
      ({ v with palette := r.buf, ncolors := r.ncolors, origcolors := r.origcolors,
                events := v.events ++
                  (if r.buf.isSome then [MemEvent.acquire Block.palette] else []) },
        if r.origcolors ≤ r.ncolors then K.DIFFUSE_NONE else method_for_diffuse)

/-- The rest of `convert_to_sixel`, from the check of `palette` to the return: palette
application, assembly of the image object, the encoder call and the code after `end:`.
`LSOutputContext_create`, whose result the code uses unchecked, is taken to succeed. -/
def convert_apply_encode (K : SixelHeader) (env : Collaborators) (v : ConvertVars)
    (sx sy : Int) (monochrome : Int) (method_for_diffuse : Int) (f8bit : Int) : ConvertVars :=
  match v.palette with
  | none => convert_end { v with nret := -1 }
  | some palette =>
    -- apply palette
    let method_for_diffuse :=
      if method_for_diffuse = K.DIFFUSE_AUTO then K.DIFFUSE_FS else method_for_diffuse
    let data := env.LSQ_ApplyPalette (v.pixels.map fun p => p.2) sx sy 3 palette v.ncolors
      method_for_diffuse 1
    let v := { v with apply_call := some (v.ncolors, method_for_diffuse), data := data,
                      events := v.events ++
                        (if data.isSome then [MemEvent.acquire Block.data] else []) }
    match data with
    | none => convert_end { v with nret := -1 }
    | some data =>
      -- create intermediate bitmap image
      if env.LSImage_create sx sy 3 v.ncolors = false then
        convert_end { v with nret := -1 }
      else
        let im : LSImage :=
          { sx := sx, sy := sy, depth := 3, ncolors := v.ncolors,
            palette := (List.range v.ncolors.toNat).map fun i =>
              (palette[i * 3]?, palette[i * 3 + 1]?, palette[i * 3 + 2]?),
            keycolor := if monochrome ≠ 0 then 0 else -1,
            pixels := data }
        -- convert image object into sixel
        convert_end
          { v with im := some im, data := none, context := some f8bit,
                   events := v.events ++
                     [MemEvent.acquire Block.im, MemEvent.acquire Block.context],
                   encoded := some (im, f8bit), nret := 0 }

/-- Function `convert_to_sixel`: the local variables and the log when it returns; the
result of the function is the field `nret`.  When the scaling lines divide by zero the
run stops there with `trap` set. -/
def convert_to_sixel (K : SixelHeader) (env : Collaborators)
    (filename : Option String) (reqcolors : Int) (mapfile : Option String) (monochrome : Int)
    (method_for_diffuse method_for_largest method_for_rep quality_mode : Int)
    (method_for_resampling : Int) (f8bit : Int)
    (pixelwidth pixelheight percentwidth percentheight : Int) : ConvertVars :=
  let v : ConvertVars :=
    { pixels := none, mappixels := none, palette := none, data := none, im := none,
      context := none, ncolors := env.ncolors_indet, origcolors := env.origcolors_indet,
      nret := -1, events := [], scale_call := none, apply_call := none, encoded := none,
      trap := false }
  let reqcolors :=
    if reqcolors < 2 then 2
    else if reqcolors > PALETTE_MAX then PALETTE_MAX
    else reqcolors
  match open_binary_file env.fopen filename with
  | none => convert_end { v with nret := -1 }
  | some f =>
    match env.stbi_load_from_file f with
    | none => convert_end { v with nret := -1 }
    | some (pixels, sx, sy) =>
      let v := { v with pixels := some (Block.pixels, pixels),
                        events := v.events ++ [MemEvent.acquire Block.pixels] }
      -- scaling
      match scaling sx sy pixelwidth pixelheight percentwidth percentheight with
      | none => { v with trap := true }
      | some s =>
        let v := convert_scale env v pixels sx sy s method_for_resampling
        let sx := s.sx
        let sy := s.sy
        -- prepare palette
        let vm := convert_prepare_palette K env v sx sy reqcolors mapfile monochrome
          method_for_diffuse method_for_largest method_for_rep quality_mode
        convert_apply_encode K env vm.1 sx sy monochrome vm.2 f8bit

/-- Collaborators for the concrete instances: every file opens and decodes to a 2x2 red
image, the resampler returns one pixel, the builder a one-colour palette with two
colours counted in the source, the engine a one-byte index buffer, and the image
object is created. -/
def collab_ok : Collaborators :=
  { fopen := fun _ => true
    stbi_load_from_file := fun _ => some ([255, 0, 0, 255, 0, 0, 255, 0, 0, 255, 0, 0], 2, 2)
    LSS_scale := fun _ _ _ _ _ _ _ => some [255, 0, 0]
    LSQ_MakePalette := fun _ _ _ _ _ _ _ _ _ _ => ⟨some [255, 0, 0], 1, 2⟩
    LSQ_ApplyPalette := fun _ _ _ _ _ _ _ _ => some [0]
    LSImage_create := fun _ _ _ _ => true
    ncolors_indet := 0
    origcolors_indet := 0 }

/-- The collaborators `collab_ok` with a decoder that yields a white image of the size
`sx` by `sy`. -/
def collab_sized (sx sy : Int) : Collaborators :=
  { collab_ok with
    stbi_load_from_file := fun _ => some (List.replicate (sx * sy * 3).toNat 255, sx, sy) }

/-- The collaborators `collab_ok` with a resampler that fails (returns `NULL`). -/
def collab_scale_fails : Collaborators :=
  { collab_ok with LSS_scale := fun _ _ _ _ _ _ _ => none }

/-! ## The function `main` of `img2sixel.c` -/

/-- Macro `EXIT_SUCCESS` of `<stdlib.h>`. -/
def EXIT_SUCCESS : Int := 0

/-- Macro `EXIT_FAILURE` of `<stdlib.h>`. -/
def EXIT_FAILURE : Int := 1

/-- The enumerators of `enum methodForResampling` that `main` assigns.  Their header is
not among the sources, so the numeric values are a parameter. -/
structure ResamplingHeader where
  RES_NEAREST : Int
  RES_GAUSSIAN : Int
  RES_HANNING : Int
  RES_HAMMING : Int
  RES_BILINEAR : Int
  RES_WELSH : Int
  RES_BICUBIC : Int
  RES_LANCZOS2 : Int
  RES_LANCZOS3 : Int
  RES_LANCZOS4 : Int

/-- One header satisfying `ResamplingHeader`: the enumerators numbered from 0 in the order
of the fields above.  Used for the concrete instances below. -/
def resampling_h : ResamplingHeader where
  RES_NEAREST := 0
  RES_GAUSSIAN := 1
  RES_HANNING := 2
  RES_HAMMING := 3
  RES_BILINEAR := 4
  RES_WELSH := 5
  RES_BICUBIC := 6
  RES_LANCZOS2 := 7
  RES_LANCZOS3 := 8
  RES_LANCZOS4 := 9

/-- The libc functions the option parser of `main` calls, as arbitrary functions: `atoi`,
`strdup` (`none` when it returns `NULL`), and `sscanf(optarg, "%d%s", &number, unit)`,
which yields the number of items assigned, `number` and `unit`. -/
structure Libc where
  atoi : String → Int
  strdup : String → Option String
  sscanf : String → Int × Int × String

/-- One return of `getopt_long` other than -1: the value returned, and the values of
`long_opt` and `optarg` at that point. -/
structure GetoptResult where
  n : Int
  long_opt : Int
  optarg : Option String
deriving DecidableEq

/-- The option variables of `main`. -/
structure MainVars where
  ncolors : Int
  monochrome : Int
  method_for_resampling : Int
  method_for_diffuse : Int
  method_for_largest : Int
  method_for_rep : Int
  quality_mode : Int
  mapfile : Option String
  f8bit : Int
  pixelwidth : Int
  pixelheight : Int
  percentwidth : Int
  percentheight : Int
deriving DecidableEq

/-- The option variables as `main` initialises them. -/
def MainVars.initial (K : SixelHeader) (S : ResamplingHeader) : MainVars :=
  { ncolors := -1
    monochrome := 0
    method_for_resampling := S.RES_BILINEAR
    method_for_diffuse := K.DIFFUSE_AUTO
    method_for_largest := K.LARGE_AUTO
    method_for_rep := K.REP_AUTO
    quality_mode := K.QUALITY_AUTO
    mapfile := none
    f8bit := 0
    pixelwidth := -1
    pixelheight := -1
    percentwidth := -1
    percentheight := -1 }

/-- Outcome of the option loop of `main`: the option variables, a jump to `argerr`, or
undefined behaviour (a `NULL` `optarg` dereferenced). -/
inductive OptionsResult where
  | parsed (v : MainVars)
  | argerr
  | undefined
deriving DecidableEq

/-- The character constant of a `case` label as an `int`. -/
def chr (c : Char) : Int := c.toNat

/-- The body of the option loop of `main` for one return of `getopt_long`: the `switch`. -/
def main_option (K : SixelHeader) (S : ResamplingHeader) (libc : Libc) (v : MainVars)
    (g : GetoptResult) : OptionsResult :=
  let n := if g.n = 0 then g.long_opt else g.n
  if n = chr '7' then
    OptionsResult.parsed { v with f8bit := 0 }
  else if n = chr '8' then
    OptionsResult.parsed { v with f8bit := 1 }
  else if n = chr 'p' then
    match g.optarg with
    | some optarg => OptionsResult.parsed { v with ncolors := libc.atoi optarg }
    | none => OptionsResult.undefined
  else if n = chr 'm' then
    match g.optarg with
    | some optarg => OptionsResult.parsed { v with mapfile := libc.strdup optarg }
    | none => OptionsResult.undefined
  else if n = chr 'e' then
    OptionsResult.parsed { v with monochrome := 1 }
  else if n = chr 'd' then
    -- parse --diffusion option
    match g.optarg with
    | some optarg =>
      if optarg = "auto" then
        OptionsResult.parsed { v with method_for_diffuse := K.DIFFUSE_AUTO }
      else if optarg = "none" then
        OptionsResult.parsed { v with method_for_diffuse := K.DIFFUSE_NONE }
      else if optarg = "fs" then
        OptionsResult.parsed { v with method_for_diffuse := K.DIFFUSE_FS }
      else if optarg = "atkinson" then
        OptionsResult.parsed { v with method_for_diffuse := K.DIFFUSE_ATKINSON }
      else if optarg = "jajuni" then
        OptionsResult.parsed { v with method_for_diffuse := K.DIFFUSE_JAJUNI }
      else if optarg = "stucki" then
        OptionsResult.parsed { v with method_for_diffuse := K.DIFFUSE_STUCKI }
      else if optarg = "burkes" then
        OptionsResult.parsed { v with method_for_diffuse := K.DIFFUSE_BURKES }
      else
        OptionsResult.argerr
    | none => OptionsResult.parsed v
  else if n = chr 'f' then
    -- parse --find-largest option
    match g.optarg with
    | some optarg =>
      if optarg = "auto" then
        OptionsResult.parsed { v with method_for_largest := K.LARGE_AUTO }
      else if optarg = "norm" then
        OptionsResult.parsed { v with method_for_largest := K.LARGE_NORM }
      else if optarg = "lum" then
        OptionsResult.parsed { v with method_for_largest := K.LARGE_LUM }
      else
        OptionsResult.argerr
    | none => OptionsResult.parsed v
  else if n = chr 's' then
    -- parse --select-color option
    match g.optarg with
    | some optarg =>
      if optarg = "auto" then
        OptionsResult.parsed { v with method_for_rep := K.REP_AUTO }
      else if optarg = "center" then
        OptionsResult.parsed { v with method_for_rep := K.REP_CENTER_BOX }
      else if optarg = "average" then
        OptionsResult.parsed { v with method_for_rep := K.REP_AVERAGE_COLORS }
      else if optarg = "histgram" then
        OptionsResult.parsed { v with method_for_rep := K.REP_AVERAGE_PIXELS }
      else
        OptionsResult.argerr
    | none => OptionsResult.parsed v
  else if n = chr 'w' then
    match g.optarg with
    | some optarg =>
      let parsed := (libc.sscanf optarg).1
      let number := (libc.sscanf optarg).2.1
      let unit := (libc.sscanf optarg).2.2
      if parsed = 2 ∧ unit = "%" then
        OptionsResult.parsed { v with pixelwidth := -1, percentwidth := number }
      else if parsed = 1 ∨ (parsed = 2 ∧ unit = "px") then
        OptionsResult.parsed { v with pixelwidth := number, percentwidth := -1 }
      else if optarg = "auto" then
        OptionsResult.parsed { v with pixelwidth := -1, percentwidth := -1 }
      else
        OptionsResult.argerr
    | none => OptionsResult.undefined
  else if n = chr 'h' then
    match g.optarg with
    | some optarg =>
      let parsed := (libc.sscanf optarg).1
      let number := (libc.sscanf optarg).2.1
      let unit := (libc.sscanf optarg).2.2
      if parsed = 2 ∧ unit = "%" then
        OptionsResult.parsed { v with pixelheight := -1, percentheight := number }
      else if parsed = 1 ∨ (parsed = 2 ∧ unit = "px") then
        OptionsResult.parsed { v with pixelheight := number, percentheight := -1 }
      else if optarg = "auto" then
        OptionsResult.parsed { v with pixelheight := -1, percentheight := -1 }
      else
        OptionsResult.argerr
    | none => OptionsResult.undefined
  else if n = chr 'r' then
    -- parse --resampling option
    match g.optarg with
    | none => OptionsResult.parsed { v with method_for_resampling := S.RES_BILINEAR }
    | some optarg =>
      if optarg = "nearest" then
        OptionsResult.parsed { v with method_for_resampling := S.RES_NEAREST }
      else if optarg = "gaussian" then
        OptionsResult.parsed { v with method_for_resampling := S.RES_GAUSSIAN }
      else if optarg = "hanning" then
        OptionsResult.parsed { v with method_for_resampling := S.RES_HANNING }
      else if optarg = "hamming" then
        OptionsResult.parsed { v with method_for_resampling := S.RES_HAMMING }
      else if optarg = "bilinear" then
        OptionsResult.parsed { v with method_for_resampling := S.RES_BILINEAR }
      else if optarg = "welsh" then
        OptionsResult.parsed { v with method_for_resampling := S.RES_WELSH }
      else if optarg = "bicubic" then
        OptionsResult.parsed { v with method_for_resampling := S.RES_BICUBIC }
      else if optarg = "lanczos2" then
        OptionsResult.parsed { v with method_for_resampling := S.RES_LANCZOS2 }
      else if optarg = "lanczos3" then
        OptionsResult.parsed { v with method_for_resampling := S.RES_LANCZOS3 }
      else if optarg = "lanczos4" then
        OptionsResult.parsed { v with method_for_resampling := S.RES_LANCZOS4 }
      else
        OptionsResult.argerr
  else if n = chr 'q' then
    -- parse --quality option
    match g.optarg with
    | some optarg =>
      if optarg = "auto" then
        OptionsResult.parsed { v with quality_mode := K.QUALITY_AUTO }
      else if optarg = "high" then
        OptionsResult.parsed { v with quality_mode := K.QUALITY_HIGH }
      else if optarg = "hanning" then
        OptionsResult.parsed { v with quality_mode := K.QUALITY_LOW }
      else
        OptionsResult.argerr
    | none => OptionsResult.parsed v
  else
    OptionsResult.argerr

/-- The option loop of `main` over the successive returns of `getopt_long`. -/
def main_options (K : SixelHeader) (S : ResamplingHeader) (libc : Libc) :
    List GetoptResult → MainVars → OptionsResult
  | [], v => OptionsResult.parsed v
  | g :: gs, v =>
    match main_option K S libc v g with
    | OptionsResult.parsed v' => main_options K S libc gs v'
    | OptionsResult.argerr => OptionsResult.argerr
    | OptionsResult.undefined => OptionsResult.undefined

/-- The arguments of one call of `convert_to_sixel`. -/
structure ConvertArgs where
  filename : Option String
  reqcolors : Int
  mapfile : Option String
  monochrome : Int
  method_for_diffuse : Int
  method_for_largest : Int
  method_for_rep : Int
  quality_mode : Int
  method_for_resampling : Int
  f8bit : Int
  pixelwidth : Int
  pixelheight : Int
  percentwidth : Int
  percentheight : Int
deriving DecidableEq

/-- The arguments `main` passes to `convert_to_sixel` for one input. -/
def MainVars.args (v : MainVars) (filename : Option String) : ConvertArgs :=
  { filename := filename
    reqcolors := v.ncolors
    mapfile := v.mapfile
    monochrome := v.monochrome
    method_for_diffuse := v.method_for_diffuse
    method_for_largest := v.method_for_largest
    method_for_rep := v.method_for_rep
    quality_mode := v.quality_mode
    method_for_resampling := v.method_for_resampling
    f8bit := v.f8bit
    pixelwidth := v.pixelwidth
    pixelheight := v.pixelheight
    percentwidth := v.percentwidth
    percentheight := v.percentheight }

/-- What a run of `main` leaves behind: the exit status, the calls of `convert_to_sixel` in
order, each with the value it returned, and the state of the world. -/
structure MainResult (σ : Type) where
  exit_code : Int
  calls : List (ConvertArgs × Int)
  world : σ

/-- The `for` loop of `main` over the file arguments `argv[optind .. argc - 1]`.  A call of
`convert_to_sixel` is a function `conv` of its arguments and the state of the world
(files, standard input, output written so far), `none` when the call does not return;
then `main` does not return either. -/
def main_convert_files {σ : Type} (conv : ConvertArgs → σ → Option (Int × σ))
    (v : MainVars) :
    List String → List (ConvertArgs × Int) → σ → Option (MainResult σ)
  | [], calls, w => some { exit_code := EXIT_SUCCESS, calls := calls, world := w }
  | file :: files, calls, w =>
    match conv (v.args (some file)) w with
    | none => none
    | some ret =>
      if ret.1 ≠ 0 then
        some { exit_code := EXIT_FAILURE, calls := calls ++ [(v.args (some file), ret.1)],
               world := ret.2 }
      else
        main_convert_files conv v files (calls ++ [(v.args (some file), ret.1)]) ret.2

/-- Function `main`, for the successive returns `opts` of `getopt_long` and the file
arguments `files` left after the options; `none` for undefined behaviour. -/
def main {σ : Type} (K : SixelHeader) (S : ResamplingHeader) (libc : Libc)
    (conv : ConvertArgs → σ → Option (Int × σ)) (opts : List GetoptResult)
    (files : List String) (w : σ) : Option (MainResult σ) :=
  match main_options K S libc opts (MainVars.initial K S) with
  | OptionsResult.undefined => none
  | OptionsResult.argerr => some { exit_code := EXIT_FAILURE, calls := [], world := w }
  | OptionsResult.parsed v =>
    if v.ncolors ≠ -1 ∧ v.mapfile.isSome then
      some { exit_code := EXIT_FAILURE, calls := [], world := w }
    else if v.mapfile.isSome ∧ v.monochrome ≠ 0 then
      some { exit_code := EXIT_FAILURE, calls := [], world := w }
    else if v.monochrome ≠ 0 ∧ v.ncolors ≠ -1 then
      some { exit_code := EXIT_FAILURE, calls := [], world := w }
    else
      let v := if v.ncolors = -1 then { v with ncolors := PALETTE_MAX } else v
      match files with
      | [] =>
        match conv (v.args none) w with
        | none => none
        | some ret =>
          if ret.1 ≠ 0 then
            some { exit_code := EXIT_FAILURE, calls := [(v.args none, ret.1)],
                   world := ret.2 }
          else
            some { exit_code := EXIT_SUCCESS, calls := [(v.args none, ret.1)],
                   world := ret.2 }
      | _ :: _ => main_convert_files conv v files [] w

/-- A call of `convert_to_sixel` with the collaborators `env`, as `main` makes it: the
value returned, `none` when the call stops at a trap. -/
def convert_call (K : SixelHeader) (env : Collaborators) (a : ConvertArgs) (w : Unit) :
    Option (Int × Unit) :=
  let r := convert_to_sixel K env a.filename a.reqcolors a.mapfile a.monochrome
    a.method_for_diffuse a.method_for_largest a.method_for_rep a.quality_mode
    a.method_for_resampling a.f8bit
    a.pixelwidth a.pixelheight a.percentwidth a.percentheight
  if r.trap = true then none else some (r.nret, w)

/-! ## Concrete collaborators for the instances -/

/-- The libc functions for the concrete instances: `atoi` and `sscanf` agree with the C
library on the arguments used there (`"-1"`, `"16"`, `"0"`), and `strdup` succeeds. -/
def libc_sample : Libc :=
  { atoi := fun s => if s = "-1" then -1 else if s = "16" then 16 else 0
    strdup := fun s => some s
    sscanf := fun s => if s = "0" then (1, 0, "") else (0, 0, "") }

/-- The collaborators `collab_ok` on a file system without `b.png`: opening that file
fails, every other file opens. -/
def collab_b_missing : Collaborators :=
  { collab_ok with fopen := fun name => decide (name ≠ "b.png") }

/-! ## Properties of the dither context -/

/-- Enumerators `LARGE_NORM` and `LARGE_AUTO` differ. -/
theorem SixelHeader.large_norm_ne_auto (K : SixelHeader) : K.LARGE_NORM ≠ K.LARGE_AUTO := by
  have h := K.largest_nodup
  simp only [List.nodup_cons, List.mem_cons, List.mem_singleton, not_or] at h
  exact fun e => h.1.1 e.symm

/-- Enumerators `REP_CENTER_BOX` and `REP_AUTO` differ. -/
theorem SixelHeader.rep_center_ne_auto (K : SixelHeader) : K.REP_CENTER_BOX ≠ K.REP_AUTO := by
  have h := K.rep_nodup
  simp only [List.nodup_cons, List.mem_cons, List.mem_singleton, not_or] at h
  exact fun e => h.1.1 e.symm

/-- Enumerators `DIFFUSE_FS` and `DIFFUSE_AUTO` differ. -/
theorem SixelHeader.diffuse_fs_ne_auto (K : SixelHeader) : K.DIFFUSE_FS ≠ K.DIFFUSE_AUTO := by
  have h := K.diffuse_nodup
  simp only [List.nodup_cons, List.mem_cons, List.mem_singleton, not_or] at h
  exact fun e => h.1.2.2.1 e.symm

/-- Enumerators `DIFFUSE_ATKINSON` and `DIFFUSE_AUTO` differ. -/
theorem SixelHeader.diffuse_atkinson_ne_auto (K : SixelHeader) :
    K.DIFFUSE_ATKINSON ≠ K.DIFFUSE_AUTO := by
  have h := K.diffuse_nodup
  simp only [List.nodup_cons, List.mem_cons, List.mem_singleton, not_or] at h
  exact fun e => h.1.2.1 e.symm

/-- Enumerators `QUALITY_HIGH` and `QUALITY_AUTO` differ. -/
theorem SixelHeader.quality_high_ne_auto (K : SixelHeader) :
    K.QUALITY_HIGH ≠ K.QUALITY_AUTO := by
  have h := K.quality_nodup
  simp only [List.nodup_cons, List.mem_cons, List.mem_singleton, not_or] at h
  exact fun e => h.1.1 e.symm

/-- Enumerators `QUALITY_LOW` and `QUALITY_AUTO` differ. -/
theorem SixelHeader.quality_low_ne_auto (K : SixelHeader) :
    K.QUALITY_LOW ≠ K.QUALITY_AUTO := by
  have h := K.quality_nodup
  simp only [List.nodup_cons, List.mem_cons, List.mem_singleton, not_or] at h
  exact fun e => h.1.2.1 e.symm

/-- What `sixel_dither_create` returns when it returns a context. -/
theorem create_some (K : SixelHeader) (m : Bool) (n : Int) (d : sixel_dither_t)
    (h : sixel_dither_create K m n = some d) :
    m = true ∧ d.ref = 1 ∧ d.palette = PalettePtr.own ∧ d.cachetable = none ∧
      d.ncolors = d.reqcolors ∧
      d.reqcolors = (if n = -1 then 256 else if n > SIXEL_PALETTE_MAX then 256
        else if n < 2 then 2 else n) ∧
      d.origcolors = -1 ∧ d.keycolor = -1 ∧ d.optimized = 0 := by
  unfold sixel_dither_create at h
  cases m
  · simp at h
  · simp only [Bool.not_true, Bool.false_eq_true, if_false, Option.some.injEq] at h
    subst h
    refine ⟨rfl, rfl, rfl, rfl, rfl, ?_, rfl, rfl, rfl⟩
    dsimp only
    split_ifs <;> rfl

/-- Function `sixel_dither_get` as a case distinction over `sixel_dither_create`. -/
theorem get_eq (K : SixelHeader) (m : Bool) (b : Int) :
    sixel_dither_get K m b =
      if b = K.BUILTIN_MONO_DARK then
        (sixel_dither_create K m 2).map fun d =>
          { d with palette := PalettePtr.pal_mono_dark, keycolor := 0, optimized := 1 }
      else if b = K.BUILTIN_MONO_LIGHT then
        (sixel_dither_create K m 2).map fun d =>
          { d with palette := PalettePtr.pal_mono_light, keycolor := 0, optimized := 1 }
      else if b = K.BUILTIN_XTERM16 then
        (sixel_dither_create K m 16).map fun d =>
          { d with palette := PalettePtr.pal_xterm256, keycolor := -1, optimized := 1 }
      else if b = K.BUILTIN_XTERM256 then
        (sixel_dither_create K m 256).map fun d =>
          { d with palette := PalettePtr.pal_xterm256, keycolor := -1, optimized := 1 }
      else none := by
  unfold sixel_dither_get
  split_ifs
  · dsimp only; cases sixel_dither_create K m 2 <;> rfl
  · dsimp only; cases sixel_dither_create K m 2 <;> rfl
  · dsimp only; cases sixel_dither_create K m 16 <;> rfl
  · dsimp only; cases sixel_dither_create K m 256 <;> rfl
  · rfl

/-- With a successful allocation `sixel_dither_get` returns a context exactly for the four
builtin selectors. -/
theorem get_isSome_iff (K : SixelHeader) (b : Int) :
    (∃ d, sixel_dither_get K true b = some d) ↔
      (b = K.BUILTIN_MONO_DARK ∨ b = K.BUILTIN_MONO_LIGHT ∨
        b = K.BUILTIN_XTERM16 ∨ b = K.BUILTIN_XTERM256) := by
  rw [get_eq]
  constructor
  · rintro ⟨d, hd⟩
    split_ifs at hd with e0 e1 e2 e3
    · exact Or.inl e0
    · exact Or.inr (Or.inl e1)
    · exact Or.inr (Or.inr (Or.inl e2))
    · exact Or.inr (Or.inr (Or.inr e3))
  · intro h
    split_ifs with e0 e1 e2 e3
    · exact ⟨_, rfl⟩
    · exact ⟨_, rfl⟩
    · exact ⟨_, rfl⟩
    · exact ⟨_, rfl⟩
    · rcases h with h | h | h | h <;> contradiction

/-- C1: for every integer `n`, `sixel_dither_create(n)` with a successful allocation
returns a context whose `reqcolors` lies in `[2, PALETTE_MAX]` and equals `ncolors`:
256 with `QUALITY_FULL` for the sentinel `-1`; otherwise `QUALITY_LOW` with `n` clamped
(`n` itself inside the range, 2 below it, `PALETTE_MAX` above it). -/
theorem create_clamps_requested_colors (K : SixelHeader) (n : Int) :
    ∃ d, sixel_dither_create K true n = some d ∧
      2 ≤ d.reqcolors ∧ d.reqcolors ≤ SIXEL_PALETTE_MAX ∧
      d.ncolors = d.reqcolors ∧
      (n = -1 → d.reqcolors = 256 ∧ d.quality_mode = K.QUALITY_FULL) ∧
      (n ≠ -1 → d.quality_mode = K.QUALITY_LOW ∧
        (2 ≤ n ∧ n ≤ SIXEL_PALETTE_MAX → d.reqcolors = n) ∧
        (n < 2 → d.reqcolors = 2) ∧
        (n > SIXEL_PALETTE_MAX → d.reqcolors = SIXEL_PALETTE_MAX)) := by
  refine ⟨_, rfl, ?_⟩
  simp only [SIXEL_PALETTE_MAX]
  by_cases h1 : n = -1
  · subst h1; simp
  · by_cases h2 : n > 256
    · simp [h1, h2]
      omega
    · by_cases h3 : n < 2
      · simp [h1, h2, h3]
      · simp [h1, h2, h3]
        omega

/-- C2 (counterexample): the context `sixel_dither_create(16)` returns does not have its
policy fields at the AUTO sentinels. -/
theorem create_policy_not_auto :
    ∃ d, sixel_dither_create sixel_h true 16 = some d ∧
      ¬ (d.method_for_largest = sixel_h.LARGE_AUTO ∧
         d.method_for_rep = sixel_h.REP_AUTO ∧
         d.method_for_diffuse = sixel_h.DIFFUSE_AUTO) := by
  refine ⟨_, rfl, ?_⟩
  decide

/-- C2 (as amended): for every integer `n`, the context `sixel_dither_create(n)` returns
has its policy fields at concrete defaults, `LARGE_NORM`, `REP_CENTER_BOX` and
`DIFFUSE_FS`, none of which is the AUTO sentinel of its enumeration. -/
theorem create_policy_defaults (K : SixelHeader) (n : Int) :
    ∃ d, sixel_dither_create K true n = some d ∧
      d.method_for_largest = K.LARGE_NORM ∧
      d.method_for_rep = K.REP_CENTER_BOX ∧
      d.method_for_diffuse = K.DIFFUSE_FS ∧
      d.method_for_largest ≠ K.LARGE_AUTO ∧
      d.method_for_rep ≠ K.REP_AUTO ∧
      d.method_for_diffuse ≠ K.DIFFUSE_AUTO :=
  ⟨_, rfl, rfl, rfl, rfl, K.large_norm_ne_auto, K.rep_center_ne_auto, K.diffuse_fs_ne_auto⟩

/-- C3: `sixel_dither_get(b)` returns a context (allocation succeeding) exactly when `b`
is one of the four builtin selectors, and no context for any other value; a returned
context has `optimized = 1`, `reqcolors = ncolors`, its palette bound to the table of
the selector, `ncolors` 2, 2, 16, 256 and `keycolor` 0, 0, -1, -1 respectively. -/
theorem get_builtin_context (K : SixelHeader) (b : Int) :
    ((∃ d, sixel_dither_get K true b = some d) ↔
      (b = K.BUILTIN_MONO_DARK ∨ b = K.BUILTIN_MONO_LIGHT ∨
        b = K.BUILTIN_XTERM16 ∨ b = K.BUILTIN_XTERM256)) ∧
    (∀ malloc_ok d, sixel_dither_get K malloc_ok b = some d →
      (b = K.BUILTIN_MONO_DARK ∨ b = K.BUILTIN_MONO_LIGHT ∨
        b = K.BUILTIN_XTERM16 ∨ b = K.BUILTIN_XTERM256) ∧
      d.optimized = 1 ∧ d.ref = 1 ∧ d.reqcolors = d.ncolors ∧
      (b = K.BUILTIN_MONO_DARK →
        d.palette = PalettePtr.pal_mono_dark ∧ d.ncolors = 2 ∧ d.keycolor = 0 ∧
        palette_bytes Tables.initial d = [0, 0, 0, 255, 255, 255].map some) ∧
      (b = K.BUILTIN_MONO_LIGHT →
        d.palette = PalettePtr.pal_mono_light ∧ d.ncolors = 2 ∧ d.keycolor = 0 ∧
        palette_bytes Tables.initial d = [255, 255, 255, 0, 0, 0].map some) ∧
      (b = K.BUILTIN_XTERM16 →
        d.palette = PalettePtr.pal_xterm256 ∧ d.ncolors = 16 ∧ d.keycolor = -1) ∧
      (b = K.BUILTIN_XTERM256 →
        d.palette = PalettePtr.pal_xterm256 ∧ d.ncolors = 256 ∧ d.keycolor = -1)) := by
  have hnd := K.builtin_nodup
  simp only [List.nodup_cons, List.mem_cons, List.mem_singleton, not_or] at hnd
  obtain ⟨⟨h01, h02, h03, -⟩, ⟨h12, h13, -⟩, ⟨h23, -⟩, -⟩ := hnd
  rw [get_isSome_iff]
  refine ⟨Iff.rfl, ?_⟩
  intro m d hd
  rw [get_eq] at hd
  split_ifs at hd with e0 e1 e2 e3
  · obtain ⟨c, hc, rfl⟩ := Option.map_eq_some'.mp hd
    obtain ⟨-, hr, -, -, hn, hq, -⟩ := create_some K m 2 c hc
    have hq2 : c.reqcolors = 2 := by
      rw [hq]; simp [SIXEL_PALETTE_MAX]
    subst e0
    refine ⟨Or.inl rfl, rfl, hr, hn.symm, fun _ => ⟨rfl, hn.trans hq2, rfl, rfl⟩,
      fun e => absurd e h01, fun e => absurd e h02, fun e => absurd e h03⟩
  · obtain ⟨c, hc, rfl⟩ := Option.map_eq_some'.mp hd
    obtain ⟨-, hr, -, -, hn, hq, -⟩ := create_some K m 2 c hc
    have hq2 : c.reqcolors = 2 := by
      rw [hq]; simp [SIXEL_PALETTE_MAX]
    subst e1
    refine ⟨Or.inr (Or.inl rfl), rfl, hr, hn.symm, fun e => absurd e e0,
      fun _ => ⟨rfl, hn.trans hq2, rfl, rfl⟩, fun e => absurd e h12, fun e => absurd e h13⟩
  · obtain ⟨c, hc, rfl⟩ := Option.map_eq_some'.mp hd
    obtain ⟨-, hr, -, -, hn, hq, -⟩ := create_some K m 16 c hc
    have hq2 : c.reqcolors = 16 := by
      rw [hq]; simp [SIXEL_PALETTE_MAX]
    subst e2
    refine ⟨Or.inr (Or.inr (Or.inl rfl)), rfl, hr, hn.symm, fun e => absurd e e0,
      fun e => absurd e e1, fun _ => ⟨rfl, hn.trans hq2, rfl⟩, fun e => absurd e h23⟩
  · obtain ⟨c, hc, rfl⟩ := Option.map_eq_some'.mp hd
    obtain ⟨-, hr, -, -, hn, hq, -⟩ := create_some K m 256 c hc
    have hq2 : c.reqcolors = 256 := by
      rw [hq]; simp [SIXEL_PALETTE_MAX]
    subst e3
    refine ⟨Or.inr (Or.inr (Or.inr rfl)), rfl, hr, hn.symm, fun e => absurd e e0,
      fun e => absurd e e1, fun e => absurd e e2, fun _ => ⟨rfl, hn.trans hq2, rfl⟩⟩

/-- C4: every resolver stores a concrete value and touches no other field.  The
largest-axis resolver stores `LARGE_NORM` for `LARGE_AUTO` and `m` otherwise; the
representative-colour resolver `REP_CENTER_BOX` for `REP_AUTO` and `m` otherwise; the
quality resolver, for `QUALITY_AUTO`, `QUALITY_HIGH` when `ncolors <= 8` and
`QUALITY_LOW` when `ncolors > 8`, and `m` otherwise; the diffusion resolver, for
`DIFFUSE_AUTO`, `DIFFUSE_FS` when `ncolors > 16` and `DIFFUSE_ATKINSON` when
`ncolors <= 16`, and `m` otherwise.  The stored value is never the AUTO sentinel. -/
theorem resolvers_store_concrete (K : SixelHeader) (d : sixel_dither_t) (m : Int) :
    ((m = K.LARGE_AUTO →
        (sixel_dither_set_method_for_largest K d m).method_for_largest = K.LARGE_NORM) ∧
      (m ≠ K.LARGE_AUTO →
        (sixel_dither_set_method_for_largest K d m).method_for_largest = m) ∧
      (sixel_dither_set_method_for_largest K d m).method_for_largest ≠ K.LARGE_AUTO ∧
      { sixel_dither_set_method_for_largest K d m with
          method_for_largest := d.method_for_largest } = d) ∧
    ((m = K.REP_AUTO →
        (sixel_dither_set_method_for_rep K d m).method_for_rep = K.REP_CENTER_BOX) ∧
      (m ≠ K.REP_AUTO → (sixel_dither_set_method_for_rep K d m).method_for_rep = m) ∧
      (sixel_dither_set_method_for_rep K d m).method_for_rep ≠ K.REP_AUTO ∧
      { sixel_dither_set_method_for_rep K d m with method_for_rep := d.method_for_rep } = d) ∧
    ((m = K.QUALITY_AUTO ∧ d.ncolors ≤ 8 →
        (sixel_dither_set_quality_mode K d m).quality_mode = K.QUALITY_HIGH) ∧
      (m = K.QUALITY_AUTO ∧ d.ncolors > 8 →
        (sixel_dither_set_quality_mode K d m).quality_mode = K.QUALITY_LOW) ∧
      (m ≠ K.QUALITY_AUTO → (sixel_dither_set_quality_mode K d m).quality_mode = m) ∧
      (sixel_dither_set_quality_mode K d m).quality_mode ≠ K.QUALITY_AUTO ∧
      { sixel_dither_set_quality_mode K d m with quality_mode := d.quality_mode } = d) ∧
    ((m = K.DIFFUSE_AUTO ∧ d.ncolors > 16 →
        (sixel_dither_set_diffusion_type K d m).method_for_diffuse = K.DIFFUSE_FS) ∧
      (m = K.DIFFUSE_AUTO ∧ d.ncolors ≤ 16 →
        (sixel_dither_set_diffusion_type K d m).method_for_diffuse = K.DIFFUSE_ATKINSON) ∧
      (m ≠ K.DIFFUSE_AUTO →
        (sixel_dither_set_diffusion_type K d m).method_for_diffuse = m) ∧
      (sixel_dither_set_diffusion_type K d m).method_for_diffuse ≠ K.DIFFUSE_AUTO ∧
      { sixel_dither_set_diffusion_type K d m with
          method_for_diffuse := d.method_for_diffuse } = d) := by
  refine ⟨⟨?_, ?_, ?_, rfl⟩, ⟨?_, ?_, ?_, rfl⟩, ⟨?_, ?_, ?_, ?_, rfl⟩, ⟨?_, ?_, ?_, ?_, rfl⟩⟩
  · intro h; simp [sixel_dither_set_method_for_largest, h]
  · intro h; simp [sixel_dither_set_method_for_largest, h]
  · simp only [sixel_dither_set_method_for_largest]
    split_ifs with h
    · exact K.large_norm_ne_auto
    · exact h
  · intro h; simp [sixel_dither_set_method_for_rep, h]
  · intro h; simp [sixel_dither_set_method_for_rep, h]
  · simp only [sixel_dither_set_method_for_rep]
    split_ifs with h
    · exact K.rep_center_ne_auto
    · exact h
  · rintro ⟨h, h8⟩; simp [sixel_dither_set_quality_mode, h, h8]
  · rintro ⟨h, h8⟩; simp [sixel_dither_set_quality_mode, h, not_le.mpr h8]
  · intro h; simp [sixel_dither_set_quality_mode, h]
  · simp only [sixel_dither_set_quality_mode]
    split_ifs with h h8
    · exact K.quality_high_ne_auto
    · exact K.quality_low_ne_auto
    · exact h
  · rintro ⟨h, h16⟩; simp [sixel_dither_set_diffusion_type, h, h16]
  · rintro ⟨h, h16⟩; simp [sixel_dither_set_diffusion_type, h, not_lt.mpr h16]
  · intro h; simp [sixel_dither_set_diffusion_type, h]
  · simp only [sixel_dither_set_diffusion_type]
    split_ifs with h h16
    · exact K.diffuse_fs_ne_auto
    · exact K.diffuse_atkinson_ne_auto
    · exact h

/-- C5 (counterexample): the context `sixel_dither_create(16)` returns holds the concrete
diffusion value `DIFFUSE_FS`, and `sixel_dither_set_diffusion_type` with the
`DIFFUSE_AUTO` argument changes it (to `DIFFUSE_ATKINSON`). -/
theorem resolve_auto_overwrites_concrete :
    ∃ d, sixel_dither_create sixel_h true 16 = some d ∧
      d.method_for_diffuse ≠ sixel_h.DIFFUSE_AUTO ∧
      sixel_dither_set_diffusion_type sixel_h d sixel_h.DIFFUSE_AUTO ≠ d ∧
      (sixel_dither_set_diffusion_type sixel_h d sixel_h.DIFFUSE_AUTO).method_for_diffuse =
        sixel_h.DIFFUSE_ATKINSON := by
  refine ⟨_, rfl, by decide, ?_, by decide⟩
  intro h
  have h2 := congrArg sixel_dither_t.method_for_diffuse h
  revert h2
  decide

/-- C5 (as amended): every resolver is idempotent in its argument (calling it twice with
the same argument is calling it once), calling it with the concrete value the field
already holds leaves the context unchanged, and calling it with the AUTO argument
leaves the context unchanged exactly when the field already holds the value AUTO
resolves to. -/
theorem resolvers_idempotent (K : SixelHeader) (d : sixel_dither_t) (m : Int) :
    (sixel_dither_set_method_for_largest K (sixel_dither_set_method_for_largest K d m) m =
        sixel_dither_set_method_for_largest K d m ∧
      sixel_dither_set_method_for_rep K (sixel_dither_set_method_for_rep K d m) m =
        sixel_dither_set_method_for_rep K d m ∧
      sixel_dither_set_quality_mode K (sixel_dither_set_quality_mode K d m) m =
        sixel_dither_set_quality_mode K d m ∧
      sixel_dither_set_diffusion_type K (sixel_dither_set_diffusion_type K d m) m =
        sixel_dither_set_diffusion_type K d m) ∧
    ((d.method_for_largest ≠ K.LARGE_AUTO →
        sixel_dither_set_method_for_largest K d d.method_for_largest = d) ∧
      (d.method_for_rep ≠ K.REP_AUTO →
        sixel_dither_set_method_for_rep K d d.method_for_rep = d) ∧
      (d.quality_mode ≠ K.QUALITY_AUTO →
        sixel_dither_set_quality_mode K d d.quality_mode = d) ∧
      (d.method_for_diffuse ≠ K.DIFFUSE_AUTO →
        sixel_dither_set_diffusion_type K d d.method_for_diffuse = d)) ∧
    ((sixel_dither_set_method_for_largest K d K.LARGE_AUTO = d ↔
        d.method_for_largest = K.LARGE_NORM) ∧
      (sixel_dither_set_method_for_rep K d K.REP_AUTO = d ↔
        d.method_for_rep = K.REP_CENTER_BOX) ∧
      (sixel_dither_set_quality_mode K d K.QUALITY_AUTO = d ↔
        d.quality_mode = if d.ncolors ≤ 8 then K.QUALITY_HIGH else K.QUALITY_LOW) ∧
      (sixel_dither_set_diffusion_type K d K.DIFFUSE_AUTO = d ↔
        d.method_for_diffuse =
          if d.ncolors > 16 then K.DIFFUSE_FS else K.DIFFUSE_ATKINSON)) := by
  refine ⟨⟨rfl, rfl, rfl, rfl⟩, ⟨?_, ?_, ?_, ?_⟩, ⟨?_, ?_, ?_, ?_⟩⟩
  · intro h; simp [sixel_dither_set_method_for_largest, h]
  · intro h; simp [sixel_dither_set_method_for_rep, h]
  · intro h; simp [sixel_dither_set_quality_mode, h]
  · intro h; simp [sixel_dither_set_diffusion_type, h]
  · constructor
    · intro h
      have h2 := congrArg sixel_dither_t.method_for_largest h
      simpa [sixel_dither_set_method_for_largest] using h2.symm
    · intro h
      cases d
      simp_all [sixel_dither_set_method_for_largest]
  · constructor
    · intro h
      have h2 := congrArg sixel_dither_t.method_for_rep h
      simpa [sixel_dither_set_method_for_rep] using h2.symm
    · intro h
      cases d
      simp_all [sixel_dither_set_method_for_rep]
  · constructor
    · intro h
      have h2 := congrArg sixel_dither_t.quality_mode h
      simpa [sixel_dither_set_quality_mode] using h2.symm
    · intro h
      cases d
      simp_all [sixel_dither_set_quality_mode]
  · constructor
    · intro h
      have h2 := congrArg sixel_dither_t.method_for_diffuse h
      simpa [sixel_dither_set_diffusion_type] using h2.symm
    · intro h
      cases d
      simp_all [sixel_dither_set_diffusion_type]

/-- A value in the range of `int` is stored unchanged. -/
theorem wrap_int_of_range (x : Int) (h1 : INT_MIN ≤ x) (h2 : x ≤ INT_MAX) :
    wrap_int x = x := by
  unfold wrap_int
  unfold INT_MIN at h1
  unfold INT_MAX at h2
  omega

/-- The value `wrap_int` stores lies in the range of `int`. -/
theorem wrap_int_range (x : Int) : INT_MIN ≤ wrap_int x ∧ wrap_int x ≤ INT_MAX := by
  unfold wrap_int INT_MIN INT_MAX
  omega

/-- A copy of `n` bytes that fits into the palette area of a context with its own area
lands there: afterwards the area starts with the first `n` bytes of `buf`, and nothing
else has changed. -/
theorem memcpy_palette_own (t : Tables) (d : sixel_dither_t) (buf : List Nat) (n : Int)
    (hown : d.palette = PalettePtr.own) (h0 : 0 ≤ n) (h1 : n ≤ buf.length)
    (h2 : n ≤ d.data.length) :
    memcpy_palette t d buf n =
      some (t, { d with data := (buf.take n.toNat).map some ++ d.data.drop n.toNat }) := by
  unfold memcpy_palette memcpy
  rw [hown]
  dsimp only
  rw [if_pos ⟨h0, by simpa using h1, h2⟩]
  simp only [List.map_take]

/-- A copy of at least one byte through the palette pointer of a context bound to a
builtin table is undefined. -/
theorem memcpy_palette_builtin (t : Tables) (d : sixel_dither_t) (buf : List Nat) (n : Int)
    (hb : d.palette ≠ PalettePtr.own) (hn : n ≠ 0) :
    memcpy_palette t d buf n = none := by
  unfold memcpy_palette
  cases h : d.palette with
  | own => exact absurd h hb
  | pal_mono_dark => exact if_neg hn
  | pal_mono_light => exact if_neg hn
  | pal_xterm256 => exact if_neg hn

/-- When `memcpy_palette` is defined it leaves the static tables as they were and changes
no field of the context but `data`, whose length it keeps. -/
theorem memcpy_palette_fields (t : Tables) (d : sixel_dither_t) (buf : List Nat) (n : Int)
    (td : Tables × sixel_dither_t) (h : memcpy_palette t d buf n = some td) :
    td.1 = t ∧ { td.2 with data := d.data } = d ∧ td.2.data.length = d.data.length := by
  cases d with
  | mk ref palette cachetable reqcolors ncolors origcolors keycolor optimized complexion
      bodyonly method_for_largest method_for_rep method_for_diffuse quality_mode data =>
    cases palette
    · unfold memcpy_palette memcpy at h
      dsimp only at h
      split_ifs at h with hc
      have h2 := Option.some.inj h
      rw [← h2]
      refine ⟨rfl, rfl, ?_⟩
      obtain ⟨c0, c1, c2⟩ := hc
      simp only [List.length_append, List.length_take, List.length_drop, List.length_map]
        at c1 c2 ⊢
      omega
    all_goals
      unfold memcpy_palette at h
      dsimp only at h
      split_ifs at h
      have h2 := Option.some.inj h
      rw [← h2]
      exact ⟨rfl, rfl, rfl⟩

/-- The palette pointer of a context with its own palette area points at `data`. -/
theorem palette_bytes_own (t : Tables) (d : sixel_dither_t)
    (hown : d.palette = PalettePtr.own) : palette_bytes t d = d.data := by
  unfold palette_bytes
  rw [hown]

/-- C6 (failing input): a context bound to a builtin table.  For the context
`sixel_dither_get(BUILTIN_MONO_LIGHT)` and a builder that succeeds with the one-colour
palette `ff 00 00`, `sixel_dither_initialize` does not return 0 with the palette
recorded: its `memcpy` writes through the palette pointer into the `static const` table
`pal_mono_light`, which is undefined behaviour, and the call does not return. -/
theorem initialize_on_builtin_undefined :
    ∃ d, sixel_dither_get sixel_h true sixel_h.BUILTIN_MONO_LIGHT = some d ∧
      d.palette = PalettePtr.pal_mono_light ∧
      sixel_dither_initialize sixel_h (fun _ _ _ _ _ _ _ _ _ _ => ⟨some [255, 0, 0], 1, 1⟩)
        Tables.initial d [255, 0, 0] 1 1 3
        sixel_h.LARGE_AUTO sixel_h.REP_AUTO sixel_h.QUALITY_AUTO = none :=
  ⟨_, rfl, rfl, rfl⟩

/-- Function `sixel_dither_initialize` calls the palette builder with `reqcolors`
and with the resolved (non-AUTO) largest-axis, representative-colour and quality values.
When the builder fails, the call returns -1 and `optimized` is unchanged.  When the
builder returns a palette and reports `(n, o)`, the context has its own palette area and
the `n * depth` bytes of the palette fit into the builder's buffer and into that area,
the call returns 0 and leaves `ncolors = n`, `origcolors = o`, `optimized = 1`, the
first `n * depth` bytes of the palette equal to the builder's, and the diffusion method
`DIFFUSE_NONE` when `o <= n`, unchanged when `o > n`. -/
theorem initialize_records_palette (K : SixelHeader) (LSQ_MakePalette : MakePalette)
    (t : Tables) (d : sixel_dither_t) (data : List Nat) (width height depth : Int)
    (method_for_largest method_for_rep quality_mode : Int) :
    let largest := if method_for_largest = K.LARGE_AUTO then K.LARGE_NORM else method_for_largest
    let rep := if method_for_rep = K.REP_AUTO then K.REP_CENTER_BOX else method_for_rep
    let quality :=
      if quality_mode = K.QUALITY_AUTO then
        (if d.ncolors ≤ 8 then K.QUALITY_HIGH else K.QUALITY_LOW)
      else quality_mode
    let r := LSQ_MakePalette data width height depth d.reqcolors d.ncolors d.origcolors
      largest rep quality
    let out := sixel_dither_initialize K LSQ_MakePalette t d data width height depth
      method_for_largest method_for_rep quality_mode
    (largest ≠ K.LARGE_AUTO ∧ rep ≠ K.REP_AUTO ∧ quality ≠ K.QUALITY_AUTO) ∧
    (∀ buf, r.buf = some buf → d.palette = PalettePtr.own →
      0 ≤ r.ncolors * depth → r.ncolors * depth ≤ INT_MAX →
      r.ncolors * depth ≤ buf.length → r.ncolors * depth ≤ d.data.length →
      ∃ d', out = some (0, t, d') ∧
        d'.ncolors = r.ncolors ∧ d'.origcolors = r.origcolors ∧ d'.optimized = 1 ∧
        (buf.take (r.ncolors * depth).toNat).map some <+: palette_bytes t d' ∧
        (r.origcolors ≤ r.ncolors → d'.method_for_diffuse = K.DIFFUSE_NONE) ∧
        (r.origcolors > r.ncolors → d'.method_for_diffuse = d.method_for_diffuse) ∧
        d'.method_for_largest = largest ∧ d'.method_for_rep = rep ∧
        d'.quality_mode = quality ∧ d'.reqcolors = d.reqcolors ∧
        d'.palette = PalettePtr.own) ∧
    (r.buf = none →
      ∃ d', out = some (-1, t, d') ∧
        d'.optimized = d.optimized ∧ d'.method_for_diffuse = d.method_for_diffuse ∧
        d'.method_for_largest = largest ∧ d'.method_for_rep = rep ∧
        d'.quality_mode = quality ∧ d'.reqcolors = d.reqcolors) := by
  intro largest rep quality r out
  have hl : largest ≠ K.LARGE_AUTO := by
    show (if _ then _ else _) ≠ _
    split_ifs with h
    · exact K.large_norm_ne_auto
    · exact h
  have hr : rep ≠ K.REP_AUTO := by
    show (if _ then _ else _) ≠ _
    split_ifs with h
    · exact K.rep_center_ne_auto
    · exact h
  have hq : quality ≠ K.QUALITY_AUTO := by
    show (if _ then _ else _) ≠ _
    split_ifs with h h8
    · exact K.quality_high_ne_auto
    · exact K.quality_low_ne_auto
    · exact h
  refine ⟨⟨hl, hr, hq⟩, ?_, ?_⟩
  · intro buf hb hown h0 hmax hbuf harea
    have hb2 : (LSQ_MakePalette data width height depth d.reqcolors d.ncolors d.origcolors
        largest rep quality).buf = some buf := hb
    simp only [largest, rep, quality] at hb2
    have hw : wrap_int (r.ncolors * depth) = r.ncolors * depth :=
      wrap_int_of_range _ (le_trans (by unfold INT_MIN; decide) h0) hmax
    have hcopy := memcpy_palette_own t
      { d with method_for_largest := largest, method_for_rep := rep, quality_mode := quality,
               ncolors := r.ncolors, origcolors := r.origcolors }
      buf (r.ncolors * depth) hown h0 hbuf harea
    have ho : out = some (0, t,
        if r.origcolors ≤ r.ncolors then
          { d with method_for_largest := largest, method_for_rep := rep,
                   quality_mode := quality, ncolors := r.ncolors, origcolors := r.origcolors,
                   data := (buf.take (r.ncolors * depth).toNat).map some ++
                     d.data.drop (r.ncolors * depth).toNat,
                   optimized := 1, method_for_diffuse := K.DIFFUSE_NONE }
        else
          { d with method_for_largest := largest, method_for_rep := rep,
                   quality_mode := quality, ncolors := r.ncolors, origcolors := r.origcolors,
                   data := (buf.take (r.ncolors * depth).toNat).map some ++
                     d.data.drop (r.ncolors * depth).toNat,
                   optimized := 1 }) := by
      show sixel_dither_initialize _ _ _ _ _ _ _ _ _ _ _ = _
      unfold sixel_dither_initialize
      simp only [sixel_dither_set_method_for_largest, sixel_dither_set_method_for_rep,
        sixel_dither_set_quality_mode]
      rw [hb2]
      dsimp only
      simp only [r, largest, rep, quality] at hw hcopy
      rw [hw, hcopy]
    rw [ho]
    refine ⟨_, rfl, ?_⟩
    have hpre : ∀ c : sixel_dither_t, c.palette = PalettePtr.own →
        ∀ l, l <+: c.data → l <+: palette_bytes t c := by
      intro c hc l hl
      rw [palette_bytes_own t c hc]
      exact hl
    by_cases hon : r.origcolors ≤ r.ncolors
    · rw [if_pos hon]
      refine ⟨rfl, rfl, rfl, ?_, fun _ => rfl, fun h => absurd hon (not_le.mpr h), rfl, rfl,
        rfl, rfl, hown⟩
      refine hpre _ ?_ _ ?_
      · exact hown
      · exact List.prefix_append _ _
    · rw [if_neg hon]
      refine ⟨rfl, rfl, rfl, ?_, fun h => absurd h hon, fun _ => rfl, rfl, rfl,
        rfl, rfl, hown⟩
      refine hpre _ ?_ _ ?_
      · exact hown
      · exact List.prefix_append _ _
  · intro hb
    have hb2 : (LSQ_MakePalette data width height depth d.reqcolors d.ncolors d.origcolors
        largest rep quality).buf = none := hb
    simp only [largest, rep, quality] at hb2
    have ho : out = some (-1, t, { d with
        method_for_largest := largest, method_for_rep := rep, quality_mode := quality,
        ncolors := r.ncolors, origcolors := r.origcolors }) := by
      show sixel_dither_initialize _ _ _ _ _ _ _ _ _ _ _ = _
      unfold sixel_dither_initialize
      simp only [sixel_dither_set_method_for_largest, sixel_dither_set_method_for_rep,
        sixel_dither_set_quality_mode]
      rw [hb2]
    rw [ho]
    exact ⟨_, rfl, rfl, rfl, rfl, rfl, rfl, rfl⟩

/-- An instance: the context `sixel_dither_create(16)` has its own palette area of 48
bytes; with a builder that returns the two-colour palette `ff 00 00 00 ff 00` and counts
5 colours in the source, `sixel_dither_initialize` returns 0 and records 2 colours. -/
theorem initialize_records_palette_create16 :
    ∃ d d', sixel_dither_create sixel_h true 16 = some d ∧
      sixel_dither_initialize sixel_h
        (fun _ _ _ _ _ _ _ _ _ _ => ⟨some [255, 0, 0, 0, 255, 0], 2, 5⟩)
        Tables.initial d [255, 0, 0, 0, 255, 0] 2 1 3
        sixel_h.LARGE_AUTO sixel_h.REP_AUTO sixel_h.QUALITY_AUTO = some (0, Tables.initial, d') ∧
      d'.ncolors = 2 ∧ d'.origcolors = 5 ∧ d'.optimized = 1 ∧
      d'.method_for_diffuse = d.method_for_diffuse := by
  obtain ⟨d', h1, h2, h3, h4, -, -, h7, -⟩ :=
    (initialize_records_palette sixel_h
      (fun _ _ _ _ _ _ _ _ _ _ => ⟨some [255, 0, 0, 0, 255, 0], 2, 5⟩)
      Tables.initial ((sixel_dither_create sixel_h true 16).get rfl)
      [255, 0, 0, 0, 255, 0] 2 1 3
      sixel_h.LARGE_AUTO sixel_h.REP_AUTO sixel_h.QUALITY_AUTO).2.1
      [255, 0, 0, 0, 255, 0] rfl rfl (by decide) (by decide) (by decide) (by decide)
  exact ⟨_, d', rfl, h1, h2, h3, h4, h7 (by decide)⟩

/-- C7 (counterexample): the context `sixel_dither_create(16)` returns has `optimized = 0`,
yet `sixel_apply_palette` on it returns the index buffer whenever the engine reports
success. -/
theorem apply_unoptimized_returns_buffer :
    ∃ d, sixel_dither_create sixel_h true 16 = some d ∧ d.optimized = 0 ∧
      (sixel_apply_palette (fun _ _ _ _ _ _ _ _ _ _ => ⟨0, [0], []⟩) true true
        Tables.initial [255, 0, 0] 1 1 d).1 = some [0] :=
  ⟨_, rfl, rfl, rfl⟩

/-- C7 (as amended): for a context with `optimized = 0`, `sixel_apply_palette` performs no
check of its own: it allocates no cache, hands the engine the context's palette,
`ncolors`, diffusion method, complexion and cache together with `foptimize = 0`, and
returns the engine's buffer exactly when the output allocation succeeds and the engine
returns 0; otherwise it returns no buffer. -/
theorem apply_unoptimized_defers_to_engine (LSQ_ApplyPalette : ApplyPalette)
    (malloc_ok calloc_ok : Bool) (t : Tables) (pixels : List Nat) (width height : Int)
    (d : sixel_dither_t) (h0 : d.optimized = 0) :
    let r := LSQ_ApplyPalette pixels width height 3 (palette_bytes t d) d.ncolors
      d.method_for_diffuse 0 d.complexion d.cachetable
    let out := sixel_apply_palette LSQ_ApplyPalette malloc_ok calloc_ok t pixels width height d
    out.1 = (if malloc_ok = true ∧ r.ret = 0 then some r.dest else none) ∧
    (out.2.cachetable = none ↔ d.cachetable = none) ∧
    { out.2 with cachetable := d.cachetable } = d := by
  intro r out
  cases malloc_ok with
  | false => exact ⟨rfl, Iff.rfl, rfl⟩
  | true =>
    have ho : out =
        (if r.ret ≠ 0 then
          (none, { d with cachetable := d.cachetable.map fun _ => r.cachetable })
        else
          (some r.dest, { d with cachetable := d.cachetable.map fun _ => r.cachetable })) := by
      show sixel_apply_palette _ _ _ _ _ _ _ _ = _
      unfold sixel_apply_palette
      simp only [h0, ne_eq, not_true_eq_false, and_false, if_false, Bool.not_true,
        Bool.false_eq_true]
    rw [ho]
    by_cases hret : r.ret = 0
    · simp [hret]
    · simp [hret]

/-- C7 (instance): on the context `sixel_dither_create(16)` returns, with an engine that
reports failure, no buffer is returned. -/
theorem apply_unoptimized_defers_to_engine_witness :
    ∃ d, sixel_dither_create sixel_h true 16 = some d ∧ d.optimized = 0 ∧
      (sixel_apply_palette (fun _ _ _ _ _ _ _ _ _ _ => ⟨-1, [], []⟩) true true
        Tables.initial [255, 0, 0] 1 1 d).1 = none :=
  ⟨_, rfl, rfl,
    (apply_unoptimized_defers_to_engine (fun _ _ _ _ _ _ _ _ _ _ => ⟨-1, [], []⟩) true true
      Tables.initial [255, 0, 0] 1 1 _ rfl).1⟩

/-- Running a call sequence extended by one call. -/
theorem run_refs_concat (ops : List RefOp) (op : RefOp) (h : Heap) :
    run_refs (ops ++ [op]) h = RefOp.step (run_refs ops h) op := by
  simp [run_refs, List.foldl_append]

/-- Predicate `stays_live` for a sequence extended by one call. -/
theorem stays_live_concat (c : Int) (ops : List RefOp) (op : RefOp) :
    stays_live c (ops ++ [op]) ↔
      stays_live c ops ∧
        ((ops ++ [op]).count RefOp.unref : Int) < c + (ops ++ [op]).count RefOp.ref := by
  unfold stays_live
  constructor
  · intro h
    exact ⟨fun p hp => h p (hp.trans (List.prefix_append _ _)), h _ (List.prefix_refl _)⟩
  · rintro ⟨h1, h2⟩ p hp
    rcases List.prefix_concat_iff.mp hp with e | hp2
    · rw [e]; exact h2
    · exact h1 p hp2

/-- The whole sequence is one of its prefixes. -/
theorem stays_live_self (c : Int) (ops : List RefOp) (h : stays_live c ops) :
    (ops.count RefOp.unref : Int) < c + ops.count RefOp.ref :=
  h ops (List.prefix_refl _)

/-- While no release has brought the counter to zero the context is live, and its counter
is the initial one plus the retains minus the releases. -/
theorem run_refs_live (d : sixel_dither_t) (ops : List RefOp)
    (h : stays_live d.ref ops) :
    run_refs ops (Heap.live d) =
      Heap.live { d with ref := d.ref + ops.count RefOp.ref - ops.count RefOp.unref } := by
  induction ops using List.reverseRecOn with
  | nil => simp [run_refs]
  | append_singleton ops op ih =>
    obtain ⟨h1, h2⟩ := (stays_live_concat _ _ _).mp h
    rw [run_refs_concat, ih h1]
    cases op with
    | ref =>
      simp only [RefOp.step, sixel_dither_ref, List.count_append]
      congr 2
      simp
      ring
    | unref =>
      simp only [List.count_append] at h2
      simp at h2
      simp only [RefOp.step, sixel_dither_unref, List.count_append]
      rw [if_neg (by omega)]
      congr 2
      simp
      ring

/-- A context that is live after a call sequence was live throughout. -/
theorem stays_live_of_run_refs_live (d : sixel_dither_t) (hd : 0 < d.ref) (ops : List RefOp)
    (d' : sixel_dither_t) (h : run_refs ops (Heap.live d) = Heap.live d') :
    stays_live d.ref ops := by
  induction ops using List.reverseRecOn generalizing d' with
  | nil =>
    intro p hp
    rw [List.prefix_nil.mp hp]
    simpa using hd
  | append_singleton ops op ih =>
    rw [run_refs_concat] at h
    cases hs : run_refs ops (Heap.live d) with
    | live d1 =>
      have hl := ih d1 hs
      have hb := stays_live_self _ _ hl
      have he := run_refs_live d ops hl
      rw [hs] at he h
      have hd1 : d1.ref = d.ref + ops.count RefOp.ref - ops.count RefOp.unref := by
        have h3 := congrArg sixel_dither_t.ref (Heap.live.inj he)
        exact h3
      refine (stays_live_concat _ _ _).mpr ⟨hl, ?_⟩
      cases op with
      | ref =>
        simp only [List.count_append]
        simp
        omega
      | unref =>
        simp only [List.count_append]
        simp
        simp only [RefOp.step, sixel_dither_unref] at h
        by_cases hz : d1.ref - 1 = 0
        · simp [hz, sixel_dither_destroy] at h
        · omega
    | freed =>
      rw [hs] at h
      cases op <;> simp [RefOp.step, sixel_dither_ref, sixel_dither_unref] at h
    | undefined =>
      rw [hs] at h
      cases op <;> simp [RefOp.step, sixel_dither_ref, sixel_dither_unref] at h

/-- The context is freed by a call sequence exactly when the sequence ends with a release
that finds the counter at 1, the context having been live until then. -/
theorem run_refs_freed_iff (d : sixel_dither_t) (hd : 0 < d.ref) (ops : List RefOp) :
    run_refs ops (Heap.live d) = Heap.freed ↔
      ∃ pre, ops = pre ++ [RefOp.unref] ∧ stays_live d.ref pre ∧
        (pre.count RefOp.unref : Int) + 1 = d.ref + pre.count RefOp.ref := by
  constructor
  · intro h
    induction ops using List.reverseRecOn with
    | nil => simp [run_refs] at h
    | append_singleton ops op _ =>
      rw [run_refs_concat] at h
      cases hs : run_refs ops (Heap.live d) with
      | live d1 =>
        have hl := stays_live_of_run_refs_live d hd ops d1 hs
        have he := run_refs_live d ops hl
        rw [hs] at he h
        have hd1 : d1.ref = d.ref + ops.count RefOp.ref - ops.count RefOp.unref := by
          have h3 := congrArg sixel_dither_t.ref (Heap.live.inj he)
          exact h3
        cases op with
        | ref => simp [RefOp.step, sixel_dither_ref] at h
        | unref =>
          refine ⟨ops, rfl, hl, ?_⟩
          simp only [RefOp.step, sixel_dither_unref] at h
          by_cases hz : d1.ref - 1 = 0
          · omega
          · simp [hz] at h
      | freed =>
        rw [hs] at h
        cases op <;> simp [RefOp.step, sixel_dither_ref, sixel_dither_unref] at h
      | undefined =>
        rw [hs] at h
        cases op <;> simp [RefOp.step, sixel_dither_ref, sixel_dither_unref] at h
  · rintro ⟨pre, rfl, hl, hc⟩
    rw [run_refs_concat, run_refs_live d pre hl]
    simp only [RefOp.step, sixel_dither_unref]
    rw [if_pos (by omega)]
    rfl

/-- A context returned by `sixel_dither_get` has reference count 1. -/
theorem get_some_ref (K : SixelHeader) (m : Bool) (b : Int) (d : sixel_dither_t)
    (h : sixel_dither_get K m b = some d) : d.ref = 1 := by
  rw [get_eq] at h
  split_ifs at h
  all_goals
    obtain ⟨c, hc, rfl⟩ := Option.map_eq_some'.mp h
    exact (create_some K m _ c hc).2.1

/-- C8: retain/release is balanced.  A context fresh from `sixel_dither_create` or
`sixel_dither_get` has reference count 1.  After any sequence of `sixel_dither_ref` /
`sixel_dither_unref` calls on it: if it is still live its count is at least 1 (one plus
the refs minus the unrefs); it is live exactly when in no prefix the unrefs outnumber
the refs; it has just been destroyed exactly when the last call is an unref, the
context was live until then, and that unref is the (N+1)-th for N refs.
`sixel_dither_unref(NULL)` does nothing. -/
theorem refcount_balanced (K : SixelHeader) (d : sixel_dither_t)
    (hfresh : (∃ m n, sixel_dither_create K m n = some d) ∨
      (∃ m b, sixel_dither_get K m b = some d))
    (ops : List RefOp) :
    d.ref = 1 ∧
    (∀ d', run_refs ops (Heap.live d) = Heap.live d' →
      1 ≤ d'.ref ∧ d'.ref = 1 + ops.count RefOp.ref - ops.count RefOp.unref) ∧
    ((∃ d', run_refs ops (Heap.live d) = Heap.live d') ↔
      ∀ p, p <+: ops → p.count RefOp.unref ≤ p.count RefOp.ref) ∧
    (run_refs ops (Heap.live d) = Heap.freed ↔
      ∃ pre, ops = pre ++ [RefOp.unref] ∧
        (∃ d', run_refs pre (Heap.live d) = Heap.live d') ∧
        ops.count RefOp.unref = ops.count RefOp.ref + 1) ∧
    (∀ h, sixel_dither_unref DitherPtr.null h = h) := by
  have h1 : d.ref = 1 := by
    rcases hfresh with ⟨m, n, h⟩ | ⟨m, b, h⟩
    · exact (create_some K m n d h).2.1
    · exact get_some_ref K m b d h
  have hpos : 0 < d.ref := by omega
  have hsl : ∀ l : List RefOp, stays_live d.ref l ↔
      ∀ p, p <+: l → p.count RefOp.unref ≤ p.count RefOp.ref := by
    intro l
    unfold stays_live
    constructor
    · intro h p hp
      have := h p hp
      omega
    · intro h p hp
      have := h p hp
      omega
  refine ⟨h1, ?_, ?_, ?_, fun h => rfl⟩
  · intro d' hd'
    have hl := stays_live_of_run_refs_live d hpos ops d' hd'
    have he := run_refs_live d ops hl
    rw [hd'] at he
    have h3 : d'.ref = d.ref + ops.count RefOp.ref - ops.count RefOp.unref := by
      have h4 := congrArg sixel_dither_t.ref (Heap.live.inj he)
      exact h4
    have hb := stays_live_self _ _ hl
    omega
  · rw [← hsl]
    constructor
    · rintro ⟨d', hd'⟩
      exact stays_live_of_run_refs_live d hpos ops d' hd'
    · intro hl
      exact ⟨_, run_refs_live d ops hl⟩
  · rw [run_refs_freed_iff d hpos]
    constructor
    · rintro ⟨pre, rfl, hl, hc⟩
      refine ⟨pre, rfl, ⟨_, run_refs_live d pre hl⟩, ?_⟩
      simp only [List.count_append]
      simp
      omega
    · rintro ⟨pre, rfl, ⟨d', hd'⟩, hc⟩
      refine ⟨pre, rfl, stays_live_of_run_refs_live d hpos pre d' hd', ?_⟩
      simp only [List.count_append] at hc
      simp at hc
      omega

/-- C8 (instance): the context `sixel_dither_create(16)` returns, retained once, is
destroyed by the second release. -/
theorem refcount_balanced_witness :
    ∃ d, sixel_dither_create sixel_h true 16 = some d ∧
      run_refs [RefOp.ref, RefOp.unref, RefOp.unref] (Heap.live d) = Heap.freed :=
  ⟨_, rfl,
    (refcount_balanced sixel_h _ (Or.inl ⟨true, 16, rfl⟩)
      [RefOp.ref, RefOp.unref, RefOp.unref]).2.2.2.1.mpr
      ⟨[RefOp.ref, RefOp.unref], rfl, ⟨_, rfl⟩, by decide⟩⟩

/-! ## Properties of the scaling step -/

/-- The scaling step resolves the percentage axes first: it is the scaling step for the
resolved pixel sizes with no percentage given. -/
theorem scaling_percent_first (sx sy pixelwidth pixelheight percentwidth percentheight : Int) :
    scaling sx sy pixelwidth pixelheight percentwidth percentheight =
      scaling sx sy
        (if percentwidth > 0 then Int.tdiv (wrap_int (sx * percentwidth)) 100 else pixelwidth)
        (if percentheight > 0 then Int.tdiv (wrap_int (sy * percentheight)) 100
          else pixelheight)
        0 0 := by
  rfl

/-- The scaling step without percentages, by the signs of the two requested sizes. -/
theorem scaling_pixels (sx sy w h : Int) :
    scaling sx sy w h 0 0 =
      if 0 < w ∧ 0 < h then
        some { pixelwidth := w, pixelheight := h, scaled := true, sx := w, sy := h }
      else if 0 < w then
        (match int_div (wrap_int (sy * w)) sx with
          | none => none
          | some h' =>
            if 0 < h' then
              some { pixelwidth := w, pixelheight := h', scaled := true, sx := w, sy := h' }
            else
              some { pixelwidth := w, pixelheight := h', scaled := false, sx := sx, sy := sy })
      else if 0 < h then
        (match int_div (wrap_int (sx * h)) sy with
          | none => none
          | some w' =>
            if 0 < w' then
              some { pixelwidth := w', pixelheight := h, scaled := true, sx := w', sy := h }
            else
              some { pixelwidth := w', pixelheight := h, scaled := false, sx := sx, sy := sy })
      else
        some { pixelwidth := w, pixelheight := h, scaled := false, sx := sx, sy := sy } := by
  by_cases hw : 0 < w <;> by_cases hh : 0 < h
  · simp [scaling, hw, hh, not_le.mpr hw, not_le.mpr hh]
  · simp only [scaling, gt_iff_lt, lt_self_iff_false, if_false, hw, hh, not_lt.mp hh,
      and_self, and_false, if_true, true_and]
    cases int_div (wrap_int (sy * w)) sx with
    | none => rfl
    | some h' =>
      by_cases hd : 0 < h'
      · simp [hw, hd, not_le.mpr hw]
      · simp [hw, hd, not_le.mpr hw]
  · simp only [scaling, gt_iff_lt, lt_self_iff_false, if_false, hw, hh, not_lt.mp hw,
      not_le.mpr hh, and_self, and_false, false_and, if_true, true_and]
    cases int_div (wrap_int (sx * h)) sy with
    | none => rfl
    | some w' =>
      by_cases hd : 0 < w'
      · simp [hh, hd]
      · simp [hh, hd]
  · simp [scaling, hw, hh, not_lt.mp hw, not_lt.mp hh]

/-- C `a / b` for a positive divisor is defined. -/
theorem int_div_pos (a b : Int) (hb : 0 < b) : int_div a b = some (Int.tdiv a b) := by
  unfold int_div
  rw [if_neg]
  rintro (h | ⟨-, h⟩) <;> omega

/-- For a source of positive size and products that fit in `int`, the scaling lines
compute the resolution the specification describes. -/
theorem scaling_eq_spec (sx sy pixelwidth pixelheight percentwidth percentheight : Int)
    (hsx : 0 < sx) (hsy : 0 < sy)
    (hr1 : percentwidth > 0 → sx * percentwidth ≤ INT_MAX)
    (hr2 : percentheight > 0 → sy * percentheight ≤ INT_MAX)
    (hr3 : (if percentwidth > 0 then sx * percentwidth / 100 else pixelwidth) > 0 →
      (if percentheight > 0 then sy * percentheight / 100 else pixelheight) ≤ 0 →
      sy * (if percentwidth > 0 then sx * percentwidth / 100 else pixelwidth) ≤ INT_MAX)
    (hr4 : (if percentheight > 0 then sy * percentheight / 100 else pixelheight) > 0 →
      (if percentwidth > 0 then sx * percentwidth / 100 else pixelwidth) ≤ 0 →
      sx * (if percentheight > 0 then sy * percentheight / 100 else pixelheight) ≤ INT_MAX) :
    scaling sx sy pixelwidth pixelheight percentwidth percentheight =
      some (target_size_spec sx sy pixelwidth pixelheight percentwidth percentheight) := by
  have hmin : ∀ x : Int, 0 ≤ x → INT_MIN ≤ x := fun x hx =>
    le_trans (by unfold INT_MIN; decide) hx
  have hw0 : (if percentwidth > 0 then Int.tdiv (wrap_int (sx * percentwidth)) 100
        else pixelwidth) =
      (if percentwidth > 0 then sx * percentwidth / 100 else pixelwidth) := by
    split_ifs with h
    · have hp : 0 ≤ sx * percentwidth := by positivity
      rw [wrap_int_of_range _ (hmin _ hp) (hr1 h)]
      exact Int.tdiv_eq_ediv hp (by norm_num)
    · rfl
  have hh0 : (if percentheight > 0 then Int.tdiv (wrap_int (sy * percentheight)) 100
        else pixelheight) =
      (if percentheight > 0 then sy * percentheight / 100 else pixelheight) := by
    split_ifs with h
    · have hp : 0 ≤ sy * percentheight := by positivity
      rw [wrap_int_of_range _ (hmin _ hp) (hr2 h)]
      exact Int.tdiv_eq_ediv hp (by norm_num)
    · rfl
  have hspec : target_size_spec sx sy pixelwidth pixelheight percentwidth percentheight =
      target_size_spec sx sy
        (if percentwidth > 0 then sx * percentwidth / 100 else pixelwidth)
        (if percentheight > 0 then sy * percentheight / 100 else pixelheight) 0 0 := rfl
  rw [scaling_percent_first, scaling_pixels, hw0, hh0, hspec]
  generalize (if percentwidth > 0 then sx * percentwidth / 100 else pixelwidth) = W at hr3 hr4 ⊢
  generalize (if percentheight > 0 then sy * percentheight / 100 else pixelheight) = H
    at hr3 hr4 ⊢
  by_cases hw : 0 < W <;> by_cases hh : 0 < H
  · simp [target_size_spec, hw, hh]
  · have hp : 0 ≤ sy * W := by positivity
    rw [if_neg (fun h => hh h.2), if_pos hw,
      wrap_int_of_range _ (hmin _ hp) (hr3 hw (not_lt.mp hh)), int_div_pos _ _ hsx,
      Int.tdiv_eq_ediv hp hsx.le]
    by_cases hd : 0 < sy * W / sx
    · simp [target_size_spec, hw, hh, hd]
    · simp [target_size_spec, hw, hh, hd]
  · have hp : 0 ≤ sx * H := by positivity
    rw [if_neg (fun h => hw h.1), if_neg hw, if_pos hh,
      wrap_int_of_range _ (hmin _ hp) (hr4 hh (not_lt.mp hw)), int_div_pos _ _ hsy,
      Int.tdiv_eq_ediv hp hsy.le]
    by_cases hd : 0 < sx * H / sy
    · simp [target_size_spec, hw, hh, hd]
    · simp [target_size_spec, hw, hh, hd]
  · simp [target_size_spec, hw, hh]

/-- The scaling step with no request at all leaves the size as it is. -/
theorem scaling_no_request (sx sy : Int) :
    scaling sx sy (-1) (-1) (-1) (-1) =
      some { pixelwidth := -1, pixelheight := -1, scaled := false, sx := sx, sy := sy } := by
  rw [scaling_percent_first, scaling_pixels]
  rfl

/-- What the scaling step returns when it is defined: the target is scaled to exactly when
both of its values are positive, and otherwise the size stays as it is. -/
theorem scaling_some (sx sy pixelwidth pixelheight percentwidth percentheight : Int)
    (s : ScaleStep)
    (h : scaling sx sy pixelwidth pixelheight percentwidth percentheight = some s) :
    (s.scaled = true ↔ 0 < s.pixelwidth ∧ 0 < s.pixelheight) ∧
    (s.scaled = true → s.sx = s.pixelwidth ∧ s.sy = s.pixelheight) ∧
    (s.scaled = false → s.sx = sx ∧ s.sy = sy) := by
  rw [scaling_percent_first, scaling_pixels] at h
  generalize (if percentwidth > 0 then Int.tdiv (wrap_int (sx * percentwidth)) 100
    else pixelwidth) = W at h
  generalize (if percentheight > 0 then Int.tdiv (wrap_int (sy * percentheight)) 100
    else pixelheight) = H at h
  have key : ∀ (w' h' : Int) (b : Bool) (x y : Int),
      (b = true ↔ 0 < w' ∧ 0 < h') → (b = true → x = w' ∧ y = h') →
      (b = false → x = sx ∧ y = sy) →
      some ({ pixelwidth := w', pixelheight := h', scaled := b, sx := x, sy := y } :
        ScaleStep) = some s →
      (s.scaled = true ↔ 0 < s.pixelwidth ∧ 0 < s.pixelheight) ∧
      (s.scaled = true → s.sx = s.pixelwidth ∧ s.sy = s.pixelheight) ∧
      (s.scaled = false → s.sx = sx ∧ s.sy = sy) := by
    intro w' h' b x y k1 k2 k3 e
    have e2 := Option.some.inj e
    rw [← e2]
    exact ⟨k1, k2, k3⟩
  by_cases hw : 0 < W <;> by_cases hh : 0 < H
  · rw [if_pos ⟨hw, hh⟩] at h
    exact key _ _ _ _ _ (by simp [hw, hh]) (by simp) (by simp) h
  · rw [if_neg (fun h => hh h.2), if_pos hw] at h
    cases hd : int_div (wrap_int (sy * W)) sx with
    | none =>
      rw [hd] at h
      exact Option.noConfusion h
    | some h' =>
      rw [hd] at h
      dsimp only at h
      by_cases hp : 0 < h'
      · rw [if_pos hp] at h
        exact key _ _ _ _ _ (by simp [hw, hp]) (by simp) (by simp) h
      · rw [if_neg hp] at h
        exact key _ _ _ _ _ (by simp [hp]) (by simp) (by simp) h
  · rw [if_neg (fun h => hw h.1), if_neg hw, if_pos hh] at h
    cases hd : int_div (wrap_int (sx * H)) sy with
    | none =>
      rw [hd] at h
      exact Option.noConfusion h
    | some w' =>
      rw [hd] at h
      dsimp only at h
      by_cases hp : 0 < w'
      · rw [if_pos hp] at h
        exact key _ _ _ _ _ (by simp [hh, hp]) (by simp) (by simp) h
      · rw [if_neg hp] at h
        exact key _ _ _ _ _ (by simp [hp]) (by simp) (by simp) h
  · rw [if_neg (fun h => hw h.1), if_neg hw, if_neg hh] at h
    exact key _ _ _ _ _ (by simp [hw]) (by simp) (by simp) h

/-- For a source of positive size the scaling step is defined: no division traps. -/
theorem scaling_defined (sx sy pixelwidth pixelheight percentwidth percentheight : Int)
    (hsx : 0 < sx) (hsy : 0 < sy) :
    ∃ s, scaling sx sy pixelwidth pixelheight percentwidth percentheight = some s := by
  rw [scaling_percent_first, scaling_pixels, int_div_pos _ _ hsx, int_div_pos _ _ hsy]
  dsimp only
  split_ifs <;> exact ⟨_, rfl⟩

/-- The scaling lines outside the range where the closed forms hold.  On a 100000x1 source
a width of 30000% gives the product 3000000000, stored as -1294967296: the width is
negative and nothing is scaled; a width of 42950% with a height of 100% gives the
product 4295000000, stored as 32704: the target is 327x1.  On a source of width 0 a
pixel width of 5 makes the aspect derivation divide by zero. -/
theorem scaling_out_of_range :
    scaling 100000 1 (-1) (-1) 30000 (-1) =
      some { pixelwidth := -12949672, pixelheight := -1, scaled := false,
             sx := 100000, sy := 1 } ∧
    scaling 100000 1 (-1) (-1) 42950 100 =
      some { pixelwidth := 327, pixelheight := 1, scaled := true, sx := 327, sy := 1 } ∧
    scaling 0 5 5 (-1) (-1) (-1) = none := by
  decide

/-! ## Properties of the public operations of the dither context -/

/-- Function `sixel_apply_palette` changes no field of the context but `cachetable`. -/
theorem apply_palette_fields (LSQ_ApplyPalette : ApplyPalette) (malloc_ok calloc_ok : Bool)
    (t : Tables) (pixels : List Nat) (width height : Int) (d : sixel_dither_t) :
    { (sixel_apply_palette LSQ_ApplyPalette malloc_ok calloc_ok t pixels width height d).2 with
        cachetable := d.cachetable } = d := by
  unfold sixel_apply_palette
  dsimp only
  split_ifs <;> rfl

/-- What `sixel_dither_initialize` returns when it returns: the static tables are the same,
and the size invariants of the context, `2 <= reqcolors <= SIXEL_PALETTE_MAX` and
`ncolors <= reqcolors`, are kept when the builder keeps its contract. -/
theorem initialize_keeps_sizes (K : SixelHeader) (LSQ_MakePalette : MakePalette)
    (hmk : builder_in_range LSQ_MakePalette)
    (t : Tables) (d : sixel_dither_t) (data : List Nat) (width height depth : Int)
    (method_for_largest method_for_rep quality_mode : Int)
    (hinv : 2 ≤ d.reqcolors ∧ d.reqcolors ≤ SIXEL_PALETTE_MAX ∧ d.ncolors ≤ d.reqcolors)
    (r : Int × Tables × sixel_dither_t)
    (hr : sixel_dither_initialize K LSQ_MakePalette t d data width height depth
      method_for_largest method_for_rep quality_mode = some r) :
    2 ≤ r.2.2.reqcolors ∧ r.2.2.reqcolors ≤ SIXEL_PALETTE_MAX ∧
      r.2.2.ncolors ≤ r.2.2.reqcolors := by
  have hc := hmk data width height depth d.reqcolors d.ncolors d.origcolors
    (if method_for_largest = K.LARGE_AUTO then K.LARGE_NORM else method_for_largest)
    (if method_for_rep = K.REP_AUTO then K.REP_CENTER_BOX else method_for_rep)
    (if quality_mode = K.QUALITY_AUTO then
      (if d.ncolors ≤ 8 then K.QUALITY_HIGH else K.QUALITY_LOW) else quality_mode)
  unfold sixel_dither_initialize at hr
  simp only [sixel_dither_set_method_for_largest, sixel_dither_set_method_for_rep,
    sixel_dither_set_quality_mode] at hr
  generalize LSQ_MakePalette data width height depth d.reqcolors d.ncolors d.origcolors
    (if method_for_largest = K.LARGE_AUTO then K.LARGE_NORM else method_for_largest)
    (if method_for_rep = K.REP_AUTO then K.REP_CENTER_BOX else method_for_rep)
    (if quality_mode = K.QUALITY_AUTO then
      (if d.ncolors ≤ 8 then K.QUALITY_HIGH else K.QUALITY_LOW) else quality_mode) = res
    at hc hr
  obtain ⟨buf, n, o⟩ := res
  have hn : n ≤ d.reqcolors := by
    rcases hc with ⟨-, h⟩ | ⟨-, h⟩
    · exact h
    · simp only at h
      omega
  cases buf with
  | none =>
    have h2 := Option.some.inj hr
    rw [← h2]
    exact ⟨hinv.1, hinv.2.1, hn⟩
  | some b =>
    dsimp only at hr
    generalize hm : memcpy_palette t _ b _ = m at hr
    cases m with
    | none => exact Option.noConfusion hr
    | some td =>
      obtain ⟨-, hf, -⟩ := memcpy_palette_fields _ _ _ _ td hm
      have f1 : td.2.reqcolors = d.reqcolors := by
        have h := congrArg sixel_dither_t.reqcolors hf
        exact h
      have f2 : td.2.ncolors = n := by
        have h := congrArg sixel_dither_t.ncolors hf
        exact h
      dsimp only at hr
      have h2 := Option.some.inj hr
      rw [← h2]
      dsimp only
      split_ifs <;>
        · dsimp only
          rw [f1, f2]
          exact ⟨hinv.1, hinv.2.1, hn⟩

/-- Function `sixel_dither_initialize` leaves the static tables as they are. -/
theorem initialize_keeps_tables (K : SixelHeader) (LSQ_MakePalette : MakePalette)
    (t : Tables) (d : sixel_dither_t) (data : List Nat) (width height depth : Int)
    (method_for_largest method_for_rep quality_mode : Int)
    (r : Int × Tables × sixel_dither_t)
    (hr : sixel_dither_initialize K LSQ_MakePalette t d data width height depth
      method_for_largest method_for_rep quality_mode = some r) :
    r.2.1 = t := by
  unfold sixel_dither_initialize at hr
  simp only [sixel_dither_set_method_for_largest, sixel_dither_set_method_for_rep,
    sixel_dither_set_quality_mode] at hr
  generalize LSQ_MakePalette data width height depth d.reqcolors d.ncolors d.origcolors
    _ _ _ = res at hr
  obtain ⟨buf, n, o⟩ := res
  cases buf with
  | none =>
    have h2 := Option.some.inj hr
    rw [← h2]
  | some b =>
    dsimp only at hr
    generalize hm : memcpy_palette t _ b _ = m at hr
    cases m with
    | none => exact Option.noConfusion hr
    | some td =>
      obtain ⟨ht, -, -⟩ := memcpy_palette_fields _ _ _ _ td hm
      dsimp only at hr
      have h2 := Option.some.inj hr
      rw [← h2]
      exact ht

/-- On a context bound to a builtin table, `sixel_dither_initialize` is undefined whenever
the builder returns a palette of at least one byte to copy: the copy would be a write
into the `static const` table. -/
theorem initialize_builtin_undefined (K : SixelHeader) (LSQ_MakePalette : MakePalette)
    (t : Tables) (d : sixel_dither_t) (data : List Nat) (width height depth : Int)
    (method_for_largest method_for_rep quality_mode : Int)
    (hb : d.palette ≠ PalettePtr.own) (buf : List Nat)
    (hbuf : (LSQ_MakePalette data width height depth d.reqcolors d.ncolors d.origcolors
      (if method_for_largest = K.LARGE_AUTO then K.LARGE_NORM else method_for_largest)
      (if method_for_rep = K.REP_AUTO then K.REP_CENTER_BOX else method_for_rep)
      (if quality_mode = K.QUALITY_AUTO then
        (if d.ncolors ≤ 8 then K.QUALITY_HIGH else K.QUALITY_LOW) else quality_mode)).buf =
      some buf)
    (hn : wrap_int ((LSQ_MakePalette data width height depth d.reqcolors d.ncolors
      d.origcolors
      (if method_for_largest = K.LARGE_AUTO then K.LARGE_NORM else method_for_largest)
      (if method_for_rep = K.REP_AUTO then K.REP_CENTER_BOX else method_for_rep)
      (if quality_mode = K.QUALITY_AUTO then
        (if d.ncolors ≤ 8 then K.QUALITY_HIGH else K.QUALITY_LOW)
        else quality_mode)).ncolors * depth) ≠ 0) :
    sixel_dither_initialize K LSQ_MakePalette t d data width height depth
      method_for_largest method_for_rep quality_mode = none := by
  unfold sixel_dither_initialize
  simp only [sixel_dither_set_method_for_largest, sixel_dither_set_method_for_rep,
    sixel_dither_set_quality_mode]
  rw [hbuf]
  dsimp only
  have hm := memcpy_palette_builtin t
    { d with
      method_for_largest :=
        if method_for_largest = K.LARGE_AUTO then K.LARGE_NORM else method_for_largest
      method_for_rep := if method_for_rep = K.REP_AUTO then K.REP_CENTER_BOX else method_for_rep
      quality_mode :=
        if quality_mode = K.QUALITY_AUTO then
          (if d.ncolors ≤ 8 then K.QUALITY_HIGH else K.QUALITY_LOW)
        else quality_mode
      ncolors := (LSQ_MakePalette data width height depth d.reqcolors d.ncolors d.origcolors
        (if method_for_largest = K.LARGE_AUTO then K.LARGE_NORM else method_for_largest)
        (if method_for_rep = K.REP_AUTO then K.REP_CENTER_BOX else method_for_rep)
        (if quality_mode = K.QUALITY_AUTO then
          (if d.ncolors ≤ 8 then K.QUALITY_HIGH else K.QUALITY_LOW)
          else quality_mode)).ncolors
      origcolors := (LSQ_MakePalette data width height depth d.reqcolors d.ncolors
        d.origcolors
        (if method_for_largest = K.LARGE_AUTO then K.LARGE_NORM else method_for_largest)
        (if method_for_rep = K.REP_AUTO then K.REP_CENTER_BOX else method_for_rep)
        (if quality_mode = K.QUALITY_AUTO then
          (if d.ncolors ≤ 8 then K.QUALITY_HIGH else K.QUALITY_LOW)
          else quality_mode)).origcolors }
    buf _ hb hn
  rw [hm]

/-- One public call on a live context keeps the size invariants. -/
theorem step_keeps_sizes (K : SixelHeader) (LSQ_MakePalette : MakePalette)
    (LSQ_ApplyPalette : ApplyPalette) (hmk : builder_in_range LSQ_MakePalette)
    (s s' : Tables × sixel_dither_t) (op : DitherOp)
    (h : op.step K LSQ_MakePalette LSQ_ApplyPalette s = some s')
    (hinv : 2 ≤ s.2.reqcolors ∧ s.2.reqcolors ≤ SIXEL_PALETTE_MAX ∧
      s.2.ncolors ≤ s.2.reqcolors) :
    2 ≤ s'.2.reqcolors ∧ s'.2.reqcolors ≤ SIXEL_PALETTE_MAX ∧
      s'.2.ncolors ≤ s'.2.reqcolors := by
  cases op with
  | init data width height depth ml mr q =>
    simp only [DitherOp.step] at h
    cases hi : sixel_dither_initialize K LSQ_MakePalette s.1 s.2 data width height depth
        ml mr q with
    | none =>
      rw [hi] at h
      exact Option.noConfusion h
    | some r =>
      rw [hi] at h
      have h2 := Option.some.inj h
      rw [← h2]
      exact initialize_keeps_sizes K LSQ_MakePalette hmk s.1 s.2 data width height depth
        ml mr q hinv r hi
  | set_diffusion_type m =>
    simp only [DitherOp.step, Option.some.injEq] at h
    subst h
    exact hinv
  | set_complexion_score score =>
    simp only [DitherOp.step, Option.some.injEq] at h
    subst h
    exact hinv
  | set_body_only b =>
    simp only [DitherOp.step, Option.some.injEq] at h
    subst h
    exact hinv
  | apply_palette m c pixels width height =>
    simp only [DitherOp.step, Option.some.injEq] at h
    subst h
    have hf := apply_palette_fields LSQ_ApplyPalette m c s.1 pixels width height s.2
    have h1 : (sixel_apply_palette LSQ_ApplyPalette m c s.1 pixels width height s.2).2.reqcolors =
        s.2.reqcolors := by
      have h := congrArg sixel_dither_t.reqcolors hf
      exact h
    have h2 : (sixel_apply_palette LSQ_ApplyPalette m c s.1 pixels width height s.2).2.ncolors =
        s.2.ncolors := by
      have h := congrArg sixel_dither_t.ncolors hf
      exact h
    show 2 ≤ (sixel_apply_palette _ _ _ _ _ _ _ _).2.reqcolors ∧ _
    rw [h1, h2]
    exact hinv
  | ref =>
    simp only [DitherOp.step, sixel_dither_ref, Option.some.injEq] at h
    subst h
    exact hinv
  | unref =>
    simp only [DitherOp.step, sixel_dither_unref] at h
    split_ifs at h with hz
    · simp [sixel_dither_destroy] at h
    · simp only [Option.some.injEq] at h
      subst h
      exact hinv

/-- C19: size invariants of the dither context.  In every state reached from a context
fresh from `sixel_dither_create` or `sixel_dither_get` by any sequence of public calls
(`sixel_dither_initialize`, `sixel_dither_set_diffusion_type`,
`sixel_dither_set_complexion_score`, `sixel_dither_set_body_only`,
`sixel_apply_palette`, `sixel_dither_ref`, `sixel_dither_unref`), with a palette builder
whose resolved count lies between 1 and the `reqcolors` it is given,
`2 <= reqcolors <= SIXEL_PALETTE_MAX` and `ncolors <= reqcolors`. -/
theorem size_invariants (K : SixelHeader) (LSQ_MakePalette : MakePalette)
    (LSQ_ApplyPalette : ApplyPalette) (hmk : builder_in_range LSQ_MakePalette)
    (t0 : Tables) (d0 : sixel_dither_t)
    (hfresh : (∃ m n, sixel_dither_create K m n = some d0) ∨
      (∃ m b, sixel_dither_get K m b = some d0))
    (ops : List DitherOp) (t : Tables) (d : sixel_dither_t)
    (hrun : run_dither_ops K LSQ_MakePalette LSQ_ApplyPalette ops (t0, d0) = some (t, d)) :
    2 ≤ d.reqcolors ∧ d.reqcolors ≤ SIXEL_PALETTE_MAX ∧ d.ncolors ≤ d.reqcolors := by
  have hcreate : ∀ m n c, sixel_dither_create K m n = some c →
      2 ≤ c.reqcolors ∧ c.reqcolors ≤ SIXEL_PALETTE_MAX ∧ c.ncolors ≤ c.reqcolors := by
    intro m n c hc
    obtain ⟨-, -, -, -, hn, hq, -⟩ := create_some K m n c hc
    rw [hn, hq]
    simp only [SIXEL_PALETTE_MAX]
    split_ifs <;> omega
  have h0 : 2 ≤ d0.reqcolors ∧ d0.reqcolors ≤ SIXEL_PALETTE_MAX ∧ d0.ncolors ≤ d0.reqcolors := by
    rcases hfresh with ⟨m, n, h⟩ | ⟨m, b, h⟩
    · exact hcreate m n d0 h
    · rw [get_eq] at h
      split_ifs at h
      all_goals
        obtain ⟨c, hc, rfl⟩ := Option.map_eq_some'.mp h
        exact hcreate m _ c hc
  clear hfresh hcreate
  induction ops generalizing t0 d0 with
  | nil =>
    simp only [run_dither_ops, Option.some.injEq, Prod.mk.injEq] at hrun
    obtain ⟨-, rfl⟩ := hrun
    exact h0
  | cons op ops ih =>
    simp only [run_dither_ops] at hrun
    cases hs : op.step K LSQ_MakePalette LSQ_ApplyPalette (t0, d0) with
    | none => rw [hs] at hrun; simp at hrun
    | some s' =>
      rw [hs] at hrun
      exact ih s'.1 s'.2 hrun
        (step_keeps_sizes K LSQ_MakePalette LSQ_ApplyPalette hmk (t0, d0) s' op hs h0)

/-- C19 (instance): a builder that reports one colour; after quantizing on the context
`sixel_dither_create(16)` returns, `ncolors = 1 <= reqcolors = 16`. -/
theorem size_invariants_witness :
    ∃ d0 t d, sixel_dither_create sixel_h true 16 = some d0 ∧
      run_dither_ops sixel_h
        (fun _ _ _ _ req nc oc _ _ _ =>
          if 1 ≤ req then ⟨some [255, 0, 0], 1, 1⟩ else ⟨none, nc, oc⟩)
        (fun _ _ _ _ _ _ _ _ _ _ => ⟨0, [0], []⟩)
        [DitherOp.init [255, 0, 0] 1 1 3 0 0 0] (Tables.initial, d0) = some (t, d) ∧
      d.ncolors = 1 ∧ d.reqcolors = 16 ∧
      (2 ≤ d.reqcolors ∧ d.reqcolors ≤ SIXEL_PALETTE_MAX ∧ d.ncolors ≤ d.reqcolors) :=
  ⟨_, _, _, rfl, rfl, rfl, rfl,
    size_invariants sixel_h
      (fun _ _ _ _ req nc oc _ _ _ =>
        if 1 ≤ req then ⟨some [255, 0, 0], 1, 1⟩ else ⟨none, nc, oc⟩)
      (fun _ _ _ _ _ _ _ _ _ _ => ⟨0, [0], []⟩)
      (by
        intro data width height depth req nc oc l r q
        by_cases h : 1 ≤ req
        · left; simp [h]
        · right; simp [h])
      Tables.initial _ (Or.inl ⟨true, 16, rfl⟩)
      [DitherOp.init [255, 0, 0] 1 1 3 0 0 0] _ _ rfl⟩

/-- The cache table of a context after `sixel_apply_palette`, by the outcome of the two
allocations and the state of the context before the call. -/
theorem apply_palette_cachetable (LSQ_ApplyPalette : ApplyPalette) (malloc_ok calloc_ok : Bool)
    (t : Tables) (pixels : List Nat) (width height : Int) (d : sixel_dither_t) :
    (sixel_apply_palette LSQ_ApplyPalette malloc_ok calloc_ok t pixels width height d).2.cachetable =
      if malloc_ok = false then d.cachetable
      else if d.cachetable = none ∧ d.optimized ≠ 0 ∧
          d.palette ≠ PalettePtr.pal_mono_dark ∧ d.palette ≠ PalettePtr.pal_mono_light then
        (if calloc_ok = true then
          some (LSQ_ApplyPalette pixels width height 3 (palette_bytes t d) d.ncolors
            d.method_for_diffuse d.optimized d.complexion
            (some (List.replicate (2 ^ 15) 0))).cachetable
        else none)
      else
        d.cachetable.map fun _ =>
          (LSQ_ApplyPalette pixels width height 3 (palette_bytes t d) d.ncolors
            d.method_for_diffuse d.optimized d.complexion d.cachetable).cachetable := by
  have h15 : (1 <<< (3 * 5) : Nat) = 2 ^ 15 := by decide
  unfold sixel_apply_palette
  rw [h15]
  cases malloc_ok with
  | false => rfl
  | true =>
    rw [if_neg (by decide : ¬ (true = false)), if_neg (by decide : ¬ ((!true) = true))]
    by_cases h1 : d.cachetable = none ∧ d.optimized ≠ 0
    · by_cases h2 : d.palette ≠ PalettePtr.pal_mono_dark ∧ d.palette ≠ PalettePtr.pal_mono_light
      · have h3 : d.cachetable = none ∧ d.optimized ≠ 0 ∧
            d.palette ≠ PalettePtr.pal_mono_dark ∧ d.palette ≠ PalettePtr.pal_mono_light :=
          ⟨h1.1, h1.2, h2⟩
        rw [if_pos h1, if_pos h2, if_pos h3]
        cases calloc_ok with
        | false =>
          simp only [Bool.false_eq_true, if_false]
          split_ifs <;> rfl
        | true =>
          simp only [if_true]
          split_ifs <;> rfl
      · have h3 : ¬ (d.cachetable = none ∧ d.optimized ≠ 0 ∧
            d.palette ≠ PalettePtr.pal_mono_dark ∧ d.palette ≠ PalettePtr.pal_mono_light) :=
          fun h => h2 h.2.2
        rw [if_pos h1, if_neg h2, if_neg h3]
        dsimp only
        split_ifs <;> rfl
    · have h3 : ¬ (d.cachetable = none ∧ d.optimized ≠ 0 ∧
          d.palette ≠ PalettePtr.pal_mono_dark ∧ d.palette ≠ PalettePtr.pal_mono_light) :=
        fun h => h1 ⟨h.1, h.2.1⟩
      rw [if_neg h1, if_neg h3]
      dsimp only
      split_ifs <;> rfl

/-- A context that has a cache table keeps one of the same size through
`sixel_apply_palette`, the engine writing the table in place. -/
theorem apply_palette_cache_kept (LSQ_ApplyPalette : ApplyPalette)
    (hlen : ∀ pixels width height depth palette ncolors method optimized complexion tbl,
      (LSQ_ApplyPalette pixels width height depth palette ncolors method optimized complexion
        (some tbl)).cachetable.length = tbl.length)
    (malloc_ok calloc_ok : Bool) (t : Tables) (pixels : List Nat) (width height : Int)
    (d : sixel_dither_t) (tbl : List Nat) (h : d.cachetable = some tbl) :
    ∃ tbl', (sixel_apply_palette LSQ_ApplyPalette malloc_ok calloc_ok t pixels width height
        d).2.cachetable = some tbl' ∧ tbl'.length = tbl.length := by
  rw [apply_palette_cachetable]
  have hne : ¬ (d.cachetable = none ∧ d.optimized ≠ 0 ∧
      d.palette ≠ PalettePtr.pal_mono_dark ∧ d.palette ≠ PalettePtr.pal_mono_light) := by
    rw [h]
    exact fun hh => Option.noConfusion hh.1
  rw [if_neg hne]
  split_ifs
  · exact ⟨tbl, h, rfl⟩
  · rw [h]
    exact ⟨_, rfl, hlen _ _ _ _ _ _ _ _ _ _⟩

/-- A context without a cache table that is not optimized, or is bound to a monochrome
builtin table, gets none from `sixel_apply_palette`. -/
theorem apply_palette_no_cache (LSQ_ApplyPalette : ApplyPalette)
    (malloc_ok calloc_ok : Bool) (t : Tables) (pixels : List Nat) (width height : Int)
    (d : sixel_dither_t) (h : d.cachetable = none)
    (hne : d.optimized = 0 ∨ d.palette = PalettePtr.pal_mono_dark ∨
      d.palette = PalettePtr.pal_mono_light) :
    (sixel_apply_palette LSQ_ApplyPalette malloc_ok calloc_ok t pixels width height
      d).2.cachetable = none := by
  rw [apply_palette_cachetable]
  have hne2 : ¬ (d.cachetable = none ∧ d.optimized ≠ 0 ∧
      d.palette ≠ PalettePtr.pal_mono_dark ∧ d.palette ≠ PalettePtr.pal_mono_light) := by
    rintro ⟨-, h1, h2, h3⟩
    rcases hne with e | e | e
    · exact h1 e
    · exact h2 e
    · exact h3 e
  rw [if_neg hne2, h]
  split_ifs <;> rfl

/-- Function `sixel_apply_palette` keeps `optimized` and the palette pointer. -/
theorem apply_palette_keeps (LSQ_ApplyPalette : ApplyPalette)
    (malloc_ok calloc_ok : Bool) (t : Tables) (pixels : List Nat) (width height : Int)
    (d : sixel_dither_t) :
    (sixel_apply_palette LSQ_ApplyPalette malloc_ok calloc_ok t pixels width height
      d).2.optimized = d.optimized ∧
    (sixel_apply_palette LSQ_ApplyPalette malloc_ok calloc_ok t pixels width height
      d).2.palette = d.palette := by
  have hf := apply_palette_fields LSQ_ApplyPalette malloc_ok calloc_ok t pixels width height d
  constructor
  · have h := congrArg sixel_dither_t.optimized hf
    exact h
  · have h := congrArg sixel_dither_t.palette hf
    exact h

/-- Once a context has a cache table, no later `sixel_apply_palette` call allocates one,
and the table keeps its size. -/
theorem run_apply_calls_cache_kept (LSQ_ApplyPalette : ApplyPalette)
    (hlen : ∀ pixels width height depth palette ncolors method optimized complexion tbl,
      (LSQ_ApplyPalette pixels width height depth palette ncolors method optimized complexion
        (some tbl)).cachetable.length = tbl.length)
    (t : Tables) (calls : List ApplyCall) (d : sixel_dither_t) (tbl : List Nat)
    (h : d.cachetable = some tbl) :
    cache_allocations LSQ_ApplyPalette t calls d = 0 ∧
    ∃ tbl', (run_apply_calls LSQ_ApplyPalette t calls d).cachetable = some tbl' ∧
      tbl'.length = tbl.length := by
  induction calls generalizing d tbl with
  | nil => exact ⟨rfl, tbl, h, rfl⟩
  | cons c cs ih =>
    obtain ⟨tbl1, h1, hl1⟩ := apply_palette_cache_kept LSQ_ApplyPalette hlen c.malloc_ok
      c.calloc_ok t c.pixels c.width c.height d tbl h
    obtain ⟨ha, tbl2, h2, hl2⟩ := ih _ tbl1 h1
    refine ⟨?_, tbl2, h2, hl2.trans hl1⟩
    simp only [cache_allocations, ha, add_zero]
    rw [if_neg]
    rw [h]
    exact fun hh => Option.noConfusion hh.1

/-- A context without a cache table that is not optimized, or is bound to a monochrome
builtin table, has none after any sequence of `sixel_apply_palette` calls. -/
theorem run_apply_calls_no_cache (LSQ_ApplyPalette : ApplyPalette)
    (t : Tables) (calls : List ApplyCall) (d : sixel_dither_t) (h : d.cachetable = none)
    (hne : d.optimized = 0 ∨ d.palette = PalettePtr.pal_mono_dark ∨
      d.palette = PalettePtr.pal_mono_light) :
    (run_apply_calls LSQ_ApplyPalette t calls d).cachetable = none ∧
    cache_allocations LSQ_ApplyPalette t calls d = 0 := by
  induction calls generalizing d with
  | nil => exact ⟨h, rfl⟩
  | cons c cs ih =>
    have h1 := apply_palette_no_cache LSQ_ApplyPalette c.malloc_ok c.calloc_ok t c.pixels
      c.width c.height d h hne
    obtain ⟨ho, hp⟩ := apply_palette_keeps LSQ_ApplyPalette c.malloc_ok c.calloc_ok t c.pixels
      c.width c.height d
    obtain ⟨h2, h3⟩ := ih _ h1 (by rw [ho, hp]; exact hne)
    refine ⟨h2, ?_⟩
    simp only [cache_allocations, h3, add_zero]
    rw [if_neg]
    exact fun hh => hh.2 h1

/-- Across any sequence of `sixel_apply_palette` calls on one context the cache is
allocated at most once. -/
theorem cache_allocations_le_one (LSQ_ApplyPalette : ApplyPalette)
    (hlen : ∀ pixels width height depth palette ncolors method optimized complexion tbl,
      (LSQ_ApplyPalette pixels width height depth palette ncolors method optimized complexion
        (some tbl)).cachetable.length = tbl.length)
    (t : Tables) (calls : List ApplyCall) (d : sixel_dither_t) :
    cache_allocations LSQ_ApplyPalette t calls d ≤ 1 := by
  induction calls generalizing d with
  | nil => exact Nat.zero_le _
  | cons c cs ih =>
    simp only [cache_allocations]
    split_ifs with hh
    · cases hc : (sixel_apply_palette LSQ_ApplyPalette c.malloc_ok c.calloc_ok t c.pixels
          c.width c.height d).2.cachetable with
      | none => exact absurd hc hh.2
      | some tbl1 =>
        rw [(run_apply_calls_cache_kept LSQ_ApplyPalette hlen t cs _ tbl1 hc).1]
    · have := ih (sixel_apply_palette LSQ_ApplyPalette c.malloc_ok c.calloc_ok t c.pixels
        c.width c.height d).2
      omega

/-- C20: nearest-colour cache lifecycle in `sixel_apply_palette` (allocations succeeding,
the engine writing the table in place).  A call allocates the cache, a zero-filled
table of 2^15 entries handed to the engine, exactly when the context has no cache yet,
`optimized` is true and the palette is neither monochrome builtin table; in every
other case the context keeps the cache it had, or none.  Across any sequence of calls
the cache is allocated at most once and keeps its size, and a context that is not
optimized or is bound to a monochrome builtin never gets a cache. -/
theorem cache_lifecycle (LSQ_ApplyPalette : ApplyPalette)
    (hlen : ∀ pixels width height depth palette ncolors method optimized complexion tbl,
      (LSQ_ApplyPalette pixels width height depth palette ncolors method optimized complexion
        (some tbl)).cachetable.length = tbl.length)
    (t : Tables) (d : sixel_dither_t) :
    (∀ pixels width height,
      ((d.cachetable = none ∧
          (sixel_apply_palette LSQ_ApplyPalette true true t pixels width height
            d).2.cachetable ≠ none) ↔
        (d.cachetable = none ∧ d.optimized ≠ 0 ∧
          d.palette ≠ PalettePtr.pal_mono_dark ∧ d.palette ≠ PalettePtr.pal_mono_light)) ∧
      ((d.cachetable = none ∧ d.optimized ≠ 0 ∧
          d.palette ≠ PalettePtr.pal_mono_dark ∧ d.palette ≠ PalettePtr.pal_mono_light) →
        (sixel_apply_palette LSQ_ApplyPalette true true t pixels width height
            d).2.cachetable =
          some (LSQ_ApplyPalette pixels width height 3 (palette_bytes t d) d.ncolors
            d.method_for_diffuse d.optimized d.complexion
            (some (List.replicate (2 ^ 15) 0))).cachetable ∧
        ∃ tbl, (sixel_apply_palette LSQ_ApplyPalette true true t pixels width height
            d).2.cachetable = some tbl ∧ tbl.length = 2 ^ 15)) ∧
    (∀ malloc_ok calloc_ok pixels width height,
      (¬ (d.cachetable = none ∧ d.optimized ≠ 0 ∧
          d.palette ≠ PalettePtr.pal_mono_dark ∧ d.palette ≠ PalettePtr.pal_mono_light) →
        ((sixel_apply_palette LSQ_ApplyPalette malloc_ok calloc_ok t pixels width height
            d).2.cachetable = none ↔ d.cachetable = none)) ∧
      (∀ tbl, d.cachetable = some tbl →
        ∃ tbl', (sixel_apply_palette LSQ_ApplyPalette malloc_ok calloc_ok t pixels width height
            d).2.cachetable = some tbl' ∧ tbl'.length = tbl.length)) ∧
    (∀ calls,
      cache_allocations LSQ_ApplyPalette t calls d ≤ 1 ∧
      (∀ tbl, d.cachetable = some tbl →
        cache_allocations LSQ_ApplyPalette t calls d = 0 ∧
        ∃ tbl', (run_apply_calls LSQ_ApplyPalette t calls d).cachetable = some tbl' ∧
          tbl'.length = tbl.length) ∧
      (d.cachetable = none →
        (d.optimized = 0 ∨ d.palette = PalettePtr.pal_mono_dark ∨
          d.palette = PalettePtr.pal_mono_light) →
        (run_apply_calls LSQ_ApplyPalette t calls d).cachetable = none)) := by
  refine ⟨fun pixels width height => ⟨?_, ?_⟩, fun malloc_ok calloc_ok pixels width height =>
    ⟨?_, ?_⟩, fun calls => ⟨?_, ?_, ?_⟩⟩
  · rw [apply_palette_cachetable, if_neg (by decide : ¬ (true = false))]
    constructor
    · rintro ⟨h1, h2⟩
      by_contra hne
      rw [if_neg hne, h1] at h2
      exact h2 rfl
    · intro h
      rw [if_pos h, if_pos rfl]
      exact ⟨h.1, fun hh => Option.noConfusion hh⟩
  · intro h
    rw [apply_palette_cachetable, if_neg (by decide : ¬ (true = false)), if_pos h, if_pos rfl]
    refine ⟨rfl, _, rfl, ?_⟩
    rw [hlen, List.length_replicate]
  · intro hne
    rw [apply_palette_cachetable, if_neg hne]
    split_ifs
    · exact Iff.rfl
    · cases d.cachetable <;> simp
  · intro tbl h
    exact apply_palette_cache_kept LSQ_ApplyPalette hlen malloc_ok calloc_ok t pixels width
      height d tbl h
  · exact cache_allocations_le_one LSQ_ApplyPalette hlen t calls d
  · intro tbl h
    exact run_apply_calls_cache_kept LSQ_ApplyPalette hlen t calls d tbl h
  · intro h hne
    exact (run_apply_calls_no_cache LSQ_ApplyPalette t calls d h hne).1

/-- C20 (instance): on the context `sixel_dither_get(BUILTIN_XTERM256)` returns, two calls
of `sixel_apply_palette` allocate the cache at most once. -/
theorem cache_lifecycle_witness :
    ∃ d, sixel_dither_get sixel_h true sixel_h.BUILTIN_XTERM256 = some d ∧
      cache_allocations (fun _ _ _ _ _ _ _ _ _ c => ⟨0, [0], c.getD []⟩) Tables.initial
        [⟨true, true, [255, 0, 0], 1, 1⟩, ⟨true, true, [0, 255, 0], 1, 1⟩] d ≤ 1 :=
  ⟨_, rfl,
    ((cache_lifecycle (fun _ _ _ _ _ _ _ _ _ c => ⟨0, [0], c.getD []⟩)
      (fun _ _ _ _ _ _ _ _ _ _ => rfl) Tables.initial _).2.2
      [⟨true, true, [255, 0, 0], 1, 1⟩, ⟨true, true, [0, 255, 0], 1, 1⟩]).1⟩

/-- One public call on a live context leaves the static tables as they are. -/
theorem step_keeps_tables (K : SixelHeader) (LSQ_MakePalette : MakePalette)
    (LSQ_ApplyPalette : ApplyPalette) (s s' : Tables × sixel_dither_t) (op : DitherOp)
    (h : op.step K LSQ_MakePalette LSQ_ApplyPalette s = some s') : s'.1 = s.1 := by
  cases op with
  | init data width height depth ml mr q =>
    simp only [DitherOp.step] at h
    cases hi : sixel_dither_initialize K LSQ_MakePalette s.1 s.2 data width height depth
        ml mr q with
    | none =>
      rw [hi] at h
      exact Option.noConfusion h
    | some r =>
      rw [hi] at h
      have h2 := Option.some.inj h
      rw [← h2]
      exact initialize_keeps_tables K LSQ_MakePalette s.1 s.2 data width height depth
        ml mr q r hi
  | set_diffusion_type m =>
    simp only [DitherOp.step, Option.some.injEq] at h
    rw [← h]
  | set_complexion_score score =>
    simp only [DitherOp.step, Option.some.injEq] at h
    rw [← h]
  | set_body_only b =>
    simp only [DitherOp.step, Option.some.injEq] at h
    rw [← h]
  | apply_palette m c pixels width height =>
    simp only [DitherOp.step, Option.some.injEq] at h
    rw [← h]
  | ref =>
    simp only [DitherOp.step, sixel_dither_ref, Option.some.injEq] at h
    rw [← h]
  | unref =>
    simp only [DitherOp.step, sixel_dither_unref] at h
    split_ifs at h with hz
    · simp [sixel_dither_destroy] at h
    · simp only [Option.some.injEq] at h
      rw [← h]

/-- No sequence of public calls changes the static tables: in every state a run reaches,
`pal_mono_dark`, `pal_mono_light` and `pal_xterm256` hold what they held at the start. -/
theorem run_keeps_tables (K : SixelHeader) (LSQ_MakePalette : MakePalette)
    (LSQ_ApplyPalette : ApplyPalette) (ops : List DitherOp) :
    ∀ (s s' : Tables × sixel_dither_t),
      run_dither_ops K LSQ_MakePalette LSQ_ApplyPalette ops s = some s' → s'.1 = s.1 := by
  induction ops with
  | nil =>
    intro s s' h
    simp only [run_dither_ops, Option.some.injEq] at h
    rw [← h]
  | cons op ops ih =>
    intro s s' h
    simp only [run_dither_ops] at h
    cases hs : op.step K LSQ_MakePalette LSQ_ApplyPalette s with
    | none =>
      rw [hs] at h
      exact Option.noConfusion h
    | some s1 =>
      rw [hs] at h
      rw [ih s1 s' h]
      exact step_keeps_tables K LSQ_MakePalette LSQ_ApplyPalette s s1 op hs

/-! ## Properties of `convert_to_sixel` -/

/-- The variables of `convert_to_sixel` once the source is decoded to `pixels` and the
scaling lines have computed the step `s`. -/
theorem convert_loaded (K : SixelHeader) (env : Collaborators)
    (filename : Option String) (reqcolors : Int) (mapfile : Option String) (monochrome : Int)
    (method_for_diffuse method_for_largest method_for_rep quality_mode : Int)
    (method_for_resampling : Int) (f8bit : Int)
    (pixelwidth pixelheight percentwidth percentheight : Int)
    (f : FILE) (px : List Nat) (sx sy : Int) (s : ScaleStep)
    (hopen : open_binary_file env.fopen filename = some f)
    (hload : env.stbi_load_from_file f = some (px, sx, sy))
    (hscale : scaling sx sy pixelwidth pixelheight percentwidth percentheight = some s) :
    convert_to_sixel K env filename reqcolors mapfile monochrome method_for_diffuse
      method_for_largest method_for_rep quality_mode method_for_resampling f8bit
      pixelwidth pixelheight percentwidth percentheight =
    convert_apply_encode K env
      (convert_prepare_palette K env
        (convert_scale env
          { pixels := some (Block.pixels, px), mappixels := none, palette := none,
            data := none, im := none, context := none, ncolors := env.ncolors_indet,
            origcolors := env.origcolors_indet, nret := -1,
            events := [MemEvent.acquire Block.pixels], scale_call := none,
            apply_call := none, encoded := none, trap := false }
          px sx sy s method_for_resampling)
        s.sx s.sy
        (if reqcolors < 2 then 2 else if reqcolors > PALETTE_MAX then PALETTE_MAX
          else reqcolors)
        mapfile monochrome method_for_diffuse method_for_largest method_for_rep
        quality_mode).1
      s.sx s.sy monochrome
      (convert_prepare_palette K env
        (convert_scale env
          { pixels := some (Block.pixels, px), mappixels := none, palette := none,
            data := none, im := none, context := none, ncolors := env.ncolors_indet,
            origcolors := env.origcolors_indet, nret := -1,
            events := [MemEvent.acquire Block.pixels], scale_call := none,
            apply_call := none, encoded := none, trap := false }
          px sx sy s method_for_resampling)
        s.sx s.sy
        (if reqcolors < 2 then 2 else if reqcolors > PALETTE_MAX then PALETTE_MAX
          else reqcolors)
        mapfile monochrome method_for_diffuse method_for_largest method_for_rep
        quality_mode).2
      f8bit := by
  unfold convert_to_sixel
  rw [hopen]
  dsimp only
  rw [hload]
  dsimp only
  rw [hscale]
  rfl

/-- The variables of `convert_to_sixel` when the scaling lines divide by zero: the run
stops with the source pixels decoded and nothing else done. -/
theorem convert_trapped (K : SixelHeader) (env : Collaborators)
    (filename : Option String) (reqcolors : Int) (mapfile : Option String) (monochrome : Int)
    (method_for_diffuse method_for_largest method_for_rep quality_mode : Int)
    (method_for_resampling : Int) (f8bit : Int)
    (pixelwidth pixelheight percentwidth percentheight : Int)
    (f : FILE) (px : List Nat) (sx sy : Int)
    (hopen : open_binary_file env.fopen filename = some f)
    (hload : env.stbi_load_from_file f = some (px, sx, sy))
    (hscale : scaling sx sy pixelwidth pixelheight percentwidth percentheight = none) :
    convert_to_sixel K env filename reqcolors mapfile monochrome method_for_diffuse
      method_for_largest method_for_rep quality_mode method_for_resampling f8bit
      pixelwidth pixelheight percentwidth percentheight =
    { pixels := some (Block.pixels, px), mappixels := none, palette := none,
      data := none, im := none, context := none, ncolors := env.ncolors_indet,
      origcolors := env.origcolors_indet, nret := -1,
      events := [MemEvent.acquire Block.pixels], scale_call := none,
      apply_call := none, encoded := none, trap := true } := by
  unfold convert_to_sixel
  rw [hopen]
  dsimp only
  rw [hload]
  dsimp only
  rw [hscale]
  rfl

/-- The code after `end:` and the three stages of `convert_to_sixel` leave `trap` as it
is. -/
theorem convert_stages_trap (K : SixelHeader) (env : Collaborators) (v : ConvertVars) :
    (convert_end v).trap = v.trap ∧
    (∀ px sx sy s m, (convert_scale env v px sx sy s m).trap = v.trap) ∧
    (∀ sx sy rc mapfile mono md ml mr q,
      (convert_prepare_palette K env v sx sy rc mapfile mono md ml mr q).1.trap = v.trap) ∧
    (∀ sx sy mono md f8, (convert_apply_encode K env v sx sy mono md f8).trap = v.trap) := by
  refine ⟨rfl, ?_, ?_, ?_⟩
  · intro px sx sy s m
    unfold convert_scale
    split_ifs <;> rfl
  · intro sx sy rc mapfile mono md ml mr q
    unfold convert_prepare_palette
    by_cases hm : mono ≠ 0
    · rw [if_pos hm]
    · rw [if_neg hm]
      cases mapfile <;> rfl
  · intro sx sy mono md f8
    unfold convert_apply_encode
    split
    · rfl
    · dsimp only
      split
      · rfl
      · split <;> rfl

/-- Function `convert_to_sixel` stops at a trap exactly when the source is decoded and the
scaling lines divide by zero. -/
theorem convert_trap_iff (K : SixelHeader) (env : Collaborators)
    (filename : Option String) (reqcolors : Int) (mapfile : Option String) (monochrome : Int)
    (method_for_diffuse method_for_largest method_for_rep quality_mode : Int)
    (method_for_resampling : Int) (f8bit : Int)
    (pixelwidth pixelheight percentwidth percentheight : Int) :
    (convert_to_sixel K env filename reqcolors mapfile monochrome method_for_diffuse
      method_for_largest method_for_rep quality_mode method_for_resampling f8bit
      pixelwidth pixelheight percentwidth percentheight).trap = true ↔
    ∃ f px sx sy, open_binary_file env.fopen filename = some f ∧
      env.stbi_load_from_file f = some (px, sx, sy) ∧
      scaling sx sy pixelwidth pixelheight percentwidth percentheight = none := by
  cases hopen : open_binary_file env.fopen filename with
  | none =>
    have h : (convert_to_sixel K env filename reqcolors mapfile monochrome method_for_diffuse
        method_for_largest method_for_rep quality_mode method_for_resampling f8bit
        pixelwidth pixelheight percentwidth percentheight).trap = false := by
      unfold convert_to_sixel
      rw [hopen]
      rfl
    rw [h]
    constructor
    · intro h2
      exact Bool.noConfusion h2
    · rintro ⟨f, px, sx, sy, h1, -, -⟩
      exact Option.noConfusion h1
  | some f =>
    cases hload : env.stbi_load_from_file f with
    | none =>
      have h : (convert_to_sixel K env filename reqcolors mapfile monochrome
          method_for_diffuse method_for_largest method_for_rep quality_mode
          method_for_resampling f8bit
          pixelwidth pixelheight percentwidth percentheight).trap = false := by
        unfold convert_to_sixel
        rw [hopen]
        dsimp only
        rw [hload]
        rfl
      rw [h]
      constructor
      · intro h2
        exact Bool.noConfusion h2
      · rintro ⟨f2, px, sx, sy, h1, h2, -⟩
        have hf := Option.some.inj h1
        rw [← hf, hload] at h2
        exact Option.noConfusion h2
    | some p =>
      obtain ⟨px, sx, sy⟩ := p
      cases hscale : scaling sx sy pixelwidth pixelheight percentwidth percentheight with
      | none =>
        rw [convert_trapped K env filename reqcolors mapfile monochrome
          method_for_diffuse method_for_largest method_for_rep quality_mode
          method_for_resampling f8bit pixelwidth pixelheight percentwidth percentheight
          f px sx sy hopen hload hscale]
        exact ⟨fun _ => ⟨f, px, sx, sy, rfl, hload, hscale⟩, fun _ => rfl⟩
      | some s =>
        rw [convert_loaded K env filename reqcolors mapfile monochrome
          method_for_diffuse method_for_largest method_for_rep quality_mode
          method_for_resampling f8bit pixelwidth pixelheight percentwidth percentheight
          f px sx sy s hopen hload hscale]
        rw [(convert_stages_trap K env _).2.2.2, (convert_stages_trap K env _).2.2.1,
          (convert_stages_trap K env _).2.1]
        constructor
        · intro h2
          exact Bool.noConfusion h2
        · rintro ⟨f2, px2, sx2, sy2, h1, h2, h3⟩
          have hf := Option.some.inj h1
          rw [← hf, hload] at h2
          have hp := Option.some.inj h2
          rw [Prod.mk.injEq, Prod.mk.injEq] at hp
          obtain ⟨-, rfl, rfl⟩ := hp
          rw [hscale] at h3
          exact Option.noConfusion h3

/-- The last stage of `convert_to_sixel` changes only `apply_call`, `data`, `im`, `context`,
`encoded`, `nret` and the log. -/
theorem convert_apply_encode_fields (K : SixelHeader) (env : Collaborators) (v : ConvertVars)
    (sx sy monochrome method_for_diffuse f8bit : Int) :
    (convert_apply_encode K env v sx sy monochrome method_for_diffuse f8bit).palette =
      v.palette ∧
    (convert_apply_encode K env v sx sy monochrome method_for_diffuse f8bit).ncolors =
      v.ncolors ∧
    (convert_apply_encode K env v sx sy monochrome method_for_diffuse f8bit).scale_call =
      v.scale_call ∧
    (convert_apply_encode K env v sx sy monochrome method_for_diffuse f8bit).pixels =
      v.pixels := by
  unfold convert_apply_encode
  split
  · exact ⟨rfl, rfl, rfl, rfl⟩
  · dsimp only
    split
    · exact ⟨rfl, rfl, rfl, rfl⟩
    · split <;> exact ⟨rfl, rfl, rfl, rfl⟩

/-- The last stage of `convert_to_sixel` returns 0 exactly when it calls the encoder, and
-1 otherwise; the image it hands to the encoder has the size after scaling, the first
`ncolors` entries of the palette, key colour 0 for monochrome and -1 otherwise. -/
theorem convert_apply_encode_result (K : SixelHeader) (env : Collaborators) (v : ConvertVars)
    (sx sy monochrome method_for_diffuse f8bit : Int) (hv : v.encoded = none) :
    (((convert_apply_encode K env v sx sy monochrome method_for_diffuse f8bit).nret = 0 ∧
        (convert_apply_encode K env v sx sy monochrome method_for_diffuse f8bit).encoded ≠
          none ∧ v.palette ≠ none) ∨
      ((convert_apply_encode K env v sx sy monochrome method_for_diffuse f8bit).nret = -1 ∧
        (convert_apply_encode K env v sx sy monochrome method_for_diffuse f8bit).encoded =
          none)) ∧
    ∀ im b,
      (convert_apply_encode K env v sx sy monochrome method_for_diffuse f8bit).encoded =
        some (im, b) →
      b = f8bit ∧ im.sx = sx ∧ im.sy = sy ∧ im.ncolors = v.ncolors ∧
      im.keycolor = (if monochrome ≠ 0 then 0 else -1) ∧
      ∃ palette, v.palette = some palette ∧
        im.palette = (List.range v.ncolors.toNat).map fun i =>
          (palette[i * 3]?, palette[i * 3 + 1]?, palette[i * 3 + 2]?) := by
  unfold convert_apply_encode
  split
  · refine ⟨Or.inr ⟨rfl, hv⟩, ?_⟩
    intro im b h
    rw [show (convert_end { v with nret := -1 }).encoded = v.encoded from rfl, hv] at h
    exact Option.noConfusion h
  · rename_i palette hp
    dsimp only
    split
    · refine ⟨Or.inr ⟨rfl, hv⟩, ?_⟩
      intro im b h
      exact Option.noConfusion (hv ▸ h)
    · split
      · refine ⟨Or.inr ⟨rfl, hv⟩, ?_⟩
        intro im b h
        exact Option.noConfusion (hv ▸ h)
      · refine ⟨Or.inl ⟨rfl, fun h => Option.noConfusion h, ?_⟩, ?_⟩
        · rw [hp]
          exact fun h => Option.noConfusion h
        · intro im b h
          have h2 := Option.some.inj h
          rw [Prod.mk.injEq] at h2
          obtain ⟨rfl, rfl⟩ := h2
          exact ⟨rfl, rfl, rfl, rfl, rfl, palette, hp, rfl⟩

/-- The scaling block of `convert_to_sixel` changes only `pixels`, `scale_call` and the log;
afterwards `pixels` is what `LSS_scale` returned if it was called. -/
theorem convert_scale_fields (env : Collaborators) (v : ConvertVars) (px : List Nat)
    (sx sy : Int) (s : ScaleStep) (method_for_resampling : Int) :
    (convert_scale env v px sx sy s method_for_resampling).palette = v.palette ∧
    (convert_scale env v px sx sy s method_for_resampling).ncolors = v.ncolors ∧
    (convert_scale env v px sx sy s method_for_resampling).origcolors = v.origcolors ∧
    (convert_scale env v px sx sy s method_for_resampling).encoded = v.encoded ∧
    (convert_scale env v px sx sy s method_for_resampling).mappixels = v.mappixels ∧
    ((convert_scale env v px sx sy s method_for_resampling).pixels.map fun p => p.2) =
      (if s.scaled = true then
        env.LSS_scale px sx sy 3 s.pixelwidth s.pixelheight method_for_resampling
      else v.pixels.map fun p => p.2) ∧
    (convert_scale env v px sx sy s method_for_resampling).scale_call =
      (if s.scaled = true then some (s.pixelwidth, s.pixelheight) else v.scale_call) := by
  unfold convert_scale
  split_ifs
  · refine ⟨rfl, rfl, rfl, rfl, rfl, ?_, rfl⟩
    dsimp only
    cases env.LSS_scale px sx sy 3 s.pixelwidth s.pixelheight method_for_resampling <;> rfl
  · exact ⟨rfl, rfl, rfl, rfl, rfl, rfl, rfl⟩

/-- The palette block of `convert_to_sixel` changes only `palette`, `ncolors`, `origcolors`
and the log. -/
theorem convert_prepare_palette_fields (K : SixelHeader) (env : Collaborators)
    (v : ConvertVars) (sx sy reqcolors : Int) (mapfile : Option String)
    (monochrome method_for_diffuse method_for_largest method_for_rep quality_mode : Int) :
    (convert_prepare_palette K env v sx sy reqcolors mapfile monochrome method_for_diffuse
      method_for_largest method_for_rep quality_mode).1.encoded = v.encoded ∧
    (convert_prepare_palette K env v sx sy reqcolors mapfile monochrome method_for_diffuse
      method_for_largest method_for_rep quality_mode).1.scale_call = v.scale_call ∧
    (convert_prepare_palette K env v sx sy reqcolors mapfile monochrome method_for_diffuse
      method_for_largest method_for_rep quality_mode).1.pixels = v.pixels ∧
    (convert_prepare_palette K env v sx sy reqcolors mapfile monochrome method_for_diffuse
      method_for_largest method_for_rep quality_mode).1.mappixels = v.mappixels := by
  unfold convert_prepare_palette
  by_cases hm : monochrome ≠ 0
  · rw [if_pos hm]
    exact ⟨rfl, rfl, rfl, rfl⟩
  · rw [if_neg hm]
    cases mapfile <;> exact ⟨rfl, rfl, rfl, rfl⟩

/-- The palette block of `convert_to_sixel`, by the source of the palette. -/
theorem convert_prepare_palette_source (K : SixelHeader) (env : Collaborators)
    (v : ConvertVars) (sx sy reqcolors : Int) (mapfile : Option String)
    (monochrome method_for_diffuse method_for_largest method_for_rep quality_mode : Int) :
    (monochrome ≠ 0 →
      (convert_prepare_palette K env v sx sy reqcolors mapfile monochrome method_for_diffuse
        method_for_largest method_for_rep quality_mode).1.palette =
        some prepare_monochrome_palette ∧
      (convert_prepare_palette K env v sx sy reqcolors mapfile monochrome method_for_diffuse
        method_for_largest method_for_rep quality_mode).1.ncolors = 2) ∧
    (monochrome = 0 → ∀ m, mapfile = some m →
      (convert_prepare_palette K env v sx sy reqcolors mapfile monochrome method_for_diffuse
        method_for_largest method_for_rep quality_mode).1.palette =
        (prepare_specified_palette K env m reqcolors v.ncolors).palette ∧
      (convert_prepare_palette K env v sx sy reqcolors mapfile monochrome method_for_diffuse
        method_for_largest method_for_rep quality_mode).1.ncolors =
        (prepare_specified_palette K env m reqcolors v.ncolors).ncolors) ∧
    (monochrome = 0 → mapfile = none →
      (convert_prepare_palette K env v sx sy reqcolors mapfile monochrome method_for_diffuse
        method_for_largest method_for_rep quality_mode).1.palette =
        (env.LSQ_MakePalette (v.pixels.map fun p => p.2) sx sy 3 reqcolors v.ncolors
          v.origcolors
          (if method_for_largest = K.LARGE_AUTO then K.LARGE_NORM else method_for_largest)
          (if method_for_rep = K.REP_AUTO then K.REP_CENTER_BOX else method_for_rep)
          (if quality_mode = K.QUALITY_AUTO then
            (if reqcolors ≤ 8 then K.QUALITY_HIGH else K.QUALITY_LOW) else quality_mode)).buf ∧
      (convert_prepare_palette K env v sx sy reqcolors mapfile monochrome method_for_diffuse
        method_for_largest method_for_rep quality_mode).1.ncolors =
        (env.LSQ_MakePalette (v.pixels.map fun p => p.2) sx sy 3 reqcolors v.ncolors
          v.origcolors
          (if method_for_largest = K.LARGE_AUTO then K.LARGE_NORM else method_for_largest)
          (if method_for_rep = K.REP_AUTO then K.REP_CENTER_BOX else method_for_rep)
          (if quality_mode = K.QUALITY_AUTO then
            (if reqcolors ≤ 8 then K.QUALITY_HIGH else K.QUALITY_LOW)
            else quality_mode)).ncolors) := by
  unfold convert_prepare_palette
  refine ⟨fun hm => ?_, fun hm m hmap => ?_, fun hm hmap => ?_⟩
  · rw [if_pos hm]
    exact ⟨rfl, rfl⟩
  · subst hmap
    rw [if_neg (not_not.mpr hm)]
    exact ⟨rfl, rfl⟩
  · subst hmap
    rw [if_neg (not_not.mpr hm)]
    exact ⟨rfl, rfl⟩

/-- Function `prepare_specified_palette` for a map file that opens and decodes: the
palette the builder returns for the decoded map pixels. -/
theorem prepare_specified_palette_decoded (K : SixelHeader) (env : Collaborators)
    (m : String) (reqcolors ncolors : Int) (fm : FILE) (mp : List Nat) (mx my : Int)
    (hopen : open_binary_file env.fopen (some m) = some fm)
    (hload : env.stbi_load_from_file fm = some (mp, mx, my)) :
    (prepare_specified_palette K env m reqcolors ncolors).palette =
      (env.LSQ_MakePalette (some mp) mx my 3 reqcolors ncolors env.origcolors_indet
        K.LARGE_NORM K.REP_CENTER_BOX K.QUALITY_LOW).buf ∧
    (prepare_specified_palette K env m reqcolors ncolors).events.count
      (MemEvent.acquire Block.mappixels) = 1 ∧
    (prepare_specified_palette K env m reqcolors ncolors).events.count
      (MemEvent.release Block.mappixels) = 0 := by
  unfold prepare_specified_palette
  rw [hopen]
  dsimp only
  rw [hload]
  dsimp only
  refine ⟨rfl, ?_, ?_⟩
  · split_ifs <;> decide
  · split_ifs <;> decide

/-- C15: palette selection in `convert_to_sixel`, for a source that opens and decodes.
With `monochrome` set the palette is the two-colour table `00 00 00, ff ff ff`,
`ncolors = 2` and the key colour of the image is 0, whatever `mapfile` and `reqcolors`
are.  Otherwise the key colour is -1 and the palette is the one
`prepare_specified_palette` builds from the map file when one is given (the builder run
on the decoded map pixels), and the one the builder returns for the possibly scaled
source pixels and the clamped `reqcolors` when none is given.  The image handed to the
encoder carries the first `ncolors` entries of that palette. -/
theorem palette_selection (K : SixelHeader) (env : Collaborators)
    (filename : Option String) (reqcolors : Int) (mapfile : Option String) (monochrome : Int)
    (method_for_diffuse method_for_largest method_for_rep quality_mode : Int)
    (method_for_resampling : Int) (f8bit : Int)
    (pixelwidth pixelheight percentwidth percentheight : Int)
    (f : FILE) (px : List Nat) (sx sy : Int)
    (hopen : open_binary_file env.fopen filename = some f)
    (hload : env.stbi_load_from_file f = some (px, sx, sy))
    (hsx : 0 < sx) (hsy : 0 < sy) :
    let rc := if reqcolors < 2 then 2 else if reqcolors > PALETTE_MAX then PALETTE_MAX
      else reqcolors
    let r := convert_to_sixel K env filename reqcolors mapfile monochrome method_for_diffuse
      method_for_largest method_for_rep quality_mode method_for_resampling f8bit
      pixelwidth pixelheight percentwidth percentheight
    ∃ s, scaling sx sy pixelwidth pixelheight percentwidth percentheight = some s ∧
    r.trap = false ∧
    let pixels :=
      if s.scaled = true then
        env.LSS_scale px sx sy 3 s.pixelwidth s.pixelheight method_for_resampling
      else some px
    (monochrome ≠ 0 →
      r.palette = some [0x00, 0x00, 0x00, 0xff, 0xff, 0xff] ∧ r.ncolors = 2 ∧
      ∀ im b, r.encoded = some (im, b) →
        im.keycolor = 0 ∧ im.ncolors = 2 ∧
        im.palette = [(some 0x00, some 0x00, some 0x00), (some 0xff, some 0xff, some 0xff)]) ∧
    (monochrome = 0 →
      (∀ im b, r.encoded = some (im, b) → im.keycolor = -1) ∧
      (∀ m, mapfile = some m →
        r.palette = (prepare_specified_palette K env m rc env.ncolors_indet).palette ∧
        r.ncolors = (prepare_specified_palette K env m rc env.ncolors_indet).ncolors ∧
        ∀ fm mp mx my, open_binary_file env.fopen (some m) = some fm →
          env.stbi_load_from_file fm = some (mp, mx, my) →
          r.palette = (env.LSQ_MakePalette (some mp) mx my 3 rc env.ncolors_indet
            env.origcolors_indet K.LARGE_NORM K.REP_CENTER_BOX K.QUALITY_LOW).buf) ∧
      (mapfile = none →
        r.palette = (env.LSQ_MakePalette pixels s.sx s.sy 3 rc env.ncolors_indet
          env.origcolors_indet
          (if method_for_largest = K.LARGE_AUTO then K.LARGE_NORM else method_for_largest)
          (if method_for_rep = K.REP_AUTO then K.REP_CENTER_BOX else method_for_rep)
          (if quality_mode = K.QUALITY_AUTO then
            (if rc ≤ 8 then K.QUALITY_HIGH else K.QUALITY_LOW) else quality_mode)).buf ∧
        r.ncolors = (env.LSQ_MakePalette pixels s.sx s.sy 3 rc env.ncolors_indet
          env.origcolors_indet
          (if method_for_largest = K.LARGE_AUTO then K.LARGE_NORM else method_for_largest)
          (if method_for_rep = K.REP_AUTO then K.REP_CENTER_BOX else method_for_rep)
          (if quality_mode = K.QUALITY_AUTO then
            (if rc ≤ 8 then K.QUALITY_HIGH else K.QUALITY_LOW) else quality_mode)).ncolors)) ∧
    (∀ im b, r.encoded = some (im, b) →
      im.ncolors = r.ncolors ∧
      ∃ palette, r.palette = some palette ∧
        im.palette = (List.range r.ncolors.toNat).map fun i =>
          (palette[i * 3]?, palette[i * 3 + 1]?, palette[i * 3 + 2]?)) := by
  intro rc r
  obtain ⟨s, hscale⟩ := scaling_defined sx sy pixelwidth pixelheight percentwidth
    percentheight hsx hsy
  have htrap : r.trap = false := by
    cases ht : r.trap with
    | false => rfl
    | true =>
      obtain ⟨f2, px2, sx2, sy2, h1, h2, h3⟩ := (convert_trap_iff K env filename reqcolors
        mapfile monochrome method_for_diffuse method_for_largest method_for_rep quality_mode
        method_for_resampling f8bit pixelwidth pixelheight percentwidth percentheight).mp ht
      rw [hopen] at h1
      have hf := Option.some.inj h1
      rw [← hf, hload] at h2
      have hp := Option.some.inj h2
      rw [Prod.mk.injEq, Prod.mk.injEq] at hp
      obtain ⟨-, rfl, rfl⟩ := hp
      rw [hscale] at h3
      exact Option.noConfusion h3
  refine ⟨s, hscale, htrap, ?_⟩
  intro pixels
  have hr : r = _ := convert_loaded K env filename reqcolors mapfile monochrome
    method_for_diffuse method_for_largest method_for_rep quality_mode method_for_resampling
    f8bit pixelwidth pixelheight percentwidth percentheight f px sx sy s hopen hload hscale
  clear htrap
  clear_value r
  obtain ⟨-, hS2, hS3, hS4, -, hS6, -⟩ := convert_scale_fields env
    { pixels := some (Block.pixels, px), mappixels := none, palette := none,
      data := none, im := none, context := none, ncolors := env.ncolors_indet,
      origcolors := env.origcolors_indet, nret := -1,
      events := [MemEvent.acquire Block.pixels], scale_call := none,
      apply_call := none, encoded := none, trap := false } px sx sy s method_for_resampling
  generalize convert_scale env
    { pixels := some (Block.pixels, px), mappixels := none, palette := none,
      data := none, im := none, context := none, ncolors := env.ncolors_indet,
      origcolors := env.origcolors_indet, nret := -1,
      events := [MemEvent.acquire Block.pixels], scale_call := none,
      apply_call := none, encoded := none, trap := false } px sx sy s method_for_resampling = vs
    at hr hS2 hS3 hS4 hS6
  obtain ⟨hP1, hP2, hP3⟩ := convert_prepare_palette_source K env vs s.sx s.sy rc mapfile
    monochrome method_for_diffuse method_for_largest method_for_rep quality_mode
  obtain ⟨hF1, -, -, -⟩ := convert_prepare_palette_fields K env vs s.sx s.sy rc mapfile
    monochrome method_for_diffuse method_for_largest method_for_rep quality_mode
  rw [hS2] at hP2
  rw [hS2, hS3, hS6] at hP3
  generalize convert_prepare_palette K env vs s.sx s.sy rc mapfile
    monochrome method_for_diffuse method_for_largest method_for_rep quality_mode = vp
    at hr hP1 hP2 hP3 hF1
  obtain ⟨hA1, hA2, -, -⟩ := convert_apply_encode_fields K env vp.1 s.sx s.sy monochrome vp.2
    f8bit
  obtain ⟨-, hE⟩ := convert_apply_encode_result K env vp.1 s.sx s.sy monochrome vp.2
    f8bit (hF1.trans hS4)
  rw [← hr] at hA1 hA2 hE
  rw [hA1, hA2]
  refine ⟨fun hm => ?_, fun hm => ⟨?_, fun m hmap => ?_, fun hmap => ?_⟩, ?_⟩
  · obtain ⟨h1, h2⟩ := hP1 hm
    refine ⟨h1, h2, fun im b h => ?_⟩
    obtain ⟨-, -, -, e1, e2, palette, e3, e4⟩ := hE im b h
    rw [h1] at e3
    obtain rfl := Option.some.inj e3
    rw [h2] at e1 e4
    rw [if_pos hm] at e2
    exact ⟨e2, e1, e4⟩
  · intro im b h
    obtain ⟨-, -, -, -, e2, -⟩ := hE im b h
    rw [if_neg (not_not.mpr hm)] at e2
    exact e2
  · obtain ⟨h1, h2⟩ := hP2 hm m hmap
    refine ⟨h1, h2, fun fm mp mx my ho hl => ?_⟩
    rw [h1]
    exact (prepare_specified_palette_decoded K env m rc env.ncolors_indet fm mp mx my ho hl).1
  · exact hP3 hm hmap
  · intro im b h
    obtain ⟨-, -, -, e1, -, palette, e3, e4⟩ := hE im b h
    exact ⟨e1, palette, e3, e4⟩

/-- C15 (instance): with the collaborators `collab_ok`, a monochrome conversion hands the
encoder an image with the two-colour palette and key colour 0. -/
theorem palette_selection_witness :
    (convert_to_sixel sixel_h collab_ok (some "a.png") 256 none 1
      sixel_h.DIFFUSE_AUTO sixel_h.LARGE_AUTO sixel_h.REP_AUTO sixel_h.QUALITY_AUTO
      resampling_h.RES_BILINEAR 0 (-1) (-1) (-1) (-1)).palette =
      some [0x00, 0x00, 0x00, 0xff, 0xff, 0xff] :=
  by
  obtain ⟨s, -, -, h, -⟩ := palette_selection sixel_h collab_ok (some "a.png") 256 none 1
    sixel_h.DIFFUSE_AUTO sixel_h.LARGE_AUTO sixel_h.REP_AUTO sixel_h.QUALITY_AUTO
    resampling_h.RES_BILINEAR 0 (-1) (-1) (-1) (-1) (FILE.file "a.png")
    [255, 0, 0, 255, 0, 0, 255, 0, 0, 255, 0, 0] 2 2 (by decide) rfl (by decide) (by decide)
  exact (h (by decide)).1

/-- C12 (failing input): with a resampler that fails (`LSS_scale` returns `NULL`) on a
request that scales, `convert_to_sixel` does not return -1: it goes on with `pixels`
set to `NULL`, and with collaborators that accept that it calls the encoder and returns
0. -/
theorem scale_failure_not_reported :
    collab_scale_fails.LSS_scale [255, 0, 0, 255, 0, 0, 255, 0, 0, 255, 0, 0] 2 2 3 1 1
      resampling_h.RES_BILINEAR = none ∧
    (convert_to_sixel sixel_h collab_scale_fails (some "a.png") 256 none 1
      sixel_h.DIFFUSE_AUTO sixel_h.LARGE_AUTO sixel_h.REP_AUTO sixel_h.QUALITY_AUTO
      resampling_h.RES_BILINEAR 0 1 (-1) (-1) (-1)).scale_call = some (1, 1) ∧
    (convert_to_sixel sixel_h collab_scale_fails (some "a.png") 256 none 1
      sixel_h.DIFFUSE_AUTO sixel_h.LARGE_AUTO sixel_h.REP_AUTO sixel_h.QUALITY_AUTO
      resampling_h.RES_BILINEAR 0 1 (-1) (-1) (-1)).pixels = none ∧
    (convert_to_sixel sixel_h collab_scale_fails (some "a.png") 256 none 1
      sixel_h.DIFFUSE_AUTO sixel_h.LARGE_AUTO sixel_h.REP_AUTO sixel_h.QUALITY_AUTO
      resampling_h.RES_BILINEAR 0 1 (-1) (-1) (-1)).nret = 0 ∧
    (convert_to_sixel sixel_h collab_scale_fails (some "a.png") 256 none 1
      sixel_h.DIFFUSE_AUTO sixel_h.LARGE_AUTO sixel_h.REP_AUTO sixel_h.QUALITY_AUTO
      resampling_h.RES_BILINEAR 0 1 (-1) (-1) (-1)).encoded ≠ none := by
  decide

/-- Function `convert_to_sixel`, when it returns, returns 0 or -1; it returns 0 exactly when
it has called the encoder, and then the source was opened and decoded and a palette
obtained.  So a failure to open or decode the source, to obtain a palette, to apply it
or to create the image object gives -1 without a call of the encoder.  When it stops
at a trap the encoder has not been called. -/
theorem convert_result (K : SixelHeader) (env : Collaborators)
    (filename : Option String) (reqcolors : Int) (mapfile : Option String) (monochrome : Int)
    (method_for_diffuse method_for_largest method_for_rep quality_mode : Int)
    (method_for_resampling : Int) (f8bit : Int)
    (pixelwidth pixelheight percentwidth percentheight : Int) (r : ConvertVars)
    (hr : r = convert_to_sixel K env filename reqcolors mapfile monochrome method_for_diffuse
      method_for_largest method_for_rep quality_mode method_for_resampling f8bit
      pixelwidth pixelheight percentwidth percentheight) :
    (r.trap = false ∧ r.nret = 0 ∧ r.encoded ≠ none ∧ r.palette ≠ none ∧
      ∃ f px sx sy, open_binary_file env.fopen filename = some f ∧
        env.stbi_load_from_file f = some (px, sx, sy)) ∨
    (r.trap = false ∧ r.nret = -1 ∧ r.encoded = none) ∨
    (r.trap = true ∧ r.encoded = none) := by
  cases hopen : open_binary_file env.fopen filename with
  | none =>
    right
    left
    subst hr
    unfold convert_to_sixel
    rw [hopen]
    exact ⟨rfl, rfl, rfl⟩
  | some f =>
    cases hload : env.stbi_load_from_file f with
    | none =>
      right
      left
      subst hr
      unfold convert_to_sixel
      rw [hopen]
      dsimp only
      rw [hload]
      exact ⟨rfl, rfl, rfl⟩
    | some p =>
      obtain ⟨px, sx, sy⟩ := p
      cases hscale : scaling sx sy pixelwidth pixelheight percentwidth percentheight with
      | none =>
        right
        right
        rw [convert_trapped K env filename reqcolors mapfile monochrome
          method_for_diffuse method_for_largest method_for_rep quality_mode
          method_for_resampling f8bit pixelwidth pixelheight percentwidth percentheight
          f px sx sy hopen hload hscale] at hr
        rw [hr]
        exact ⟨rfl, rfl⟩
      | some s =>
        rw [convert_loaded K env filename reqcolors mapfile monochrome
          method_for_diffuse method_for_largest method_for_rep quality_mode
          method_for_resampling f8bit pixelwidth pixelheight percentwidth percentheight
          f px sx sy s hopen hload hscale] at hr
        have hT : r.trap = false := by
          rw [hr, (convert_stages_trap K env _).2.2.2, (convert_stages_trap K env _).2.2.1,
            (convert_stages_trap K env _).2.1]
        obtain ⟨-, -, -, hS4, -, -, -⟩ := convert_scale_fields env
          { pixels := some (Block.pixels, px), mappixels := none, palette := none,
            data := none, im := none, context := none, ncolors := env.ncolors_indet,
            origcolors := env.origcolors_indet, nret := -1,
            events := [MemEvent.acquire Block.pixels], scale_call := none,
            apply_call := none, encoded := none, trap := false } px sx sy
          s method_for_resampling
        generalize convert_scale env
          { pixels := some (Block.pixels, px), mappixels := none, palette := none,
            data := none, im := none, context := none, ncolors := env.ncolors_indet,
            origcolors := env.origcolors_indet, nret := -1,
            events := [MemEvent.acquire Block.pixels], scale_call := none,
            apply_call := none, encoded := none, trap := false } px sx sy
          s method_for_resampling = vs at hr hS4
        obtain ⟨hF1, -, -, -⟩ := convert_prepare_palette_fields K env vs s.sx s.sy
          (if reqcolors < 2 then 2 else if reqcolors > PALETTE_MAX then PALETTE_MAX
            else reqcolors) mapfile
          monochrome method_for_diffuse method_for_largest method_for_rep quality_mode
        generalize convert_prepare_palette K env vs s.sx s.sy
          (if reqcolors < 2 then 2 else if reqcolors > PALETTE_MAX then PALETTE_MAX
            else reqcolors) mapfile
          monochrome method_for_diffuse method_for_largest method_for_rep quality_mode = vp
          at hr hF1
        obtain ⟨hE, -⟩ := convert_apply_encode_result K env vp.1 s.sx s.sy monochrome vp.2
          f8bit (hF1.trans hS4)
        obtain ⟨hA1, -, -, -⟩ := convert_apply_encode_fields K env vp.1 s.sx s.sy
          monochrome vp.2 f8bit
        rw [← hr] at hE hA1
        rcases hE with ⟨h1, h2, h3⟩ | ⟨h1, h2⟩
        · left
          refine ⟨hT, h1, h2, ?_, f, px, sx, sy, rfl, hload⟩
          rw [hA1]
          exact h3
        · right
          left
          exact ⟨hT, h1, h2⟩

/-- C14 (failing input): a conversion with a map file that decodes.  The map pixels are
acquired in `prepare_specified_palette` and released nowhere: when `convert_to_sixel`
returns (here with success) the block is still allocated. -/
theorem mappixels_never_released :
    (convert_to_sixel sixel_h collab_ok (some "a.png") 256 (some "map.png") 0
      sixel_h.DIFFUSE_AUTO sixel_h.LARGE_AUTO sixel_h.REP_AUTO sixel_h.QUALITY_AUTO
      resampling_h.RES_BILINEAR 0 (-1) (-1) (-1) (-1)).nret = 0 ∧
    (convert_to_sixel sixel_h collab_ok (some "a.png") 256 (some "map.png") 0
      sixel_h.DIFFUSE_AUTO sixel_h.LARGE_AUTO sixel_h.REP_AUTO sixel_h.QUALITY_AUTO
      resampling_h.RES_BILINEAR 0 (-1) (-1) (-1) (-1)).events.count
        (MemEvent.acquire Block.mappixels) = 1 ∧
    (convert_to_sixel sixel_h collab_ok (some "a.png") 256 (some "map.png") 0
      sixel_h.DIFFUSE_AUTO sixel_h.LARGE_AUTO sixel_h.REP_AUTO sixel_h.QUALITY_AUTO
      resampling_h.RES_BILINEAR 0 (-1) (-1) (-1) (-1)).events.count
        (MemEvent.release Block.mappixels) = 0 := by
  decide

/-- C17 (counterexample): the request `-w 0` on a 2x2 source.  The target width is zero,
yet `convert_to_sixel` returns 0: it does not call the resampler and hands the encoder
the image at its original size 2x2. -/
theorem zero_width_not_rejected :
    scaling 2 2 0 (-1) (-1) (-1) =
      some { pixelwidth := 0, pixelheight := -1, scaled := false, sx := 2, sy := 2 } ∧
    (convert_to_sixel sixel_h collab_ok (some "a.png") 256 none 0
      sixel_h.DIFFUSE_AUTO sixel_h.LARGE_AUTO sixel_h.REP_AUTO sixel_h.QUALITY_AUTO
      resampling_h.RES_BILINEAR 0 0 (-1) (-1) (-1)).nret = 0 ∧
    (convert_to_sixel sixel_h collab_ok (some "a.png") 256 none 0
      sixel_h.DIFFUSE_AUTO sixel_h.LARGE_AUTO sixel_h.REP_AUTO sixel_h.QUALITY_AUTO
      resampling_h.RES_BILINEAR 0 0 (-1) (-1) (-1)).scale_call = none ∧
    ∃ im b,
      (convert_to_sixel sixel_h collab_ok (some "a.png") 256 none 0
        sixel_h.DIFFUSE_AUTO sixel_h.LARGE_AUTO sixel_h.REP_AUTO sixel_h.QUALITY_AUTO
        resampling_h.RES_BILINEAR 0 0 (-1) (-1) (-1)).encoded = some (im, b) ∧
      im.sx = 2 ∧ im.sy = 2 :=
  ⟨by decide, by decide, by decide, _, _, rfl, rfl, rfl⟩

/-- C17 (as amended): a request whose computed target width or height is not positive is
not scaled.  For a source that opens and decodes and a request for which the scaling
lines compute (without dividing by zero) a width or height that is not positive,
`convert_to_sixel` does not call the resampler and behaves exactly as for a request
without width and height: the conversion goes on with the image at its original size
and no scaling failure is reported. -/
theorem nonpositive_target_not_scaled (K : SixelHeader) (env : Collaborators)
    (filename : Option String) (reqcolors : Int) (mapfile : Option String) (monochrome : Int)
    (method_for_diffuse method_for_largest method_for_rep quality_mode : Int)
    (method_for_resampling : Int) (f8bit : Int)
    (pixelwidth pixelheight percentwidth percentheight : Int)
    (f : FILE) (px : List Nat) (sx sy : Int) (s : ScaleStep)
    (hopen : open_binary_file env.fopen filename = some f)
    (hload : env.stbi_load_from_file f = some (px, sx, sy))
    (hscale : scaling sx sy pixelwidth pixelheight percentwidth percentheight = some s)
    (hz : s.pixelwidth ≤ 0 ∨ s.pixelheight ≤ 0) :
    (convert_to_sixel K env filename reqcolors mapfile monochrome method_for_diffuse
      method_for_largest method_for_rep quality_mode method_for_resampling f8bit
      pixelwidth pixelheight percentwidth percentheight).trap = false ∧
    (convert_to_sixel K env filename reqcolors mapfile monochrome method_for_diffuse
      method_for_largest method_for_rep quality_mode method_for_resampling f8bit
      pixelwidth pixelheight percentwidth percentheight).scale_call = none ∧
    convert_to_sixel K env filename reqcolors mapfile monochrome method_for_diffuse
      method_for_largest method_for_rep quality_mode method_for_resampling f8bit
      pixelwidth pixelheight percentwidth percentheight =
    convert_to_sixel K env filename reqcolors mapfile monochrome method_for_diffuse
      method_for_largest method_for_rep quality_mode method_for_resampling f8bit
      (-1) (-1) (-1) (-1) ∧
    ∀ im b,
      (convert_to_sixel K env filename reqcolors mapfile monochrome method_for_diffuse
        method_for_largest method_for_rep quality_mode method_for_resampling f8bit
        pixelwidth pixelheight percentwidth percentheight).encoded = some (im, b) →
      im.sx = sx ∧ im.sy = sy := by
  obtain ⟨k1, -, k3⟩ := scaling_some sx sy pixelwidth pixelheight percentwidth percentheight
    s hscale
  have h1 : s.scaled = false := by
    cases hb : s.scaled with
    | false => rfl
    | true =>
      obtain ⟨p1, p2⟩ := k1.mp hb
      rcases hz with h | h <;> omega
  obtain ⟨h2, h3⟩ := k3 h1
  rw [convert_loaded K env filename reqcolors mapfile monochrome
      method_for_diffuse method_for_largest method_for_rep quality_mode method_for_resampling
      f8bit pixelwidth pixelheight percentwidth percentheight f px sx sy s hopen hload hscale,
    convert_loaded K env filename reqcolors mapfile monochrome
      method_for_diffuse method_for_largest method_for_rep quality_mode method_for_resampling
      f8bit (-1) (-1) (-1) (-1) f px sx sy _ hopen hload (scaling_no_request sx sy),
    h2, h3]
  have hsc : ∀ s : ScaleStep, s.scaled = false →
      convert_scale env
        { pixels := some (Block.pixels, px), mappixels := none, palette := none,
          data := none, im := none, context := none, ncolors := env.ncolors_indet,
          origcolors := env.origcolors_indet, nret := -1,
          events := [MemEvent.acquire Block.pixels], scale_call := none,
          apply_call := none, encoded := none, trap := false } px sx sy s method_for_resampling =
        { pixels := some (Block.pixels, px), mappixels := none, palette := none,
          data := none, im := none, context := none, ncolors := env.ncolors_indet,
          origcolors := env.origcolors_indet, nret := -1,
          events := [MemEvent.acquire Block.pixels], scale_call := none,
          apply_call := none, encoded := none, trap := false } := by
    intro s hs
    unfold convert_scale
    rw [if_neg (by rw [hs]; decide)]
  rw [hsc _ h1, hsc _ rfl]
  obtain ⟨-, -, hA3, -⟩ := convert_apply_encode_fields K env
    (convert_prepare_palette K env
      { pixels := some (Block.pixels, px), mappixels := none, palette := none,
        data := none, im := none, context := none, ncolors := env.ncolors_indet,
        origcolors := env.origcolors_indet, nret := -1,
        events := [MemEvent.acquire Block.pixels], scale_call := none,
        apply_call := none, encoded := none, trap := false } sx sy
      (if reqcolors < 2 then 2 else if reqcolors > PALETTE_MAX then PALETTE_MAX
        else reqcolors) mapfile monochrome method_for_diffuse method_for_largest
      method_for_rep quality_mode).1 sx sy monochrome
    (convert_prepare_palette K env
      { pixels := some (Block.pixels, px), mappixels := none, palette := none,
        data := none, im := none, context := none, ncolors := env.ncolors_indet,
        origcolors := env.origcolors_indet, nret := -1,
        events := [MemEvent.acquire Block.pixels], scale_call := none,
        apply_call := none, encoded := none, trap := false } sx sy
      (if reqcolors < 2 then 2 else if reqcolors > PALETTE_MAX then PALETTE_MAX
        else reqcolors) mapfile monochrome method_for_diffuse method_for_largest
      method_for_rep quality_mode).2 f8bit
  obtain ⟨hF1, hF2, -, -⟩ := convert_prepare_palette_fields K env
    { pixels := some (Block.pixels, px), mappixels := none, palette := none,
      data := none, im := none, context := none, ncolors := env.ncolors_indet,
      origcolors := env.origcolors_indet, nret := -1,
      events := [MemEvent.acquire Block.pixels], scale_call := none,
      apply_call := none, encoded := none, trap := false } sx sy
    (if reqcolors < 2 then 2 else if reqcolors > PALETTE_MAX then PALETTE_MAX
      else reqcolors) mapfile monochrome method_for_diffuse method_for_largest
    method_for_rep quality_mode
  refine ⟨?_, hA3.trans hF2, rfl, fun im b h => ?_⟩
  · rw [(convert_stages_trap K env _).2.2.2, (convert_stages_trap K env _).2.2.1]
  · obtain ⟨-, e1, e2, -⟩ := (convert_apply_encode_result K env _ sx sy monochrome _ f8bit
      hF1).2 im b h
    exact ⟨e1, e2⟩

/-- C17 (instance): a width request of 10% on the 2x2 source of `collab_ok` truncates to the
target width 0; the image is converted as if no width had been given, and the run
returns 0. -/
theorem nonpositive_target_not_scaled_witness :
    scaling 2 2 (-1) (-1) 10 (-1) =
      some { pixelwidth := 0, pixelheight := -1, scaled := false, sx := 2, sy := 2 } ∧
    (convert_to_sixel sixel_h collab_ok (some "a.png") 256 none 0
      sixel_h.DIFFUSE_AUTO sixel_h.LARGE_AUTO sixel_h.REP_AUTO sixel_h.QUALITY_AUTO
      resampling_h.RES_BILINEAR 0 (-1) (-1) 10 (-1)).scale_call = none ∧
    convert_to_sixel sixel_h collab_ok (some "a.png") 256 none 0
      sixel_h.DIFFUSE_AUTO sixel_h.LARGE_AUTO sixel_h.REP_AUTO sixel_h.QUALITY_AUTO
      resampling_h.RES_BILINEAR 0 (-1) (-1) 10 (-1) =
    convert_to_sixel sixel_h collab_ok (some "a.png") 256 none 0
      sixel_h.DIFFUSE_AUTO sixel_h.LARGE_AUTO sixel_h.REP_AUTO sixel_h.QUALITY_AUTO
      resampling_h.RES_BILINEAR 0 (-1) (-1) (-1) (-1) ∧
    (convert_to_sixel sixel_h collab_ok (some "a.png") 256 none 0
      sixel_h.DIFFUSE_AUTO sixel_h.LARGE_AUTO sixel_h.REP_AUTO sixel_h.QUALITY_AUTO
      resampling_h.RES_BILINEAR 0 (-1) (-1) 10 (-1)).nret = 0 := by
  have h := nonpositive_target_not_scaled sixel_h collab_ok (some "a.png") 256 none 0
    sixel_h.DIFFUSE_AUTO sixel_h.LARGE_AUTO sixel_h.REP_AUTO sixel_h.QUALITY_AUTO
    resampling_h.RES_BILINEAR 0 (-1) (-1) 10 (-1) (FILE.file "a.png")
    [255, 0, 0, 255, 0, 0, 255, 0, 0, 255, 0, 0] 2 2
    { pixelwidth := 0, pixelheight := -1, scaled := false, sx := 2, sy := 2 }
    (by decide) rfl (by decide) (Or.inl (by decide))
  exact ⟨by decide, h.2.1, h.2.2.1, by decide⟩

/-- The code after `end:` releases the map pixels only through the local `mappixels`, and
acquires nothing. -/
theorem convert_end_mappixels (v : ConvertVars) (hv : v.mappixels = none)
    (hp : ∀ b l, v.pixels = some (b, l) → b = Block.pixels ∨ b = Block.scaled_pixels) :
    (convert_end v).events.count (MemEvent.release Block.mappixels) =
      v.events.count (MemEvent.release Block.mappixels) ∧
    (convert_end v).events.count (MemEvent.acquire Block.mappixels) =
      v.events.count (MemEvent.acquire Block.mappixels) := by
  unfold convert_end
  dsimp only
  rw [hv]
  cases hpx : v.pixels with
  | none =>
    constructor <;>
      simp only [Option.isSome_none, Bool.false_eq_true, if_false, List.count_append] <;>
      split_ifs <;> simp
  | some q =>
    obtain ⟨b, l⟩ := q
    rcases hp b l hpx with rfl | rfl <;>
      constructor <;>
      simp only [Option.isSome_none, Bool.false_eq_true, if_false, List.count_append] <;>
      split_ifs <;> simp

/-- Function `prepare_specified_palette` releases nothing. -/
theorem prepare_specified_palette_no_release (K : SixelHeader) (env : Collaborators)
    (m : String) (reqcolors ncolors : Int) :
    (prepare_specified_palette K env m reqcolors ncolors).events.count
      (MemEvent.release Block.mappixels) = 0 := by
  unfold prepare_specified_palette
  split
  · rfl
  · split
    · rfl
    · dsimp only
      split_ifs <;> decide

/-- The last stage of `convert_to_sixel` does not release the map pixels. -/
theorem convert_apply_encode_mappixels (K : SixelHeader) (env : Collaborators)
    (v : ConvertVars) (sx sy monochrome method_for_diffuse f8bit : Int)
    (hv : v.mappixels = none)
    (hp : ∀ b l, v.pixels = some (b, l) → b = Block.pixels ∨ b = Block.scaled_pixels) :
    (convert_apply_encode K env v sx sy monochrome method_for_diffuse f8bit).events.count
        (MemEvent.release Block.mappixels) =
      v.events.count (MemEvent.release Block.mappixels) := by
  unfold convert_apply_encode
  split
  · exact (convert_end_mappixels { v with nret := -1 } hv hp).1
  · dsimp only
    split
    · refine (convert_end_mappixels _ ?_ ?_).1.trans ?_
      · exact hv
      · exact hp
      · dsimp only
        rw [List.count_append]
        split_ifs <;> simp
    · split
      · refine (convert_end_mappixels _ ?_ ?_).1.trans ?_
        · exact hv
        · exact hp
        · dsimp only
          rw [List.count_append]
          split_ifs <;> simp
      · refine (convert_end_mappixels _ ?_ ?_).1.trans ?_
        · exact hv
        · exact hp
        · dsimp only
          rw [List.count_append, List.count_append]
          split_ifs <;> simp

/-- Function `convert_to_sixel` releases the map pixels on no path. -/
theorem convert_never_releases_mappixels (K : SixelHeader) (env : Collaborators)
    (filename : Option String) (reqcolors : Int) (mapfile : Option String) (monochrome : Int)
    (method_for_diffuse method_for_largest method_for_rep quality_mode : Int)
    (method_for_resampling : Int) (f8bit : Int)
    (pixelwidth pixelheight percentwidth percentheight : Int) :
    (convert_to_sixel K env filename reqcolors mapfile monochrome method_for_diffuse
      method_for_largest method_for_rep quality_mode method_for_resampling f8bit
      pixelwidth pixelheight percentwidth percentheight).events.count
        (MemEvent.release Block.mappixels) = 0 := by
  cases hopen : open_binary_file env.fopen filename with
  | none =>
    unfold convert_to_sixel
    rw [hopen]
    rfl
  | some f =>
    cases hload : env.stbi_load_from_file f with
    | none =>
      unfold convert_to_sixel
      rw [hopen]
      dsimp only
      rw [hload]
      rfl
    | some p =>
      obtain ⟨px, sx, sy⟩ := p
      rcases hscale : scaling sx sy pixelwidth pixelheight percentwidth percentheight
        with _ | s
      · rw [convert_trapped K env filename reqcolors mapfile monochrome
          method_for_diffuse method_for_largest method_for_rep quality_mode
          method_for_resampling f8bit pixelwidth pixelheight percentwidth percentheight
          f px sx sy hopen hload hscale]
        rfl
      rw [convert_loaded K env filename reqcolors mapfile monochrome
        method_for_diffuse method_for_largest method_for_rep quality_mode method_for_resampling
        f8bit pixelwidth pixelheight percentwidth percentheight f px sx sy s hopen hload
        hscale]
      have hs : ∀ s : ScaleStep,
          (convert_scale env
            { pixels := some (Block.pixels, px), mappixels := none, palette := none,
              data := none, im := none, context := none, ncolors := env.ncolors_indet,
              origcolors := env.origcolors_indet, nret := -1,
              events := [MemEvent.acquire Block.pixels], scale_call := none,
              apply_call := none, encoded := none, trap := false } px sx sy s method_for_resampling).mappixels =
            none ∧
          (∀ b l, (convert_scale env
            { pixels := some (Block.pixels, px), mappixels := none, palette := none,
              data := none, im := none, context := none, ncolors := env.ncolors_indet,
              origcolors := env.origcolors_indet, nret := -1,
              events := [MemEvent.acquire Block.pixels], scale_call := none,
              apply_call := none, encoded := none, trap := false } px sx sy s method_for_resampling).pixels =
            some (b, l) → b = Block.pixels ∨ b = Block.scaled_pixels) ∧
          (convert_scale env
            { pixels := some (Block.pixels, px), mappixels := none, palette := none,
              data := none, im := none, context := none, ncolors := env.ncolors_indet,
              origcolors := env.origcolors_indet, nret := -1,
              events := [MemEvent.acquire Block.pixels], scale_call := none,
              apply_call := none, encoded := none, trap := false } px sx sy s method_for_resampling).events.count
            (MemEvent.release Block.mappixels) = 0 := by
        intro s
        unfold convert_scale
        split_ifs
        · refine ⟨rfl, ?_, ?_⟩
          · intro b l h
            dsimp only at h
            cases hl : env.LSS_scale px sx sy 3 s.pixelwidth s.pixelheight
              method_for_resampling with
            | none => rw [hl] at h; exact Option.noConfusion h
            | some q =>
              rw [hl] at h
              have h2 := Option.some.inj h
              rw [Prod.mk.injEq] at h2
              exact Or.inr h2.1.symm
          · dsimp only
            simp only [List.count_append]
            split_ifs <;> simp
        · refine ⟨rfl, ?_, by simp⟩
          intro b l h
          have h2 := Option.some.inj h
          rw [Prod.mk.injEq] at h2
          exact Or.inl h2.1.symm
      obtain ⟨hs1, hs2, hs3⟩ := hs s
      generalize convert_scale env
        { pixels := some (Block.pixels, px), mappixels := none, palette := none,
          data := none, im := none, context := none, ncolors := env.ncolors_indet,
          origcolors := env.origcolors_indet, nret := -1,
          events := [MemEvent.acquire Block.pixels], scale_call := none,
          apply_call := none, encoded := none, trap := false } px sx sy
        s
        method_for_resampling = vs at hs1 hs2 hs3 ⊢
      obtain ⟨-, -, hF3, hF4⟩ := convert_prepare_palette_fields K env vs
        s.sx
        s.sy
        (if reqcolors < 2 then 2 else if reqcolors > PALETTE_MAX then PALETTE_MAX
          else reqcolors) mapfile
        monochrome method_for_diffuse method_for_largest method_for_rep quality_mode
      have hpe : (convert_prepare_palette K env vs
          s.sx
          s.sy
          (if reqcolors < 2 then 2 else if reqcolors > PALETTE_MAX then PALETTE_MAX
            else reqcolors) mapfile
          monochrome method_for_diffuse method_for_largest method_for_rep
          quality_mode).1.events.count (MemEvent.release Block.mappixels) = 0 := by
        unfold convert_prepare_palette
        by_cases hm : monochrome ≠ 0
        · rw [if_pos hm]
          dsimp only
          rw [List.count_append, hs3]
          decide
        · rw [if_neg hm]
          cases mapfile with
          | some m =>
            dsimp only
            rw [List.count_append, hs3, prepare_specified_palette_no_release]
          | none =>
            dsimp only
            rw [List.count_append, hs3]
            split_ifs <;> decide
      rw [convert_apply_encode_mappixels K env _ _ _ _ _ _ (hF4.trans hs1)
        (fun b l h => hs2 b l (hF3 ▸ h)), hpe]

/-! ## Properties of `main` -/

/-- C11 (failing input): the command line `-p -1 -m map.png a.png`.  A colour count and a
map file are both given, but `atoi` yields -1, the value `main` uses for "no colour
count": no conflict is detected, `convert_to_sixel` is called with the map file, and
`main` exits with success. -/
theorem colors_minus_one_conflict_missed :
    main sixel_h resampling_h libc_sample (convert_call sixel_h collab_ok)
      [⟨chr 'p', 0, some "-1"⟩, ⟨chr 'm', 0, some "map.png"⟩] ["a.png"] () =
    some
      { exit_code := EXIT_SUCCESS
        calls := [(({ MainVars.initial sixel_h resampling_h with
            ncolors := PALETTE_MAX, mapfile := some "map.png" } : MainVars).args
          (some "a.png"), 0)]
        world := () } := by
  rfl

/-- When the option loop leaves at least two of a colour count other than -1, a map file and
the monochrome flag set, `main` exits with failure and calls `convert_to_sixel` never. -/
theorem conflict_rejected {σ : Type} (K : SixelHeader) (S : ResamplingHeader) (libc : Libc)
    (conv : ConvertArgs → σ → Option (Int × σ)) (opts : List GetoptResult) (files : List String)
    (w : σ) (v : MainVars)
    (hparse : main_options K S libc opts (MainVars.initial K S) = OptionsResult.parsed v)
    (hconflict : (v.ncolors ≠ -1 ∧ v.mapfile ≠ none) ∨ (v.mapfile ≠ none ∧ v.monochrome ≠ 0) ∨
      (v.monochrome ≠ 0 ∧ v.ncolors ≠ -1)) :
    main K S libc conv opts files w =
      some { exit_code := EXIT_FAILURE, calls := [], world := w } := by
  have hm : v.mapfile ≠ none ↔ v.mapfile.isSome = true := by
    cases v.mapfile <;> simp
  rw [hm] at hconflict
  unfold main
  rw [hparse]
  dsimp only
  by_cases h1 : v.ncolors ≠ -1 ∧ v.mapfile.isSome = true
  · rw [if_pos h1]
  · rw [if_neg h1]
    by_cases h2 : v.mapfile.isSome = true ∧ v.monochrome ≠ 0
    · rw [if_pos h2]
    · rw [if_neg h2]
      by_cases h3 : v.monochrome ≠ 0 ∧ v.ncolors ≠ -1
      · rw [if_pos h3]
      · exfalso
        rcases hconflict with h | h | h
        · exact h1 h
        · exact h2 h
        · exact h3 h

/-- C18 (failing input): the option `--quality low`, a name the usage text documents, is
rejected: the option loop jumps to `argerr` and `main` exits with failure without a
conversion.  The name the parser takes for `QUALITY_LOW` is `hanning`. -/
theorem quality_low_rejected :
    main_options sixel_h resampling_h libc_sample [⟨0, chr 'q', some "low"⟩]
      (MainVars.initial sixel_h resampling_h) = OptionsResult.argerr ∧
    main sixel_h resampling_h libc_sample (convert_call sixel_h collab_ok)
      [⟨0, chr 'q', some "low"⟩] ["a.png"] () =
      some { exit_code := EXIT_FAILURE, calls := [], world := () } ∧
    main_options sixel_h resampling_h libc_sample [⟨0, chr 'q', some "hanning"⟩]
      (MainVars.initial sixel_h resampling_h) =
      OptionsResult.parsed
        { MainVars.initial sixel_h resampling_h with quality_mode := sixel_h.QUALITY_LOW } :=
  ⟨rfl, rfl, rfl⟩

/-- The names the `--quality` option takes: `auto`, `high` and `hanning`; every other name
makes the option loop jump to `argerr`. -/
theorem quality_option_names (K : SixelHeader) (S : ResamplingHeader) (libc : Libc)
    (v : MainVars) (name : String) :
    main_option K S libc v ⟨0, chr 'q', some name⟩ =
      if name = "auto" then OptionsResult.parsed { v with quality_mode := K.QUALITY_AUTO }
      else if name = "high" then OptionsResult.parsed { v with quality_mode := K.QUALITY_HIGH }
      else if name = "hanning" then
        OptionsResult.parsed { v with quality_mode := K.QUALITY_LOW }
      else OptionsResult.argerr := by
  rfl

/-- The conversion loop of `main`, from any point of the batch, for a `convert_to_sixel`
that returns from every call: the loop returns; the calls it adds are made for the next
file arguments in order, each with the file name and the option values of `v` and on
the world the call before left; only the last of them can have failed, and the exit
status reports whether one failed. -/
theorem main_convert_files_calls {σ : Type} (conv : ConvertArgs → σ → Int × σ) (v : MainVars)
    (files : List String) :
    ∀ (calls : List (ConvertArgs × Int)) (w : σ),
    ∃ (r : MainResult σ) (added : List (ConvertArgs × Int)),
      main_convert_files (fun a w => some (conv a w)) v files calls w = some r ∧
      r.calls = calls ++ added ∧
      r.world = added.foldl (fun w c => (conv c.1 w).2) w ∧
      (∀ pre c post, added = pre ++ c :: post →
        c.2 = (conv c.1 (pre.foldl (fun w c => (conv c.1 w).2) w)).1) ∧
      added.map (fun c => c.1.filename) = (files.take added.length).map some ∧
      (∀ c ∈ added, c.1 = v.args c.1.filename) ∧
      (∀ c ∈ added.dropLast, c.2 = 0) ∧
      (r.exit_code = EXIT_FAILURE ↔ ∃ c ∈ added, c.2 ≠ 0) ∧
      (r.exit_code = EXIT_SUCCESS ↔ added.length = files.length ∧ ∀ c ∈ added, c.2 = 0) ∧
      (files ≠ [] → 1 ≤ added.length) := by
  induction files with
  | nil =>
    intro calls w
    refine ⟨_, [], rfl, ?_⟩
    simp [EXIT_SUCCESS, EXIT_FAILURE]
  | cons file files ih =>
    intro calls w
    unfold main_convert_files
    dsimp only
    by_cases hret : (conv (v.args (some file)) w).1 ≠ 0
    · rw [if_pos hret]
      refine ⟨_, [(v.args (some file), (conv (v.args (some file)) w).1)], rfl, rfl, rfl, ?_,
        rfl, ?_, ?_, ?_, ?_, ?_⟩
      · intro pre c post h
        cases pre with
        | nil =>
          simp only [List.nil_append, List.cons.injEq] at h
          rw [← h.1]
          rfl
        | cons p pre =>
          simp at h
      · intro c hc
        rw [List.mem_singleton.mp hc]
        rfl
      · simp
      · simp [EXIT_FAILURE, hret]
      · simp only [EXIT_FAILURE, EXIT_SUCCESS, List.mem_singleton, forall_eq]
        constructor
        · intro h
          exact absurd h (by decide)
        · intro h
          exact absurd h.2 hret
      · intro _
        simp
    · rw [if_neg hret]
      have hz : (conv (v.args (some file)) w).1 = 0 := not_not.mp hret
      obtain ⟨r, added, e0, e1, e2, e3, e4, e4b, e5, e6, e7, -⟩ :=
        ih (calls ++ [(v.args (some file), (conv (v.args (some file)) w).1)])
          (conv (v.args (some file)) w).2
      refine ⟨r, (v.args (some file), (conv (v.args (some file)) w).1) :: added, e0, ?_, ?_,
        ?_, ?_, ?_, ?_, ?_, ?_, ?_⟩
      · rw [e1]
        simp
      · rw [e2]
        rfl
      · intro pre c post h
        cases pre with
        | nil =>
          simp only [List.nil_append, List.cons.injEq] at h
          rw [← h.1]
          rfl
        | cons p pre =>
          simp only [List.cons_append, List.cons.injEq] at h
          rw [← h.1]
          exact e3 pre c post h.2
      · simp only [List.map_cons, List.length_cons, List.take_succ_cons]
        rw [e4]
        rfl
      · intro c hc
        rcases List.mem_cons.mp hc with h | h
        · rw [h]
          rfl
        · exact e4b c h
      · intro c hc
        cases added with
        | nil => simp at hc
        | cons a added =>
          rw [List.dropLast_cons₂] at hc
          rcases List.mem_cons.mp hc with h | h
          · rw [h]
            exact hz
          · exact e5 c h
      · rw [e6]
        simp [hz]
      · rw [e7]
        simp [hz]
      · intro _
        simp

/-- C13: the first image failure aborts a batch.  When the options parse without a
conflict and `convert_to_sixel` returns from every call, `main` returns, and its calls of
`convert_to_sixel` are made for the file arguments in command-line order (for standard
input alone, file name `NULL`, when there is none): the i-th call carries the i-th file
name and the parsed option values, and runs on the world the call before left.  Every
call before the last returned 0, so no file after the first failing one is converted;
the exit status is failure exactly when a call failed, and success exactly when every
source was converted and no call failed. -/
theorem batch_aborts_on_first_failure {σ : Type} (K : SixelHeader) (S : ResamplingHeader)
    (libc : Libc) (conv : ConvertArgs → σ → Int × σ) (opts : List GetoptResult)
    (files : List String) (w : σ) (v : MainVars)
    (hparse : main_options K S libc opts (MainVars.initial K S) = OptionsResult.parsed v)
    (h1 : ¬ (v.ncolors ≠ -1 ∧ v.mapfile ≠ none))
    (h2 : ¬ (v.mapfile ≠ none ∧ v.monochrome ≠ 0))
    (h3 : ¬ (v.monochrome ≠ 0 ∧ v.ncolors ≠ -1)) :
    let sources : List (Option String) := if files = [] then [none] else files.map some
    ∃ r : MainResult σ,
      main K S libc (fun a w => some (conv a w)) opts files w = some r ∧
      1 ≤ r.calls.length ∧
      r.calls.map (fun c => c.1.filename) = sources.take r.calls.length ∧
      (∀ c ∈ r.calls,
        c.1.reqcolors = (if v.ncolors = -1 then PALETTE_MAX else v.ncolors) ∧
        c.1.mapfile = v.mapfile ∧ c.1.monochrome = v.monochrome ∧
        c.1.method_for_diffuse = v.method_for_diffuse ∧
        c.1.method_for_largest = v.method_for_largest ∧
        c.1.method_for_rep = v.method_for_rep ∧ c.1.quality_mode = v.quality_mode ∧
        c.1.method_for_resampling = v.method_for_resampling ∧ c.1.f8bit = v.f8bit ∧
        c.1.pixelwidth = v.pixelwidth ∧ c.1.pixelheight = v.pixelheight ∧
        c.1.percentwidth = v.percentwidth ∧ c.1.percentheight = v.percentheight) ∧
      (∀ pre c post, r.calls = pre ++ c :: post →
        c.2 = (conv c.1 (pre.foldl (fun w c => (conv c.1 w).2) w)).1) ∧
      r.world = r.calls.foldl (fun w c => (conv c.1 w).2) w ∧
      (∀ c ∈ r.calls.dropLast, c.2 = 0) ∧
      (r.exit_code = EXIT_FAILURE ↔ ∃ c ∈ r.calls, c.2 ≠ 0) ∧
      (r.exit_code = EXIT_SUCCESS ↔
        r.calls.length = sources.length ∧ ∀ c ∈ r.calls, c.2 = 0) := by
  intro sources
  have hm : v.mapfile ≠ none ↔ v.mapfile.isSome = true := by
    cases v.mapfile <;> simp
  rw [hm] at h1 h2
  have hargs : ∀ c : ConvertArgs × Int,
      c.1 = (if v.ncolors = -1 then { v with ncolors := PALETTE_MAX } else v).args
        c.1.filename →
      c.1.reqcolors = (if v.ncolors = -1 then PALETTE_MAX else v.ncolors) ∧
      c.1.mapfile = v.mapfile ∧ c.1.monochrome = v.monochrome ∧
      c.1.method_for_diffuse = v.method_for_diffuse ∧
      c.1.method_for_largest = v.method_for_largest ∧
      c.1.method_for_rep = v.method_for_rep ∧ c.1.quality_mode = v.quality_mode ∧
      c.1.method_for_resampling = v.method_for_resampling ∧ c.1.f8bit = v.f8bit ∧
      c.1.pixelwidth = v.pixelwidth ∧ c.1.pixelheight = v.pixelheight ∧
      c.1.percentwidth = v.percentwidth ∧ c.1.percentheight = v.percentheight := by
    intro c hc
    rw [hc]
    by_cases hn : v.ncolors = -1
    · rw [if_pos hn, if_pos hn]
      exact ⟨rfl, rfl, rfl, rfl, rfl, rfl, rfl, rfl, rfl, rfl, rfl, rfl, rfl⟩
    · rw [if_neg hn, if_neg hn]
      exact ⟨rfl, rfl, rfl, rfl, rfl, rfl, rfl, rfl, rfl, rfl, rfl, rfl, rfl⟩
  unfold main
  rw [hparse]
  dsimp only
  rw [if_neg h1, if_neg h2, if_neg h3]
  cases files with
  | nil =>
    dsimp only
    have hone : ∀ (x : ConvertArgs × Int) (pre : List (ConvertArgs × Int))
        (c : ConvertArgs × Int) (post : List (ConvertArgs × Int)),
        [x] = pre ++ c :: post → pre = [] ∧ c = x := by
      intro x pre c post h
      cases pre with
      | nil =>
        simp only [List.nil_append, List.cons.injEq] at h
        exact ⟨rfl, h.1.symm⟩
      | cons p pre =>
        simp at h
    by_cases hret : (conv ((if v.ncolors = -1 then { v with ncolors := PALETTE_MAX }
        else v).args none) w).1 ≠ 0
    · rw [if_pos hret]
      refine ⟨_, rfl, ?_, ?_, ?_, ?_, rfl, ?_, ?_, ?_⟩
      · simp
      · simp [sources]
        rfl
      · intro c hc
        rw [List.mem_singleton.mp hc]
        exact hargs _ rfl
      · intro pre c post h
        obtain ⟨rfl, rfl⟩ := hone _ pre c post h
        rfl
      · simp
      · simp [EXIT_FAILURE, hret]
      · simp only [EXIT_FAILURE, EXIT_SUCCESS, List.mem_singleton, forall_eq]
        constructor
        · intro h
          exact absurd h (by decide)
        · intro h
          exact absurd h.2 hret
    · rw [if_neg hret]
      have hz := not_not.mp hret
      refine ⟨_, rfl, ?_, ?_, ?_, ?_, rfl, ?_, ?_, ?_⟩
      · simp
      · simp [sources]
        rfl
      · intro c hc
        rw [List.mem_singleton.mp hc]
        exact hargs _ rfl
      · intro pre c post h
        obtain ⟨rfl, rfl⟩ := hone _ pre c post h
        rfl
      · simp
      · simp [EXIT_SUCCESS, EXIT_FAILURE, hz]
      · simp [sources, hz]
  | cons file files =>
    dsimp only
    obtain ⟨r, added, e0, e1, e2, e3, e4, e4b, e5, e6, e7, e8⟩ :=
      main_convert_files_calls conv
        (if v.ncolors = -1 then { v with ncolors := PALETTE_MAX } else v) (file :: files) [] w
    rw [List.nil_append] at e1
    have hlen : 1 ≤ added.length := e8 (List.cons_ne_nil file files)
    refine ⟨r, e0, ?_, ?_, ?_, ?_, ?_, ?_, ?_, ?_⟩
    · rw [e1]
      exact hlen
    · rw [e1, e4]
      simp only [sources, if_neg (List.cons_ne_nil file files), List.map_take]
    · rw [e1]
      intro c hc
      exact hargs c (e4b c hc)
    · rw [e1]
      exact e3
    · rw [e1]
      exact e2
    · rw [e1]
      exact e5
    · rw [e1]
      exact e6
    · rw [e1, e7]
      simp [sources]

/-- C13 (instance): the batch `a.png b.png c.png` with a conversion that fails on `b.png`
and logs the file names it is called with.  The run makes two calls, for `a.png`
(returning 0) and for `b.png` (returning -1), none for `c.png`, and exits with
failure. -/
theorem batch_aborts_on_first_failure_witness :
    ∃ r : MainResult (List (Option String)),
      main sixel_h resampling_h libc_sample
        (fun a w => some ((if a.filename = some "b.png" then -1 else 0 : Int),
          w ++ [a.filename])) []
        ["a.png", "b.png", "c.png"] [] = some r ∧
      r.calls.map (fun c => c.1.filename) =
        [some "a.png", some "b.png", some "c.png"].take r.calls.length ∧
      (∀ c ∈ r.calls.dropLast, c.2 = 0) ∧
      (r.exit_code = EXIT_FAILURE ↔ ∃ c ∈ r.calls, c.2 ≠ 0) ∧
      r.calls.map (fun c => (c.1.filename, c.2)) = [(some "a.png", 0), (some "b.png", -1)] ∧
      r.world = [some "a.png", some "b.png"] ∧
      r.exit_code = EXIT_FAILURE := by
  obtain ⟨r, hr, -, h2, -, -, -, h6, h7, -⟩ :=
    batch_aborts_on_first_failure sixel_h resampling_h libc_sample
      (fun a (w : List (Option String)) =>
        ((if a.filename = some "b.png" then -1 else 0 : Int), w ++ [a.filename])) []
      ["a.png", "b.png", "c.png"] [] (MainVars.initial sixel_h resampling_h) rfl
      (by decide) (by decide) (by decide)
  refine ⟨r, hr, h2, h6, h7, ?_⟩
  have he : main sixel_h resampling_h libc_sample
      (fun a w => some ((if a.filename = some "b.png" then -1 else 0 : Int),
        w ++ [a.filename])) []
      ["a.png", "b.png", "c.png"] [] =
      some { exit_code := EXIT_FAILURE
             calls := [(({ MainVars.initial sixel_h resampling_h with
                 ncolors := PALETTE_MAX } : MainVars).args (some "a.png"), 0),
               (({ MainVars.initial sixel_h resampling_h with
                 ncolors := PALETTE_MAX } : MainVars).args (some "b.png"), -1)]
             world := [some "a.png", some "b.png"] } := rfl
  rw [he] at hr
  have hr2 := Option.some.inj hr
  rw [← hr2]
  exact ⟨rfl, rfl, rfl⟩

/-- The batch `a.png b.png c.png` with `b.png` missing: `a.png` is converted, the call for
`b.png` returns -1, no call is made for `c.png`, and `main` exits with failure. -/
theorem batch_stops_at_missing_file :
    main sixel_h resampling_h libc_sample (convert_call sixel_h collab_b_missing) []
      ["a.png", "b.png", "c.png"] () =
    some
      { exit_code := EXIT_FAILURE
        calls :=
          [(({ MainVars.initial sixel_h resampling_h with ncolors := PALETTE_MAX } :
              MainVars).args (some "a.png"), 0),
           (({ MainVars.initial sixel_h resampling_h with ncolors := PALETTE_MAX } :
              MainVars).args (some "b.png"), -1)]
        world := () } := by
  rfl

/-! ## Properties of the diffusion method passed to the engine -/

/-- The palette block of `convert_to_sixel` changes `method_for_diffuse` only on the
quantization path, to `DIFFUSE_NONE`, when the builder reports `origcolors <= ncolors`;
on that path the variables `ncolors` and `origcolors` hold what the builder reported. -/
theorem convert_prepare_palette_method (K : SixelHeader) (env : Collaborators)
    (v : ConvertVars) (sx sy reqcolors : Int) (mapfile : Option String)
    (monochrome method_for_diffuse method_for_largest method_for_rep quality_mode : Int) :
    (convert_prepare_palette K env v sx sy reqcolors mapfile monochrome method_for_diffuse
      method_for_largest method_for_rep quality_mode).2 =
      (if monochrome = 0 ∧ mapfile = none ∧
          (convert_prepare_palette K env v sx sy reqcolors mapfile monochrome
            method_for_diffuse method_for_largest method_for_rep quality_mode).1.origcolors ≤
          (convert_prepare_palette K env v sx sy reqcolors mapfile monochrome
            method_for_diffuse method_for_largest method_for_rep quality_mode).1.ncolors
        then K.DIFFUSE_NONE else method_for_diffuse) := by
  unfold convert_prepare_palette
  by_cases hm : monochrome ≠ 0
  · rw [if_pos hm, if_neg (fun h => hm h.1)]
  · rw [if_neg hm]
    have hm0 : monochrome = 0 := not_not.mp hm
    cases mapfile with
    | some m =>
      dsimp only
      rw [if_neg (fun h => Option.noConfusion h.2.1)]
    | none =>
      dsimp only
      simp only [hm0, true_and]

/-- The last stage of `convert_to_sixel` calls the engine exactly when there is a palette,
with the colour count `ncolors` and with `DIFFUSE_FS` in place of `DIFFUSE_AUTO`; it
leaves `origcolors` as it was. -/
theorem convert_apply_encode_call (K : SixelHeader) (env : Collaborators) (v : ConvertVars)
    (sx sy monochrome method_for_diffuse f8bit : Int) :
    (convert_apply_encode K env v sx sy monochrome method_for_diffuse f8bit).apply_call =
      (if v.palette.isSome then
        some (v.ncolors,
          if method_for_diffuse = K.DIFFUSE_AUTO then K.DIFFUSE_FS else method_for_diffuse)
      else v.apply_call) ∧
    (convert_apply_encode K env v sx sy monochrome method_for_diffuse f8bit).origcolors =
      v.origcolors := by
  unfold convert_apply_encode
  split
  · rename_i hp
    rw [hp]
    exact ⟨rfl, rfl⟩
  · rename_i palette hp
    rw [hp]
    dsimp only
    split
    · exact ⟨rfl, rfl⟩
    · split <;> exact ⟨rfl, rfl⟩

/-- The diffusion method `convert_to_sixel` passes to `LSQ_ApplyPalette`, for a source that
opens and decodes and a palette that is obtained: the engine is called with the colour
count `ncolors`; a request `DIFFUSE_AUTO` that is not forced to `DIFFUSE_NONE` is passed as
`DIFFUSE_FS` whatever the colour count; on the quantization path with
`origcolors <= ncolors` the method passed is `DIFFUSE_NONE`; and the method passed for
`DIFFUSE_AUTO` is the one `sixel_dither_set_diffusion_type` stores for a context with that
colour count exactly when the count is above 16. -/
theorem convert_diffusion_passed (K : SixelHeader) (env : Collaborators)
    (filename : Option String) (reqcolors : Int) (mapfile : Option String) (monochrome : Int)
    (method_for_diffuse method_for_largest method_for_rep quality_mode : Int)
    (method_for_resampling : Int) (f8bit : Int)
    (pixelwidth pixelheight percentwidth percentheight : Int)
    (f : FILE) (px : List Nat) (sx sy : Int)
    (hopen : open_binary_file env.fopen filename = some f)
    (hload : env.stbi_load_from_file f = some (px, sx, sy))
    (hpal : (convert_to_sixel K env filename reqcolors mapfile monochrome method_for_diffuse
      method_for_largest method_for_rep quality_mode method_for_resampling f8bit
      pixelwidth pixelheight percentwidth percentheight).palette ≠ none) :
    let r := convert_to_sixel K env filename reqcolors mapfile monochrome method_for_diffuse
      method_for_largest method_for_rep quality_mode method_for_resampling f8bit
      pixelwidth pixelheight percentwidth percentheight
    ∃ m, r.apply_call = some (r.ncolors, m) ∧
      (method_for_diffuse = K.DIFFUSE_AUTO →
        (monochrome ≠ 0 ∨ mapfile ≠ none ∨ r.ncolors < r.origcolors) → m = K.DIFFUSE_FS) ∧
      (monochrome = 0 → mapfile = none → r.origcolors ≤ r.ncolors → m = K.DIFFUSE_NONE) ∧
      (method_for_diffuse = K.DIFFUSE_AUTO →
        (monochrome ≠ 0 ∨ mapfile ≠ none ∨ r.ncolors < r.origcolors) →
        ∀ d : sixel_dither_t, d.ncolors = r.ncolors →
          (m = (sixel_dither_set_diffusion_type K d K.DIFFUSE_AUTO).method_for_diffuse ↔
            r.ncolors > 16)) := by
  intro r
  have hpal2 : r.palette ≠ none := hpal
  rcases hscale : scaling sx sy pixelwidth pixelheight percentwidth percentheight with _ | s
  · exfalso
    apply hpal2
    show (convert_to_sixel K env filename reqcolors mapfile monochrome method_for_diffuse
      method_for_largest method_for_rep quality_mode method_for_resampling f8bit
      pixelwidth pixelheight percentwidth percentheight).palette = none
    rw [convert_trapped K env filename reqcolors mapfile monochrome
      method_for_diffuse method_for_largest method_for_rep quality_mode
      method_for_resampling f8bit pixelwidth pixelheight percentwidth percentheight
      f px sx sy hopen hload hscale]
  have hr : r = _ := convert_loaded K env filename reqcolors mapfile monochrome
    method_for_diffuse method_for_largest method_for_rep quality_mode method_for_resampling
    f8bit pixelwidth pixelheight percentwidth percentheight f px sx sy s hopen hload hscale
  clear_value r
  generalize convert_scale env _ px sx sy _ method_for_resampling = v2 at hr
  have hmeth := convert_prepare_palette_method K env v2
    s.sx
    s.sy
    (if reqcolors < 2 then 2 else if reqcolors > PALETTE_MAX then PALETTE_MAX else reqcolors)
    mapfile monochrome method_for_diffuse method_for_largest method_for_rep quality_mode
  generalize convert_prepare_palette K env v2 _ _ _ mapfile monochrome method_for_diffuse
    method_for_largest method_for_rep quality_mode = vm at hr hmeth
  obtain ⟨hcall, horig⟩ := convert_apply_encode_call K env vm.1
    s.sx
    s.sy
    monochrome vm.2 f8bit
  obtain ⟨hp, hn, -, -⟩ := convert_apply_encode_fields K env vm.1
    s.sx
    s.sy
    monochrome vm.2 f8bit
  rw [← hr] at hcall horig hp hn
  have hsome : vm.1.palette.isSome = true := by
    rw [← hp]
    cases h : r.palette with
    | none => exact absurd h hpal2
    | some p => rfl
  rw [if_pos hsome, ← hn] at hcall
  rw [← hn, ← horig] at hmeth
  have hauto : method_for_diffuse = K.DIFFUSE_AUTO →
      (monochrome ≠ 0 ∨ mapfile ≠ none ∨ r.ncolors < r.origcolors) →
      (if vm.2 = K.DIFFUSE_AUTO then K.DIFFUSE_FS else vm.2) = K.DIFFUSE_FS := by
    intro ha hnf
    have hc : ¬ (monochrome = 0 ∧ mapfile = none ∧ r.origcolors ≤ r.ncolors) := by
      rintro ⟨h1, h2, h3⟩
      rcases hnf with h | h | h
      · exact h h1
      · exact h h2
      · omega
    rw [hmeth, if_neg hc, if_pos ha]
  refine ⟨_, hcall, hauto, ?_, ?_⟩
  · intro h1 h2 h3
    have hc : monochrome = 0 ∧ mapfile = none ∧ r.origcolors ≤ r.ncolors := ⟨h1, h2, h3⟩
    have hna : K.DIFFUSE_NONE ≠ K.DIFFUSE_AUTO := by
      have h := K.diffuse_nodup
      simp only [List.nodup_cons, List.mem_cons, List.mem_singleton, not_or] at h
      exact fun e => h.1.1 e.symm
    rw [hmeth, if_pos hc, if_neg hna]
  · intro ha hnf d hd
    have hfa : K.DIFFUSE_FS ≠ K.DIFFUSE_ATKINSON := by
      have h := K.diffuse_nodup
      simp only [List.nodup_cons, List.mem_cons, List.mem_singleton, not_or] at h
      exact fun e => h.2.2.1.1 e.symm
    rw [hauto ha hnf]
    unfold sixel_dither_set_diffusion_type
    dsimp only
    rw [if_pos rfl, hd]
    by_cases h16 : r.ncolors > 16
    · rw [if_pos h16]
      exact ⟨fun _ => h16, fun _ => rfl⟩
    · rw [if_neg h16]
      exact ⟨fun h => absurd h hfa, fun h => absurd h h16⟩

/-- C21 (failing input): a monochrome conversion with the default diffusion
`DIFFUSE_AUTO` (`img2sixel -e a.png`).  The palette has 2 colours, and `convert_to_sixel`
passes `DIFFUSE_FS` to `LSQ_ApplyPalette`, while `sixel_dither_set_diffusion_type` stores
`DIFFUSE_ATKINSON` for `DIFFUSE_AUTO` on a context with 2 colours.  The same happens on
the quantization path when the builder reports 1 colour out of 2 in the source. -/
theorem auto_diffusion_small_palette_is_fs :
    (convert_to_sixel sixel_h collab_ok (some "a.png") 256 none 1
      sixel_h.DIFFUSE_AUTO sixel_h.LARGE_AUTO sixel_h.REP_AUTO sixel_h.QUALITY_AUTO
      resampling_h.RES_BILINEAR 0 (-1) (-1) (-1) (-1)).apply_call =
      some (2, sixel_h.DIFFUSE_FS) ∧
    (∃ d, sixel_dither_get sixel_h true sixel_h.BUILTIN_MONO_DARK = some d ∧
      d.ncolors = 2 ∧
      (sixel_dither_set_diffusion_type sixel_h d sixel_h.DIFFUSE_AUTO).method_for_diffuse =
        sixel_h.DIFFUSE_ATKINSON) ∧
    sixel_h.DIFFUSE_FS ≠ sixel_h.DIFFUSE_ATKINSON ∧
    (convert_to_sixel sixel_h collab_ok (some "a.png") 256 none 0
      sixel_h.DIFFUSE_AUTO sixel_h.LARGE_AUTO sixel_h.REP_AUTO sixel_h.QUALITY_AUTO
      resampling_h.RES_BILINEAR 0 (-1) (-1) (-1) (-1)).apply_call =
      some (1, sixel_h.DIFFUSE_FS) ∧
    (convert_to_sixel sixel_h collab_ok (some "a.png") 256 none 0
      sixel_h.DIFFUSE_AUTO sixel_h.LARGE_AUTO sixel_h.REP_AUTO sixel_h.QUALITY_AUTO
      resampling_h.RES_BILINEAR 0 (-1) (-1) (-1) (-1)).origcolors = 2 :=
  ⟨by decide, ⟨_, rfl, rfl, rfl⟩, by decide, by decide, by decide⟩

/-- The concrete runs of `convert_to_sixel` evaluated above return: none of them stops at
a trap. -/
theorem concrete_runs_return :
    (convert_to_sixel sixel_h collab_scale_fails (some "a.png") 256 none 1
      sixel_h.DIFFUSE_AUTO sixel_h.LARGE_AUTO sixel_h.REP_AUTO sixel_h.QUALITY_AUTO
      resampling_h.RES_BILINEAR 0 1 (-1) (-1) (-1)).trap = false ∧
    (convert_to_sixel sixel_h collab_ok (some "a.png") 256 (some "map.png") 0
      sixel_h.DIFFUSE_AUTO sixel_h.LARGE_AUTO sixel_h.REP_AUTO sixel_h.QUALITY_AUTO
      resampling_h.RES_BILINEAR 0 (-1) (-1) (-1) (-1)).trap = false ∧
    (convert_to_sixel sixel_h collab_ok (some "a.png") 256 none 1
      sixel_h.DIFFUSE_AUTO sixel_h.LARGE_AUTO sixel_h.REP_AUTO sixel_h.QUALITY_AUTO
      resampling_h.RES_BILINEAR 0 (-1) (-1) (-1) (-1)).trap = false ∧
    (convert_to_sixel sixel_h collab_ok (some "a.png") 256 none 0
      sixel_h.DIFFUSE_AUTO sixel_h.LARGE_AUTO sixel_h.REP_AUTO sixel_h.QUALITY_AUTO
      resampling_h.RES_BILINEAR 0 (-1) (-1) (-1) (-1)).trap = false ∧
    (convert_to_sixel sixel_h collab_ok (some "a.png") 256 none 0
      sixel_h.DIFFUSE_AUTO sixel_h.LARGE_AUTO sixel_h.REP_AUTO sixel_h.QUALITY_AUTO
      resampling_h.RES_BILINEAR 0 0 (-1) (-1) (-1)).trap = false := by
  decide

/-! ## Properties of the target size passed to the resampler -/

/-- The resampler call of `convert_to_sixel`, for a source that opens and decodes and a
scaling step `s` that is defined: the run does not trap, `LSS_scale` is called exactly
when `s` says so, with the target size of `s`, and its result replaces the decoded
pixels; an image handed to the encoder has the size `s` leaves. -/
theorem convert_scale_call (K : SixelHeader) (env : Collaborators)
    (filename : Option String) (reqcolors : Int) (mapfile : Option String) (monochrome : Int)
    (method_for_diffuse method_for_largest method_for_rep quality_mode : Int)
    (method_for_resampling : Int) (f8bit : Int)
    (pixelwidth pixelheight percentwidth percentheight : Int)
    (f : FILE) (px : List Nat) (sx sy : Int) (s : ScaleStep)
    (hopen : open_binary_file env.fopen filename = some f)
    (hload : env.stbi_load_from_file f = some (px, sx, sy))
    (hscale : scaling sx sy pixelwidth pixelheight percentwidth percentheight = some s) :
    (convert_to_sixel K env filename reqcolors mapfile monochrome method_for_diffuse
      method_for_largest method_for_rep quality_mode method_for_resampling f8bit
      pixelwidth pixelheight percentwidth percentheight).trap = false ∧
    (convert_to_sixel K env filename reqcolors mapfile monochrome method_for_diffuse
      method_for_largest method_for_rep quality_mode method_for_resampling f8bit
      pixelwidth pixelheight percentwidth percentheight).scale_call =
      (if s.scaled = true then some (s.pixelwidth, s.pixelheight) else none) ∧
    ((convert_to_sixel K env filename reqcolors mapfile monochrome method_for_diffuse
      method_for_largest method_for_rep quality_mode method_for_resampling f8bit
      pixelwidth pixelheight percentwidth percentheight).pixels.map fun p => p.2) =
      (if s.scaled = true then
        env.LSS_scale px sx sy 3 s.pixelwidth s.pixelheight method_for_resampling
      else some px) ∧
    ∀ im b,
      (convert_to_sixel K env filename reqcolors mapfile monochrome method_for_diffuse
        method_for_largest method_for_rep quality_mode method_for_resampling f8bit
        pixelwidth pixelheight percentwidth percentheight).encoded = some (im, b) →
      im.sx = s.sx ∧ im.sy = s.sy := by
  rw [convert_loaded K env filename reqcolors mapfile monochrome
    method_for_diffuse method_for_largest method_for_rep quality_mode method_for_resampling
    f8bit pixelwidth pixelheight percentwidth percentheight f px sx sy s hopen hload hscale]
  obtain ⟨-, -, -, hS4, -, hS6, hS7⟩ := convert_scale_fields env
    { pixels := some (Block.pixels, px), mappixels := none, palette := none,
      data := none, im := none, context := none, ncolors := env.ncolors_indet,
      origcolors := env.origcolors_indet, nret := -1,
      events := [MemEvent.acquire Block.pixels], scale_call := none,
      apply_call := none, encoded := none, trap := false } px sx sy s method_for_resampling
  have hT : (convert_scale env
    { pixels := some (Block.pixels, px), mappixels := none, palette := none,
      data := none, im := none, context := none, ncolors := env.ncolors_indet,
      origcolors := env.origcolors_indet, nret := -1,
      events := [MemEvent.acquire Block.pixels], scale_call := none,
      apply_call := none, encoded := none, trap := false } px sx sy s
      method_for_resampling).trap = false := (convert_stages_trap K env _).2.1 _ _ _ _ _
  generalize convert_scale env
    { pixels := some (Block.pixels, px), mappixels := none, palette := none,
      data := none, im := none, context := none, ncolors := env.ncolors_indet,
      origcolors := env.origcolors_indet, nret := -1,
      events := [MemEvent.acquire Block.pixels], scale_call := none,
      apply_call := none, encoded := none, trap := false } px sx sy s
    method_for_resampling = vs at hS4 hS6 hS7 hT ⊢
  obtain ⟨hF1, hF2, hF3, -⟩ := convert_prepare_palette_fields K env vs s.sx s.sy
    (if reqcolors < 2 then 2 else if reqcolors > PALETTE_MAX then PALETTE_MAX
      else reqcolors) mapfile
    monochrome method_for_diffuse method_for_largest method_for_rep quality_mode
  have hT2 := (convert_stages_trap K env vs).2.2.1 s.sx s.sy
    (if reqcolors < 2 then 2 else if reqcolors > PALETTE_MAX then PALETTE_MAX
      else reqcolors) mapfile
    monochrome method_for_diffuse method_for_largest method_for_rep quality_mode
  generalize convert_prepare_palette K env vs s.sx s.sy
    (if reqcolors < 2 then 2 else if reqcolors > PALETTE_MAX then PALETTE_MAX
      else reqcolors) mapfile
    monochrome method_for_diffuse method_for_largest method_for_rep quality_mode = vp
    at hF1 hF2 hF3 hT2 ⊢
  obtain ⟨-, hE⟩ := convert_apply_encode_result K env vp.1 s.sx s.sy monochrome vp.2
    f8bit (hF1.trans hS4)
  obtain ⟨-, -, hA3, hA4⟩ := convert_apply_encode_fields K env vp.1 s.sx s.sy
    monochrome vp.2 f8bit
  refine ⟨?_, ?_, ?_, fun im b h => ?_⟩
  · rw [(convert_stages_trap K env vp.1).2.2.2, hT2, hT]
  · rw [hA3, hF2, hS7]
  · rw [hA4, hF3, hS6]
    rfl
  · obtain ⟨-, e1, e2, -⟩ := hE im b h
    exact ⟨e1, e2⟩

/-- C9 (counterexample): a width request of 30% on a 10x9 source yields the target 3x2,
the size `convert_to_sixel` passes to the resampler: the height is 9 * 3 / 10 truncated,
not rounded to the nearest integer (which is 3). -/
theorem percent_width_height_not_rounded :
    ∃ s, scaling 10 9 (-1) (-1) 30 (-1) = some s ∧
      s.scaled = true ∧ s.sx = 10 * 30 / 100 ∧
      s.sy ≠ round ((9 : ℚ) * (s.sx : ℚ) / 10) ∧
      (convert_to_sixel sixel_h (collab_sized 10 9) (some "a.png") 256 none 0
        sixel_h.DIFFUSE_AUTO sixel_h.LARGE_AUTO sixel_h.REP_AUTO sixel_h.QUALITY_AUTO
        resampling_h.RES_BILINEAR 0 (-1) (-1) 30 (-1)).scale_call = some (s.sx, s.sy) := by
  refine ⟨{ pixelwidth := 3, pixelheight := 2, scaled := true, sx := 3, sy := 2 },
    by decide, rfl, by decide, ?_, by decide⟩
  have h3 : round ((9 : ℚ) * ((3 : ℤ) : ℚ) / 10) = 3 := by
    norm_num [round_eq]
  show (2 : ℤ) ≠ round ((9 : ℚ) * ((3 : ℤ) : ℚ) / 10)
  rw [h3]
  decide

/-- C9 (as amended): for a source of size `(w, h)` with `w > 0` and a width-only request of
`P` percent (`P > 0`, no height given) whose target is positive and whose products
`w * P` and `h * new_w` fit in `int`, `convert_to_sixel` calls the resampler with the
target width `w * P / 100` and height `h * new_w / w`, both by integer division rounding
down: the height is the largest integer not above `h * new_w / w`. -/
theorem percent_width_target (K : SixelHeader) (env : Collaborators)
    (filename : Option String) (reqcolors : Int) (mapfile : Option String) (monochrome : Int)
    (method_for_diffuse method_for_largest method_for_rep quality_mode : Int)
    (method_for_resampling : Int) (f8bit : Int)
    (w h P pixelwidth pixelheight percentheight : Int) (f : FILE) (px : List Nat)
    (hopen : open_binary_file env.fopen filename = some f)
    (hload : env.stbi_load_from_file f = some (px, w, h))
    (hw : 0 < w) (hP : 0 < P) (hph : pixelheight ≤ 0) (hpc : percentheight ≤ 0)
    (hnw : 0 < w * P / 100) (hnh : 0 < h * (w * P / 100) / w)
    (hr1 : w * P ≤ INT_MAX) (hr2 : h * (w * P / 100) ≤ INT_MAX) :
    scaling w h pixelwidth pixelheight P percentheight =
      some { pixelwidth := w * P / 100, pixelheight := h * (w * P / 100) / w, scaled := true,
             sx := w * P / 100, sy := h * (w * P / 100) / w } ∧
    (convert_to_sixel K env filename reqcolors mapfile monochrome method_for_diffuse
      method_for_largest method_for_rep quality_mode method_for_resampling f8bit
      pixelwidth pixelheight P percentheight).scale_call =
      some (w * P / 100, h * (w * P / 100) / w) ∧
    ((convert_to_sixel K env filename reqcolors mapfile monochrome method_for_diffuse
      method_for_largest method_for_rep quality_mode method_for_resampling f8bit
      pixelwidth pixelheight P percentheight).pixels.map fun p => p.2) =
      env.LSS_scale px w h 3 (w * P / 100) (h * (w * P / 100) / w) method_for_resampling ∧
    (∀ im b,
      (convert_to_sixel K env filename reqcolors mapfile monochrome method_for_diffuse
        method_for_largest method_for_rep quality_mode method_for_resampling f8bit
        pixelwidth pixelheight P percentheight).encoded = some (im, b) →
      im.sx = w * P / 100 ∧ im.sy = h * (w * P / 100) / w) ∧
    h * (w * P / 100) / w * w ≤ h * (w * P / 100) ∧
    h * (w * P / 100) < (h * (w * P / 100) / w + 1) * w := by
  have hh : 0 < h := by
    by_contra hneg
    have h0 : h * (w * P / 100) ≤ 0 :=
      mul_nonpos_of_nonpos_of_nonneg (not_lt.mp hneg) hnw.le
    have h1 : h * (w * P / 100) / w ≤ 0 / w := Int.ediv_le_ediv hw h0
    rw [Int.zero_ediv] at h1
    omega
  have hpc2 : ¬ percentheight > 0 := not_lt.mpr hpc
  have hph2 : ¬ pixelheight > 0 := not_lt.mpr hph
  have hs : scaling w h pixelwidth pixelheight P percentheight =
      some { pixelwidth := w * P / 100, pixelheight := h * (w * P / 100) / w,
             scaled := true, sx := w * P / 100, sy := h * (w * P / 100) / w } := by
    rw [scaling_eq_spec w h pixelwidth pixelheight P percentheight hw hh (fun _ => hr1)
      (fun hp => absurd hp hpc2)
      (by
        intro _ _
        rw [if_pos hP]
        exact hr2)
      (by
        intro hp
        rw [if_neg hpc2] at hp
        exact absurd hp hph2)]
    simp only [target_size_spec, gt_iff_lt, hP, if_true, hpc, not_lt.mpr hpc, if_false, hnw,
      not_lt.mpr hph, not_false_eq_true, and_self, hnh, decide_True]
  obtain ⟨-, c2, c2b, c3⟩ := convert_scale_call K env filename reqcolors mapfile monochrome
    method_for_diffuse method_for_largest method_for_rep quality_mode method_for_resampling
    f8bit pixelwidth pixelheight P percentheight f px w h _ hopen hload hs
  exact ⟨hs, c2, c2b, c3, Int.ediv_mul_le _ hw.ne', Int.lt_ediv_add_one_mul_self _ hw⟩

/-- C9 (instance): a width request of 50% on a 200x100 source is passed to the resampler as
the target 100x50. -/
theorem percent_width_target_witness :
    scaling 200 100 (-1) (-1) 50 (-1) =
      some { pixelwidth := 100, pixelheight := 50, scaled := true, sx := 100, sy := 50 } ∧
    (convert_to_sixel sixel_h (collab_sized 200 100) (some "a.png") 256 none 0
      sixel_h.DIFFUSE_AUTO sixel_h.LARGE_AUTO sixel_h.REP_AUTO sixel_h.QUALITY_AUTO
      resampling_h.RES_BILINEAR 0 (-1) (-1) 50 (-1)).scale_call = some (100, 50) := by
  have h := percent_width_target sixel_h (collab_sized 200 100) (some "a.png") 256 none 0
    sixel_h.DIFFUSE_AUTO sixel_h.LARGE_AUTO sixel_h.REP_AUTO sixel_h.QUALITY_AUTO
    resampling_h.RES_BILINEAR 0 200 100 50 (-1) (-1) (-1) (FILE.file "a.png")
    (List.replicate (200 * 100 * 3 : Int).toNat 255) (by decide) rfl
    (by decide) (by decide) (by decide) (by decide) (by decide) (by decide) (by decide)
    (by decide)
  exact ⟨h.1, h.2.1⟩

/-- C10: target-size resolution in `convert_to_sixel`, for a source of positive size that
opens and decodes and a request whose products fit in `int`.  The scaling lines compute
the resolution of the specification: percentage axes are resolved first, then exactly
one positive axis drives the other through the source aspect ratio (integer division).
`LSS_scale` is called, with the resolved width and height as target, and the image size
replaced by them, exactly when both are positive; when neither axis is requested it is
not called and the size stays `(sx, sy)`. -/
theorem target_size_resolution (K : SixelHeader) (env : Collaborators)
    (filename : Option String) (reqcolors : Int) (mapfile : Option String) (monochrome : Int)
    (method_for_diffuse method_for_largest method_for_rep quality_mode : Int)
    (method_for_resampling : Int) (f8bit : Int)
    (pixelwidth pixelheight percentwidth percentheight : Int)
    (f : FILE) (px : List Nat) (sx sy : Int)
    (hopen : open_binary_file env.fopen filename = some f)
    (hload : env.stbi_load_from_file f = some (px, sx, sy))
    (hsx : 0 < sx) (hsy : 0 < sy)
    (hr1 : percentwidth > 0 → sx * percentwidth ≤ INT_MAX)
    (hr2 : percentheight > 0 → sy * percentheight ≤ INT_MAX)
    (hr3 : (if percentwidth > 0 then sx * percentwidth / 100 else pixelwidth) > 0 →
      (if percentheight > 0 then sy * percentheight / 100 else pixelheight) ≤ 0 →
      sy * (if percentwidth > 0 then sx * percentwidth / 100 else pixelwidth) ≤ INT_MAX)
    (hr4 : (if percentheight > 0 then sy * percentheight / 100 else pixelheight) > 0 →
      (if percentwidth > 0 then sx * percentwidth / 100 else pixelwidth) ≤ 0 →
      sx * (if percentheight > 0 then sy * percentheight / 100 else pixelheight) ≤ INT_MAX) :
    let t := target_size_spec sx sy pixelwidth pixelheight percentwidth percentheight
    let r := convert_to_sixel K env filename reqcolors mapfile monochrome method_for_diffuse
      method_for_largest method_for_rep quality_mode method_for_resampling f8bit
      pixelwidth pixelheight percentwidth percentheight
    scaling sx sy pixelwidth pixelheight percentwidth percentheight = some t ∧
    r.trap = false ∧
    (r.scale_call ≠ none ↔ 0 < t.pixelwidth ∧ 0 < t.pixelheight) ∧
    (0 < t.pixelwidth ∧ 0 < t.pixelheight →
      r.scale_call = some (t.pixelwidth, t.pixelheight) ∧
      (r.pixels.map fun p => p.2) =
        env.LSS_scale px sx sy 3 t.pixelwidth t.pixelheight method_for_resampling ∧
      t.sx = t.pixelwidth ∧ t.sy = t.pixelheight) ∧
    (¬ (0 < t.pixelwidth ∧ 0 < t.pixelheight) →
      r.scale_call = none ∧ (r.pixels.map fun p => p.2) = some px ∧
      t.sx = sx ∧ t.sy = sy) ∧
    (∀ im b, r.encoded = some (im, b) → im.sx = t.sx ∧ im.sy = t.sy) ∧
    (pixelwidth ≤ 0 ∧ pixelheight ≤ 0 ∧ percentwidth ≤ 0 ∧ percentheight ≤ 0 →
      r.scale_call = none ∧ t.sx = sx ∧ t.sy = sy) := by
  intro t r
  have hs : scaling sx sy pixelwidth pixelheight percentwidth percentheight = some t :=
    scaling_eq_spec sx sy pixelwidth pixelheight percentwidth percentheight hsx hsy
      hr1 hr2 hr3 hr4
  obtain ⟨c1, c2, c2b, c3⟩ := convert_scale_call K env filename reqcolors mapfile
    monochrome method_for_diffuse method_for_largest method_for_rep quality_mode
    method_for_resampling
    f8bit pixelwidth pixelheight percentwidth percentheight f px sx sy t hopen hload hs
  obtain ⟨k1, k2, k3⟩ := scaling_some sx sy pixelwidth pixelheight percentwidth
    percentheight t hs
  have hc2 : r.scale_call =
      (if t.scaled = true then some (t.pixelwidth, t.pixelheight) else none) := c2
  have hc2b : (r.pixels.map fun p => p.2) =
      (if t.scaled = true then
        env.LSS_scale px sx sy 3 t.pixelwidth t.pixelheight method_for_resampling
      else some px) := c2b
  have hpos : 0 < t.pixelwidth ∧ 0 < t.pixelheight →
      r.scale_call = some (t.pixelwidth, t.pixelheight) ∧
      (r.pixels.map fun p => p.2) =
        env.LSS_scale px sx sy 3 t.pixelwidth t.pixelheight method_for_resampling ∧
      t.sx = t.pixelwidth ∧ t.sy = t.pixelheight := by
    intro hp
    have hb := k1.mpr hp
    rw [hc2, hc2b, if_pos hb, if_pos hb]
    exact ⟨rfl, rfl, k2 hb⟩
  have hneg : ¬ (0 < t.pixelwidth ∧ 0 < t.pixelheight) →
      r.scale_call = none ∧ (r.pixels.map fun p => p.2) = some px ∧
      t.sx = sx ∧ t.sy = sy := by
    intro hp
    have hb : t.scaled = false := by
      cases hb : t.scaled with
      | false => rfl
      | true => exact absurd (k1.mp hb) hp
    rw [hc2, hc2b, hb]
    exact ⟨rfl, rfl, k3 hb⟩
  refine ⟨hs, c1, ?_, hpos, hneg, c3, ?_⟩
  · constructor
    · intro hne
      by_contra hp
      exact hne (hneg hp).1
    · intro hp
      rw [(hpos hp).1]
      exact fun h => Option.noConfusion h
  · rintro ⟨h1, h2, h3, h4⟩
    have hn := hneg (by
      rintro ⟨p1, p2⟩
      have e : t = ⟨pixelwidth, pixelheight, false, sx, sy⟩ := by
        show target_size_spec sx sy pixelwidth pixelheight percentwidth percentheight = _
        simp [target_size_spec, not_lt.mpr h1, not_lt.mpr h2, not_lt.mpr h3, not_lt.mpr h4]
      rw [e] at p1
      exact absurd p1 (not_lt.mpr h1))
    exact ⟨hn.1, hn.2.2⟩

/-- C10 (instance): a pixel width of 320 with no height on a 200x100 source.  The height
is derived as 100 * 320 / 200 = 160 and the resampler is called with the target
320x160. -/
theorem target_size_resolution_witness :
    scaling 200 100 320 (-1) (-1) (-1) = some (target_size_spec 200 100 320 (-1) (-1) (-1)) ∧
    target_size_spec 200 100 320 (-1) (-1) (-1) =
      { pixelwidth := 320, pixelheight := 160, scaled := true, sx := 320, sy := 160 } ∧
    (convert_to_sixel sixel_h (collab_sized 200 100) (some "a.png") 256 none 0
      sixel_h.DIFFUSE_AUTO sixel_h.LARGE_AUTO sixel_h.REP_AUTO sixel_h.QUALITY_AUTO
      resampling_h.RES_BILINEAR 0 320 (-1) (-1) (-1)).scale_call = some (320, 160) := by
  have h := target_size_resolution sixel_h (collab_sized 200 100) (some "a.png") 256 none 0
    sixel_h.DIFFUSE_AUTO sixel_h.LARGE_AUTO sixel_h.REP_AUTO sixel_h.QUALITY_AUTO
    resampling_h.RES_BILINEAR 0 320 (-1) (-1) (-1) (FILE.file "a.png")
    (List.replicate (200 * 100 * 3 : Int).toNat 255) 200 100 (by decide) rfl
    (by decide) (by decide) (by decide) (by decide) (by decide) (by decide)
  exact ⟨h.1, by decide, (h.2.2.2.1 ⟨by decide, by decide⟩).1⟩

end Sixel
